import Mathlib

/-!
# Lugdunum, `lug/Graphics/Vulkan/Render/SkyBox.cpp`

A shallow embedding of `SkyBox::createIrradianceMap`, `SkyBox::createPrefilteredMap`
and `SkyBox::destroy`.

Both entry points are straight-line code over collaborators that live outside
the file (renderer, builders, command buffer, queue, fence).  The embedding
keeps the control flow of the source and turns every call on a collaborator
into an `Event` appended to a trace; the answer of each fallible call is read
from a `World`, so a theorem quantified over `World` covers every combination
of successes and failures the source checks for.

Release of transient objects: the trace holds the explicit `destroy()` calls of
the source.  What the destructors of the API classes do when the locals go out
of scope is not in this file; it is kept apart from the trace, in the
`released` field of an outcome, and modelled from the spec; see `scopeExit`.

Numbers: `uint32_t` values are `Nat` (reduced modulo `2 ^ 32` where the source
does arithmetic on them).  The `float` values the source computes are kept as
exact rationals.  `512 * 0.5 ^ m` is a dyadic number that binary32 and binary64
represent exactly for every `m` the loop reaches, so nothing is lost there; the
quotient `m / (mipMapCount - 1)` is rounded by the source and kept exact here.
-/

namespace SkyBox

/-! ## Constants of the two entry points -/

/-- The constant `irradianceMapSize` of `createIrradianceMap` (line 38). -/
def irradianceMapSize : Nat := 64

/-- The constant `prefilteredMapSize` of `createPrefilteredMap` (line 487). -/
def prefilteredMapSize : Nat := 512

/-- The local `mipMapCount` of `createPrefilteredMap` (line 488):
`static_cast<uint32_t>(floor(log2(prefilteredMapSize))) + 1`.  `Nat.log 2` is the
floor of the binary logarithm. -/
def mipMapCount : Nat := (Nat.log 2 prefilteredMapSize % 2 ^ 32 + 1) % 2 ^ 32

/-- The local `roughness` of the mip loop (line 778):
`(float)m / (float)(mipMapCount - 1)`, as an exact rational. -/
def roughness (m : Nat) : ℚ := (m : ℚ) / ((mipMapCount - 1 : Nat) : ℚ)

/-- The expression `prefilteredMapSize * std::pow(0.5f, m)` (lines 804, 805, 884, 885). -/
def mipExtent (m : Nat) : ℚ := (prefilteredMapSize : ℚ) * (1 / 2) ^ m

/-- The conversion `static_cast<uint32_t>(x)` of a non-negative floating value:
truncation towards zero. -/
def toUInt32 (x : ℚ) : Nat := (Rat.floor x).toNat % 2 ^ 32

/-- The byte size of a `float`. -/
def sizeofFloat : Nat := 4

/-- The byte size `sizeof(Math::Mat4x4f)`: sixteen `float`s.  The type is
declared outside this file and is taken to be a 4x4 array of `float` without
padding. -/
def sizeofMat4x4f : Nat := 16 * sizeofFloat

/-! ## Cube face basis and matrices -/

/-- A three-component vector literal of the source; every component written
there is `0.0f`, `1.0f` or `-1.0f`. -/
structure Vec3 where
  x : Int
  y : Int
  z : Int
deriving DecidableEq, Repr

/-- The arguments of one `Math::Geometry::lookAt<float>(eye, center, up)` call. -/
structure LookAt where
  eye : Vec3
  center : Vec3
  up : Vec3
deriving DecidableEq, Repr

/-- The view direction of a `lookAt` call: from `eye` towards `center`. -/
def LookAt.direction (v : LookAt) : Vec3 :=
  ⟨v.center.x - v.eye.x, v.center.y - v.eye.y, v.center.z - v.eye.z⟩

/-- Dot product. -/
def Vec3.dot (a b : Vec3) : Int := a.x * b.x + a.y * b.y + a.z * b.z

/-- Cross product. -/
def Vec3.cross (a b : Vec3) : Vec3 :=
  ⟨a.y * b.z - a.z * b.y, a.z * b.x - a.x * b.z, a.x * b.y - a.y * b.x⟩

/-- The vector `matrices` of `createIrradianceMap` (lines 288-295), as the
arguments of its six `lookAt` calls, in order. -/
def irradianceMatrices : List LookAt :=
  [ ⟨⟨0, 0, 0⟩, ⟨-1, 0, 0⟩, ⟨0, 1, 0⟩⟩,
    ⟨⟨0, 0, 0⟩, ⟨1, 0, 0⟩, ⟨0, 1, 0⟩⟩,
    ⟨⟨0, 0, 0⟩, ⟨0, 1, 0⟩, ⟨0, 0, -1⟩⟩,
    ⟨⟨0, 0, 0⟩, ⟨0, -1, 0⟩, ⟨0, 0, 1⟩⟩,
    ⟨⟨0, 0, 0⟩, ⟨0, 0, 1⟩, ⟨0, 1, 0⟩⟩,
    ⟨⟨0, 0, 0⟩, ⟨0, 0, -1⟩, ⟨0, 1, 0⟩⟩ ]

/-- The vector `matrices` of `createPrefilteredMap` (lines 739-746), as the
arguments of its six `lookAt` calls, in order. -/
def prefilteredMatrices : List LookAt :=
  [ ⟨⟨0, 0, 0⟩, ⟨-1, 0, 0⟩, ⟨0, 1, 0⟩⟩,
    ⟨⟨0, 0, 0⟩, ⟨1, 0, 0⟩, ⟨0, 1, 0⟩⟩,
    ⟨⟨0, 0, 0⟩, ⟨0, 1, 0⟩, ⟨0, 0, -1⟩⟩,
    ⟨⟨0, 0, 0⟩, ⟨0, -1, 0⟩, ⟨0, 0, 1⟩⟩,
    ⟨⟨0, 0, 0⟩, ⟨0, 0, 1⟩, ⟨0, 1, 0⟩⟩,
    ⟨⟨0, 0, 0⟩, ⟨0, 0, -1⟩, ⟨0, 1, 0⟩⟩ ]

/-- The first argument of `perspective`; the source passes `Math::halfPi<float>()`. -/
inductive Angle where
  | halfPi
deriving DecidableEq, Repr

/-- A `Math::Mat4x4f` value as the expression that builds it.  `perspective`,
`lookAt` and the matrix product belong to the math library, outside this file,
so a matrix is kept symbolic. -/
inductive Mat4x4f where
  | perspective (fovy : Angle) (aspect zNear zFar : ℚ)
  | lookAt (v : LookAt)
  | mul (a b : Mat4x4f)
  | missing
deriving DecidableEq

/-- The local `projection` (lines 287, 738):
`perspective(halfPi, 1.0f, 0.1f, static_cast<float>(size))`. -/
def projection (size : Nat) : Mat4x4f := .perspective .halfPi 1 (1 / 10) size

/-- The element `matrices[i]` as a matrix; `missing` stands for an index
outside the vector, which the loops never produce. -/
def matrixAt (matrices : List LookAt) (i : Nat) : Mat4x4f :=
  match matrices.get? i with
  | some v => .lookAt v
  | none => .missing

/-! ## Textures and the texture builder -/

/-- The texture format.  Only `R32G32B32A32_SFLOAT` is named in this file; the
enumeration is declared outside it and the other constructors stand for its
remaining values. -/
inductive Format where
  | R8G8B8A8_UNORM
  | R16G16B16A16_SFLOAT
  | R32G32B32A32_SFLOAT
deriving DecidableEq, Repr

/-- The builder's texture type.  Only `CubeMap` is named in this file. -/
inductive TextureType where
  | Texture2D
  | CubeMap
deriving DecidableEq, Repr

/-- The sampling filter of a texture; declared outside this file and only
copied from the source texture here. -/
inductive Filter where
  | Nearest
  | Linear
deriving DecidableEq, Repr

/-- The wrapping mode of a texture; declared outside this file and only copied
from the source texture here. -/
inductive WrappingMode where
  | ClampToEdge
  | MirroredRepeat
  | Repeat
deriving DecidableEq, Repr

/-- What the entry points read from the source environment texture. -/
structure SourceTexture where
  magFilter : Filter
  minFilter : Filter
  mipMapFilter : Filter
  wrapS : WrappingMode
  wrapT : WrappingMode
deriving DecidableEq, Repr

/-- One layer given to `addLayer(width, height, format)`. -/
structure Layer where
  width : Nat
  height : Nat
  format : Format
deriving DecidableEq, Repr

/-- The state of a `lug::Graphics::Builder::Texture`.  A field is `none` until
the matching setter is called: the class is declared outside this file and its
defaults are left open. -/
structure TextureBuilder where
  type : Option TextureType
  mipLevels : Option Nat
  magFilter : Option Filter
  minFilter : Option Filter
  mipMapFilter : Option Filter
  wrapS : Option WrappingMode
  wrapT : Option WrappingMode
  layers : List Layer
deriving DecidableEq, Repr

/-- A freshly constructed builder, `Builder::Texture textureBuilder(vkRenderer)`. -/
def TextureBuilder.fresh : TextureBuilder :=
  ⟨none, none, none, none, none, none, none, []⟩

/-- The call `setType`. -/
def TextureBuilder.setType (b : TextureBuilder) (t : TextureType) : TextureBuilder :=
  { b with type := some t }

/-- The call `setMipLevels`. -/
def TextureBuilder.setMipLevels (b : TextureBuilder) (n : Nat) : TextureBuilder :=
  { b with mipLevels := some n }

/-- The call `setMagFilter`. -/
def TextureBuilder.setMagFilter (b : TextureBuilder) (f : Filter) : TextureBuilder :=
  { b with magFilter := some f }

/-- The call `setMinFilter`. -/
def TextureBuilder.setMinFilter (b : TextureBuilder) (f : Filter) : TextureBuilder :=
  { b with minFilter := some f }

/-- The call `setMipMapFilter`. -/
def TextureBuilder.setMipMapFilter (b : TextureBuilder) (f : Filter) : TextureBuilder :=
  { b with mipMapFilter := some f }

/-- The call `setWrapS`. -/
def TextureBuilder.setWrapS (b : TextureBuilder) (m : WrappingMode) : TextureBuilder :=
  { b with wrapS := some m }

/-- The call `setWrapT`. -/
def TextureBuilder.setWrapT (b : TextureBuilder) (m : WrappingMode) : TextureBuilder :=
  { b with wrapT := some m }

/-- A successful `addLayer(width, height, format)`: the layer is appended. -/
def TextureBuilder.addLayer (b : TextureBuilder) (width height : Nat) (format : Format) :
    TextureBuilder :=
  { b with layers := b.layers ++ [⟨width, height, format⟩] }

/-- Modelled from the spec: the builder class `lug::Graphics::Builder::Texture` is
declared outside this file, so the mip-level count of a builder on which
`setMipLevels` was never called is taken from the spec's data model ("mip-level
count (1 for irradiance, floor(log2(size))+1 for prefiltered)"): one level. -/
def TextureBuilder.mipLevelCount (b : TextureBuilder) : Nat := b.mipLevels.getD 1

/-! ## Recorded commands -/

/-- The well-known pipeline ids the entry points ask the renderer for. -/
inductive PipelineId where
  | IrradianceMapBaseId
  | PrefilteredMapBaseId
deriving DecidableEq, Repr

/-- The transient objects declared at lines 86-94 and 537-545. -/
inductive Transient where
  | commandPool
  | cmdBuffer
  | offscreenImage
  | offscreenImageView
  | imagesMemory
  | framebuffer
  | fence
  | descriptorPool
  | descriptorSet
deriving DecidableEq, Repr

/-- The image layouts named in the file. -/
inductive ImageLayout where
  | UNDEFINED
  | COLOR_ATTACHMENT_OPTIMAL
  | TRANSFER_SRC_OPTIMAL
  | TRANSFER_DST_OPTIMAL
  | SHADER_READ_ONLY_OPTIMAL
deriving DecidableEq, Repr

/-- The access bits named in the file; an access mask is a list of bits and the
literal `0` is the empty list. -/
inductive AccessBit where
  | COLOR_ATTACHMENT_WRITE_BIT
  | TRANSFER_WRITE_BIT
  | SHADER_READ_BIT
deriving DecidableEq, Repr

/-- The two images a barrier or a copy names: the transient `offscreenImage`
and the image of the derived map's `_environnementTexture`. -/
inductive ImageRef where
  | offscreenImage
  | environnementTexture
deriving DecidableEq, Repr

/-- One `CmdPipelineBarrier::ImageMemoryBarrier`.  The layouts and the image are
assigned at every use; a field the source leaves at the struct's default
(declared outside this file) is `none`. -/
structure ImageMemoryBarrier where
  srcAccessMask : Option (List AccessBit)
  dstAccessMask : Option (List AccessBit)
  oldLayout : ImageLayout
  newLayout : ImageLayout
  image : ImageRef
  levelCount : Option Nat
  layerCount : Option Nat
deriving DecidableEq, Repr

/-- A `VkExtent2D`. -/
structure Extent2D where
  width : Nat
  height : Nat
deriving DecidableEq, Repr

/-- A `VkExtent3D`. -/
structure Extent3D where
  width : Nat
  height : Nat
  depth : Nat
deriving DecidableEq, Repr

/-- A `VkRect2D`. -/
structure Rect2D where
  offsetX : Int
  offsetY : Int
  extent : Extent2D
deriving DecidableEq, Repr

/-- A `VkViewport`. -/
structure Viewport where
  x : ℚ
  y : ℚ
  width : ℚ
  height : ℚ
  minDepth : ℚ
  maxDepth : ℚ
deriving DecidableEq

/-- A `CmdBeginRenderPass` on the call's framebuffer: the render area,
`clearValues[0].color` and `clearValues[1].depthStencil`. -/
structure CmdBeginRenderPass where
  renderArea : Rect2D
  clearColor : List ℚ
  clearDepth : ℚ
  clearStencil : Nat
deriving DecidableEq

/-- A `VkImageSubresourceLayers` with the colour aspect. -/
structure ImageSubresourceLayers where
  baseArrayLayer : Nat
  mipLevel : Nat
  layerCount : Nat
deriving DecidableEq, Repr

/-- A `VkImageCopy`; both offsets are `{0, 0, 0}` at every use. -/
structure ImageCopy where
  srcSubresource : ImageSubresourceLayers
  srcOffset : Int × Int × Int
  dstSubresource : ImageSubresourceLayers
  dstOffset : Int × Int × Int
  extent : Extent3D
deriving DecidableEq, Repr

/-- A `CmdCopyImage`. -/
structure CmdCopyImage where
  srcImage : ImageRef
  srcImageLayout : ImageLayout
  dstImage : ImageRef
  dsrImageLayout : ImageLayout
  regions : List ImageCopy
deriving DecidableEq, Repr

/-- The shader stages named in the file. -/
inductive ShaderStage where
  | VERTEX_BIT
  | FRAGMENT_BIT
deriving DecidableEq, Repr

/-- The data a push-constant command points at. -/
inductive PushValues where
  | matrix (m : Mat4x4f)
  | scalar (r : ℚ)
deriving DecidableEq

/-- A `CmdPushConstants` on the pipeline's layout. -/
structure CmdPushConstants where
  stageFlags : ShaderStage
  offset : Nat
  size : Nat
  values : PushValues
deriving DecidableEq

/-- A call that records into `cmdBuffer`, with the arguments the source gives it. -/
inductive Cmd where
  | bindPipeline (id : PipelineId)
  | bindDescriptorSets (firstSet : Nat) (descriptorSets : List Transient)
      (dynamicOffsets : List Nat)
  | bindVertexBuffers (offsets : List Nat)
  | bindIndexBufferUint16
  | pipelineBarrier (imageMemoryBarriers : List ImageMemoryBarrier)
  | beginRenderPass (c : CmdBeginRenderPass)
  | setViewport (viewports : List Viewport)
  | setScissor (scissors : List Rect2D)
  | pushConstants (c : CmdPushConstants)
  | drawIndexed (indexCount instanceCount : Nat)
  | endRenderPass
  | copyImage (c : CmdCopyImage)
deriving DecidableEq

/-! ## Calls on collaborators -/

/-- The usage bits given to the image builder. -/
inductive ImageUsage where
  | COLOR_ATTACHMENT_BIT
  | TRANSFER_SRC_BIT
deriving DecidableEq, Repr

/-- A `build` call on one of the API builders, with the numeric settings the
source gave the builder before the call. -/
inductive BuildRequest where
  | commandPool
  | commandBuffer
  | descriptorPool (flags maxSets descriptorCount : Nat)
  | descriptorSet
  | fence
  | image (extent : Extent3D) (usage : List ImageUsage)
  | deviceMemory
  | imageView
  | framebuffer (width height : Nat)
deriving DecidableEq, Repr

/-- The transient object a `build` call fills. -/
def BuildRequest.target : BuildRequest → Transient
  | .commandPool => .commandPool
  | .commandBuffer => .cmdBuffer
  | .descriptorPool _ _ _ => .descriptorPool
  | .descriptorSet => .descriptorSet
  | .fence => .fence
  | .image _ _ => .offscreenImage
  | .deviceMemory => .imagesMemory
  | .imageView => .offscreenImageView
  | .framebuffer _ _ => .framebuffer

/-- One observable action of an entry point, in program order. -/
inductive Event where
  /-- `new Vulkan::Render::SkyBox(name)`, owned by the local `resource`. -/
  | newSkyBox (name : String)
  /-- `vkRenderer.getPipeline(id)`. -/
  | getPipeline (id : PipelineId)
  /-- `LUG_LOG.error(message)`; the message is the format string. -/
  | error (message : String)
  /-- `textureBuilder.addLayer(width, height, format)`. -/
  | addLayer (width height : Nat) (format : Format)
  /-- `textureBuilder.build()`, with the builder's state at the call. -/
  | textureBuild (b : TextureBuilder)
  /-- `vkRenderer.getDevice().getQueue(name)`. -/
  | getQueue (name : String)
  /-- `build` on an API builder. -/
  | build (r : BuildRequest)
  /-- `deviceMemoryBuilder.addImage(offscreenImage)`. -/
  | addImage
  /-- `descriptorSet.updateImages(0, 0, COMBINED_IMAGE_SAMPLER, ...)` with the
  source texture's sampler and view in the given layout. -/
  | updateImages (dstBinding dstArrayElement : Nat) (imageLayout : ImageLayout)
  /-- `cmdBuffer.begin()`. -/
  | cmdBegin
  /-- A command recorded into `cmdBuffer`. -/
  | record (c : Cmd)
  /-- `cmdBuffer.end()`. -/
  | cmdEnd
  /-- `graphicsQueue->submit(cmdBuffer, wait semaphores, wait stages, signal
  semaphores, fence)`; the three lists hold the handles passed. -/
  | submit (waitSemaphores waitDstStageMasks signalSemaphores : List Nat)
      (signalled : Transient)
  /-- `fence.wait()`. -/
  | fenceWait
  /-- `graphicsQueue->waitIdle()`. -/
  | waitIdle
  /-- An explicit `destroy()` on a transient object. -/
  | destroy (t : Transient)
  /-- `getResourceManager()->add<SkyBox>(std::move(resource))`. -/
  | add (name : String)
  /-- The local `resource` goes out of scope still owning the derived SkyBox:
  `~SkyBox` runs, which calls `SkyBox::destroy`. -/
  | deleteSkyBox
deriving DecidableEq

/-- Everything an entry point reads from outside: the source SkyBox and the
answer of each fallible call. -/
structure World where
  /-- The source's `_name`. -/
  name : String
  /-- The source's `getEnvironnementTexture()`; `none` is a null pointer. -/
  environnementTexture : Option SourceTexture
  /-- Whether `getPipeline(id)` returns a pipeline. -/
  pipeline : PipelineId → Bool
  /-- Whether the `k`-th `addLayer` call of the run (from 0) returns true. -/
  addLayer : Nat → Bool
  /-- Whether `textureBuilder.build()` returns a texture. -/
  textureBuild : Bool
  /-- Whether `getQueue("queue_graphics")` returns a queue. -/
  queue : Bool
  /-- Whether the `build` call that fills the given transient object succeeds. -/
  build : Transient → Bool
  /-- Whether `deviceMemoryBuilder.addImage` succeeds. -/
  addImage : Bool
  /-- Whether `cmdBuffer.begin()` succeeds. -/
  cmdBegin : Bool
  /-- Whether `cmdBuffer.end()` succeeds. -/
  cmdEnd : Bool
  /-- Whether `graphicsQueue->submit` succeeds. -/
  submit : Bool
  /-- Whether `fence.wait()` succeeds. -/
  fenceWait : Bool
  /-- Whether `graphicsQueue->waitIdle()` succeeds. -/
  waitIdle : Bool
  /-- The cube mesh's `primitiveSet.indices->buffer.elementsCount`. -/
  elementsCount : Nat

/-- The derived SkyBox handed to the resource manager: its name and the
configuration its `_environnementTexture` was built from. -/
structure DerivedSkyBox where
  name : String
  environnementTexture : TextureBuilder
deriving DecidableEq

/-- A finished call: the trace of its actions, the value returned (`none` for
`nullptr`), and the transient locals released as the function body is left,
in the order of their release. -/
structure Outcome where
  trace : List Event
  value : Option DerivedSkyBox
  released : List Transient

/-- Actions performed before the rest of the call. -/
def Outcome.after (es : List Event) (k : Outcome) : Outcome :=
  ⟨es ++ k.trace, k.value, k.released⟩

/-- One call on a collaborator, then the rest. -/
def call (e : Event) (k : Outcome) : Outcome := Outcome.after [e] k

/-- Modelled from the spec: what leaving the function body does to the nine
transient locals (`API::CommandPool commandPool` to `API::DescriptorSet
descriptorSet`, lines 86-94 and 537-545).  Their classes are declared outside
this file, so the source does not show what their destructors do.  For a
successful call (`success = true`, the return on lines 483 and 955) sections
2, 3 and 8 of the spec say that every transient object the call created is
destroyed by the time the call returns: the nine locals are released, in the
reverse order of their declaration.  For an early failure return
(`success = false`) sections 5 and 9 of the spec say that nothing the call had
built is released: no local is. -/
def scopeExit (success : Bool) : List Transient :=
  if success then
    [.descriptorSet, .descriptorPool, .fence, .framebuffer, .imagesMemory,
      .offscreenImageView, .offscreenImage, .cmdBuffer, .commandPool]
  else []

/-- The statement `return nullptr;` after the given actions.  Every such
statement lies in the scope of the local `resource`, a `std::unique_ptr` that
still owns the derived SkyBox and was declared before every other local, so
the SkyBox is deleted last on the way out. -/
def returnNullptr (es : List Event) : Outcome :=
  ⟨es ++ [.deleteSkyBox], none, scopeExit false⟩

/-- The statement `return getResourceManager()->add<SkyBox>(std::move(resource));`
(lines 483 and 955): the derived SkyBox is handed over, so leaving the scope
does not delete it; the transient locals go out of scope after the call of
`add`. -/
def returnAdded (d : DerivedSkyBox) : Outcome := ⟨[.add d.name], some d, scopeExit true⟩

/-- The pattern `if (!ok) { onFailure; return nullptr; }` followed by the rest. -/
def check (ok : Bool) (onFailure : List Event) (k : Outcome) : Outcome :=
  if ok then k else returnNullptr onFailure

/-- The pattern `if (!ptr) { onFailure; return nullptr; }` on a pointer, followed
by the rest, which uses what the pointer refers to. -/
def checkSome {α : Type} (ptr : Option α) (onFailure : List Event) (k : α → Outcome) :
    Outcome :=
  match ptr with
  | none => returnNullptr onFailure
  | some a => k a

/-- The chain `!addLayer(..) || !addLayer(..) || ...` of `n` calls (lines 69-74
and 520-525), the first of which is the `k`-th `addLayer` call of the run.  The
operator `||` stops at the first call that returns false; `none` says that one did. -/
def addLayers (ok : Nat → Bool) (width height : Nat) (format : Format) :
    Nat → Nat → TextureBuilder → List Event × Option TextureBuilder
  | _, 0, b => ([], some b)
  | k, n + 1, b =>
    if ok k then
      let rest := addLayers ok width height format (k + 1) n (b.addLayer width height format)
      (Event.addLayer width height format :: rest.1, rest.2)
    else
      ([Event.addLayer width height format], none)

/-! ## `createIrradianceMap` -/

/-- The body of the face loop of `createIrradianceMap` (lines 325-437) for face `i`. -/
def irradianceIteration (elementsCount i : Nat) : List Cmd :=
  [ .beginRenderPass
      { renderArea := ⟨0, 0, ⟨irradianceMapSize, irradianceMapSize⟩⟩
        clearColor := [0, 0, 0, 1]
        clearDepth := 1
        clearStencil := 0 },
    .setViewport [⟨0, 0, irradianceMapSize, irradianceMapSize, 0, 1⟩],
    .setScissor [⟨0, 0, ⟨irradianceMapSize, irradianceMapSize⟩⟩],
    .pushConstants
      { stageFlags := .VERTEX_BIT
        offset := 0
        size := 1 * sizeofMat4x4f
        values := .matrix (.mul (projection irradianceMapSize) (matrixAt irradianceMatrices i)) },
    .drawIndexed elementsCount 1,
    .endRenderPass,
    .pipelineBarrier
      [ { srcAccessMask := none
          dstAccessMask := none
          oldLayout := .COLOR_ATTACHMENT_OPTIMAL
          newLayout := .TRANSFER_SRC_OPTIMAL
          image := .offscreenImage
          levelCount := none
          layerCount := none } ],
    .copyImage
      { srcImage := .offscreenImage
        srcImageLayout := .TRANSFER_SRC_OPTIMAL
        dstImage := .environnementTexture
        dsrImageLayout := .TRANSFER_DST_OPTIMAL
        regions :=
          [ { srcSubresource := ⟨0, 0, 1⟩
              srcOffset := (0, 0, 0)
              dstSubresource := ⟨i, 0, 1⟩
              dstOffset := (0, 0, 0)
              extent := ⟨irradianceMapSize, irradianceMapSize, 1⟩ } ] },
    .pipelineBarrier
      [ { srcAccessMask := none
          dstAccessMask := none
          oldLayout := .TRANSFER_SRC_OPTIMAL
          newLayout := .COLOR_ATTACHMENT_OPTIMAL
          image := .offscreenImage
          levelCount := none
          layerCount := none } ] ]

/-- Everything `createIrradianceMap` records between `cmdBuffer.begin()` and
`cmdBuffer.end()` (lines 258-452). -/
def irradianceCommands (elementsCount : Nat) : List Cmd :=
  [ .bindPipeline .IrradianceMapBaseId,
    .bindDescriptorSets 0 [.descriptorSet] [],
    .bindVertexBuffers [0],
    .bindIndexBufferUint16,
    .pipelineBarrier
      [ { srcAccessMask := some []
          dstAccessMask := some [.COLOR_ATTACHMENT_WRITE_BIT]
          oldLayout := .UNDEFINED
          newLayout := .COLOR_ATTACHMENT_OPTIMAL
          image := .offscreenImage
          levelCount := none
          layerCount := none } ],
    .pipelineBarrier
      [ { srcAccessMask := some []
          dstAccessMask := some [.TRANSFER_WRITE_BIT]
          oldLayout := .UNDEFINED
          newLayout := .TRANSFER_DST_OPTIMAL
          image := .environnementTexture
          levelCount := none
          layerCount := some 6 } ] ]
  ++ (List.range 6).flatMap (irradianceIteration elementsCount)
  ++ [ .pipelineBarrier
      [ { srcAccessMask := some [.TRANSFER_WRITE_BIT]
          dstAccessMask := some [.SHADER_READ_BIT]
          oldLayout := .TRANSFER_DST_OPTIMAL
          newLayout := .SHADER_READ_ONLY_OPTIMAL
          image := .environnementTexture
          levelCount := none
          layerCount := some 6 } ] ]

/-- The method `SkyBox::createIrradianceMap` (lines 37-484). -/
def createIrradianceMap (w : World) : Outcome :=
  call (.newSkyBox (w.name ++ "_irradiance_map")) <|
  call (.getPipeline .IrradianceMapBaseId) <|
  check (w.pipeline .IrradianceMapBaseId)
    [.error "Resource::SharedPtr<::lug::Graphics::Render::SkyBox>::createIrradianceMap: Can't get the irradiance map pipeline"] <|
  checkSome w.environnementTexture
    [.error "Resource::SharedPtr<::lug::Graphics::Render::SkyBox>::createIrradianceMap: The skybox doesn't have an environnement"]
    fun texture =>
  let textureBuilder :=
    ((((((TextureBuilder.fresh.setType .CubeMap).setMagFilter texture.magFilter).setMinFilter
      texture.minFilter).setMipMapFilter texture.mipMapFilter).setWrapS texture.wrapS).setWrapT
      texture.wrapT)
  let layers :=
    addLayers w.addLayer irradianceMapSize irradianceMapSize .R32G32B32A32_SFLOAT 0 6
      textureBuilder
  Outcome.after layers.1 <|
  checkSome layers.2
    [.error "Resource::SharedPtr<::lug::Graphics::Render::SkyBox>::build: Can't create irradiance map texture layers"]
    fun textureBuilder =>
  call (.textureBuild textureBuilder) <|
  check w.textureBuild
    [.error "Resource::SharedPtr<::lug::Graphics::Render::SkyBox>::build Can't create the irradiance map texture"] <|
  call (.getQueue "queue_graphics") <|
  check w.queue
    [.error "Resource::SharedPtr<::lug::Graphics::Render::SkyBox>::createIrradianceMap: Can't find queue with name queue_graphics"] <|
  call (.build .commandPool) <|
  check (w.build .commandPool)
    [.error "Forward::iniResource::SharedPtr<::lug::Graphics::Render::SkyBox>::createIrradianceMap: Can't create the graphics command pool: \x7b\x7d"] <|
  call (.build .commandBuffer) <|
  check (w.build .cmdBuffer)
    [.error "Resource::SharedPtr<::lug::Graphics::Render::SkyBox>::createIrradianceMap: Can't create the command buffer: \x7b\x7d"] <|
  call (.build (.descriptorPool 0 42 42)) <|
  check (w.build .descriptorPool)
    [.error "Resource::SharedPtr<::lug::Graphics::Render::SkyBox>::createIrradianceMap: Can't create the descriptor pool: \x7b\x7d"] <|
  call (.build .descriptorSet) <|
  check (w.build .descriptorSet)
    [.error "DescriptorSetPool: Can't create descriptor set: \x7b\x7d"] <|
  call (.updateImages 0 0 .SHADER_READ_ONLY_OPTIMAL) <|
  call (.build .fence) <|
  check (w.build .fence)
    [.error "Resource::SharedPtr<::lug::Graphics::Render::SkyBox>::createIrradianceMap: Can't create render fence: \x7b\x7d"] <|
  call (.build (.image ⟨irradianceMapSize, irradianceMapSize, 1⟩
    [.COLOR_ATTACHMENT_BIT, .TRANSFER_SRC_BIT])) <|
  check (w.build .offscreenImage)
    [.error "Forward::iniResource::SharedPtr<::lug::Graphics::Render::SkyBox>::createIrradianceMap: Can't create depth buffer image: \x7b\x7d"] <|
  call .addImage <|
  check w.addImage
    [.error "Forward::iniResource::SharedPtr<::lug::Graphics::Render::SkyBox>::createIrradianceMap: Can't add image to device memory"] <|
  call (.build .deviceMemory) <|
  check (w.build .imagesMemory)
    [.error "Forward::iniResource::SharedPtr<::lug::Graphics::Render::SkyBox>::createIrradianceMap: Can't create device memory: \x7b\x7d"] <|
  call (.build .imageView) <|
  check (w.build .offscreenImageView)
    [.error "Forward::iniResource::SharedPtr<::lug::Graphics::Render::SkyBox>::createIrradianceMap: Can't create depth buffer image view: \x7b\x7d"] <|
  call (.build (.framebuffer irradianceMapSize irradianceMapSize)) <|
  check (w.build .framebuffer)
    [.error "Forward::initFramebuffers: Can't create framebuffer: \x7b\x7d"] <|
  call .cmdBegin <|
  check w.cmdBegin [] <|
  Outcome.after ((irradianceCommands w.elementsCount).map .record) <|
  call .cmdEnd <|
  check w.cmdEnd [] <|
  call (.submit [] [] [] .fence) <|
  check w.submit
    [.error "Forward::iniResource::SharedPtr<::lug::Graphics::Render::SkyBox>::createIrradianceMap: Can't submit work to graphics queue: \x7b\x7d"] <|
  call .fenceWait <|
  check w.fenceWait
    [.error "Forward::iniResource::SharedPtr<::lug::Graphics::Render::SkyBox>::createIrradianceMap:: Can't wait fence"] <|
  call .waitIdle <|
  check w.waitIdle
    [.error "Forward::iniResource::SharedPtr<::lug::Graphics::Render::SkyBox>::createIrradianceMap:: Can't wait fence"] <|
  call (.destroy .cmdBuffer) <|
  call (.destroy .commandPool) <|
  call (.destroy .offscreenImage) <|
  call (.destroy .offscreenImageView) <|
  call (.destroy .framebuffer) <|
  call (.destroy .descriptorPool) <|
  call (.destroy .fence) <|
  returnAdded ⟨w.name ++ "_irradiance_map", textureBuilder⟩

/-! ## `createPrefilteredMap` -/

/-- The body of the inner face loop of `createPrefilteredMap` (lines 781-907) for
mip `m` and face `i`. -/
def prefilteredIteration (elementsCount m i : Nat) : List Cmd :=
  [ .beginRenderPass
      { renderArea := ⟨0, 0, ⟨prefilteredMapSize, prefilteredMapSize⟩⟩
        clearColor := [0, 0, 0, 1]
        clearDepth := 1
        clearStencil := 0 },
    .setViewport [⟨0, 0, mipExtent m, mipExtent m, 0, 1⟩],
    .setScissor [⟨0, 0, ⟨prefilteredMapSize, prefilteredMapSize⟩⟩],
    .pushConstants
      { stageFlags := .VERTEX_BIT
        offset := 0
        size := 1 * sizeofMat4x4f
        values := .matrix (.mul (projection prefilteredMapSize) (matrixAt prefilteredMatrices i)) },
    .pushConstants
      { stageFlags := .FRAGMENT_BIT
        offset := sizeofMat4x4f
        size := sizeofFloat
        values := .scalar (roughness m) },
    .drawIndexed elementsCount 1,
    .endRenderPass,
    .pipelineBarrier
      [ { srcAccessMask := none
          dstAccessMask := none
          oldLayout := .COLOR_ATTACHMENT_OPTIMAL
          newLayout := .TRANSFER_SRC_OPTIMAL
          image := .offscreenImage
          levelCount := none
          layerCount := none } ],
    .copyImage
      { srcImage := .offscreenImage
        srcImageLayout := .TRANSFER_SRC_OPTIMAL
        dstImage := .environnementTexture
        dsrImageLayout := .TRANSFER_DST_OPTIMAL
        regions :=
          [ { srcSubresource := ⟨0, 0, 1⟩
              srcOffset := (0, 0, 0)
              dstSubresource := ⟨i, m, 1⟩
              dstOffset := (0, 0, 0)
              extent := ⟨toUInt32 (mipExtent m), toUInt32 (mipExtent m), 1⟩ } ] },
    .pipelineBarrier
      [ { srcAccessMask := none
          dstAccessMask := none
          oldLayout := .TRANSFER_SRC_OPTIMAL
          newLayout := .COLOR_ATTACHMENT_OPTIMAL
          image := .offscreenImage
          levelCount := none
          layerCount := none } ] ]

/-- Everything `createPrefilteredMap` records between `cmdBuffer.begin()` and
`cmdBuffer.end()` (lines 709-924). -/
def prefilteredCommands (elementsCount : Nat) : List Cmd :=
  [ .bindPipeline .PrefilteredMapBaseId,
    .bindDescriptorSets 0 [.descriptorSet] [],
    .bindVertexBuffers [0],
    .bindIndexBufferUint16,
    .pipelineBarrier
      [ { srcAccessMask := some []
          dstAccessMask := some [.COLOR_ATTACHMENT_WRITE_BIT]
          oldLayout := .UNDEFINED
          newLayout := .COLOR_ATTACHMENT_OPTIMAL
          image := .offscreenImage
          levelCount := none
          layerCount := none } ],
    .pipelineBarrier
      [ { srcAccessMask := some []
          dstAccessMask := some [.TRANSFER_WRITE_BIT]
          oldLayout := .UNDEFINED
          newLayout := .TRANSFER_DST_OPTIMAL
          image := .environnementTexture
          levelCount := some mipMapCount
          layerCount := some 6 } ] ]
  ++ (List.range mipMapCount).flatMap
      (fun m => (List.range 6).flatMap (prefilteredIteration elementsCount m))
  ++ [ .pipelineBarrier
      [ { srcAccessMask := some [.TRANSFER_WRITE_BIT]
          dstAccessMask := some [.SHADER_READ_BIT]
          oldLayout := .TRANSFER_DST_OPTIMAL
          newLayout := .SHADER_READ_ONLY_OPTIMAL
          image := .environnementTexture
          levelCount := some mipMapCount
          layerCount := some 6 } ] ]

/-- The method `SkyBox::createPrefilteredMap` (lines 486-956). -/
def createPrefilteredMap (w : World) : Outcome :=
  call (.newSkyBox (w.name ++ "_prefiltered_map")) <|
  call (.getPipeline .PrefilteredMapBaseId) <|
  check (w.pipeline .PrefilteredMapBaseId)
    [.error "Resource::SharedPtr<::lug::Graphics::Render::SkyBox>::createPrefilteredMap: Can't get the prefiltered map pipeline"] <|
  let textureBuilder := TextureBuilder.fresh
  checkSome w.environnementTexture
    [.error "Resource::SharedPtr<::lug::Graphics::Render::SkyBox>::createPrefilteredMap: The skybox doesn't have an environnement"]
    fun texture =>
  let textureBuilder :=
    (((((((textureBuilder.setType .CubeMap).setMipLevels mipMapCount).setMagFilter
      texture.magFilter).setMinFilter texture.minFilter).setMipMapFilter
      texture.mipMapFilter).setWrapS texture.wrapS).setWrapT texture.wrapT)
  let layers :=
    addLayers w.addLayer prefilteredMapSize prefilteredMapSize .R32G32B32A32_SFLOAT 0 6
      textureBuilder
  Outcome.after layers.1 <|
  checkSome layers.2
    [.error "Resource::SharedPtr<::lug::Graphics::Render::SkyBox>::build: Can't create prefiltered map texture layers"]
    fun textureBuilder =>
  call (.textureBuild textureBuilder) <|
  check w.textureBuild
    [.error "Resource::SharedPtr<::lug::Graphics::Render::SkyBox>::build Can't create the prefiltered map texture"] <|
  call (.getQueue "queue_graphics") <|
  check w.queue
    [.error "Resource::SharedPtr<::lug::Graphics::Render::SkyBox>::createPrefilteredMap: Can't find queue with name queue_graphics"] <|
  call (.build .commandPool) <|
  check (w.build .commandPool)
    [.error "Forward::iniResource::SharedPtr<::lug::Graphics::Render::SkyBox>::createPrefilteredMap: Can't create the graphics command pool: \x7b\x7d"] <|
  call (.build .commandBuffer) <|
  check (w.build .cmdBuffer)
    [.error "Resource::SharedPtr<::lug::Graphics::Render::SkyBox>::createPrefilteredMap: Can't create the command buffer: \x7b\x7d"] <|
  call (.build (.descriptorPool 0 42 42)) <|
  check (w.build .descriptorPool)
    [.error "Resource::SharedPtr<::lug::Graphics::Render::SkyBox>::createPrefilteredMap: Can't create the descriptor pool: \x7b\x7d"] <|
  call (.build .descriptorSet) <|
  check (w.build .descriptorSet)
    [.error "DescriptorSetPool: Can't create descriptor set: \x7b\x7d"] <|
  call (.updateImages 0 0 .SHADER_READ_ONLY_OPTIMAL) <|
  call (.build .fence) <|
  check (w.build .fence)
    [.error "Resource::SharedPtr<::lug::Graphics::Render::SkyBox>::createPrefilteredMap: Can't create render fence: \x7b\x7d"] <|
  call (.build (.image ⟨prefilteredMapSize, prefilteredMapSize, 1⟩
    [.COLOR_ATTACHMENT_BIT, .TRANSFER_SRC_BIT])) <|
  check (w.build .offscreenImage)
    [.error "Forward::iniResource::SharedPtr<::lug::Graphics::Render::SkyBox>::createPrefilteredMap: Can't create depth buffer image: \x7b\x7d"] <|
  call .addImage <|
  check w.addImage
    [.error "Forward::iniResource::SharedPtr<::lug::Graphics::Render::SkyBox>::createPrefilteredMap: Can't add image to device memory"] <|
  call (.build .deviceMemory) <|
  check (w.build .imagesMemory)
    [.error "Forward::iniResource::SharedPtr<::lug::Graphics::Render::SkyBox>::createPrefilteredMap: Can't create device memory: \x7b\x7d"] <|
  call (.build .imageView) <|
  check (w.build .offscreenImageView)
    [.error "Forward::iniResource::SharedPtr<::lug::Graphics::Render::SkyBox>::createPrefilteredMap: Can't create depth buffer image view: \x7b\x7d"] <|
  call (.build (.framebuffer prefilteredMapSize prefilteredMapSize)) <|
  check (w.build .framebuffer)
    [.error "Forward::initFramebuffers: Can't create framebuffer: \x7b\x7d"] <|
  call .cmdBegin <|
  check w.cmdBegin [] <|
  Outcome.after ((prefilteredCommands w.elementsCount).map .record) <|
  call .cmdEnd <|
  check w.cmdEnd [] <|
  call (.submit [] [] [] .fence) <|
  check w.submit
    [.error "Forward::iniResource::SharedPtr<::lug::Graphics::Render::SkyBox>::createPrefilteredMap: Can't submit work to graphics queue: \x7b\x7d"] <|
  call .fenceWait <|
  check w.fenceWait
    [.error "Forward::iniResource::SharedPtr<::lug::Graphics::Render::SkyBox>::createPrefilteredMap:: Can't wait fence"] <|
  call .waitIdle <|
  check w.waitIdle
    [.error "Forward::iniResource::SharedPtr<::lug::Graphics::Render::SkyBox>::createPrefilteredMap:: Can't wait fence"] <|
  call (.destroy .cmdBuffer) <|
  call (.destroy .commandPool) <|
  call (.destroy .offscreenImage) <|
  call (.destroy .offscreenImageView) <|
  call (.destroy .framebuffer) <|
  call (.destroy .descriptorPool) <|
  call (.destroy .fence) <|
  returnAdded ⟨w.name ++ "_prefiltered_map", textureBuilder⟩

/-! ## `destroy` and the live-instance counter -/

/-- The method `SkyBox::destroy` (lines 33-35) on the static `uint32_t
_skyBoxCount`: `--_skyBoxCount`, which wraps at zero. -/
def destroy (skyBoxCount : Nat) : Nat := (skyBoxCount + (2 ^ 32 - 1)) % 2 ^ 32

/-- The value of `_skyBoxCount` after a call whose trace is given: each
deletion of a SkyBox runs `~SkyBox`, which calls `destroy`; the constructor
(line 27) leaves the counter alone. -/
def skyBoxCountAfter (skyBoxCount : Nat) : List Event → Nat
  | [] => skyBoxCount
  | .deleteSkyBox :: es => skyBoxCountAfter (destroy skyBoxCount) es
  | _ :: es => skyBoxCountAfter skyBoxCount es

/-! ## Views of a trace -/

/-- Whether an event is an error log entry. -/
def Event.isError : Event → Bool
  | .error _ => true
  | _ => false

/-- Whether an event is an explicit `destroy()` on a transient object. -/
def Event.isDestroy : Event → Bool
  | .destroy _ => true
  | _ => false

/-- Whether an event invokes the build of a GPU object: the destination
texture or a transient object. -/
def Event.isBuild : Event → Bool
  | .textureBuild _ => true
  | .build _ => true
  | _ => false

/-- Whether an event adds a layer to the destination texture builder. -/
def Event.isAddLayer : Event → Bool
  | .addLayer _ _ _ => true
  | _ => false

/-- The builder state of a `textureBuilder.build()` event. -/
def Event.textureBuilt : Event → Option TextureBuilder
  | .textureBuild b => some b
  | _ => none

/-- The request of a `build` event on an API builder. -/
def Event.buildRequest : Event → Option BuildRequest
  | .build r => some r
  | _ => none

/-- The layer requested by an `addLayer` event. -/
def Event.layerAdded : Event → Option Layer
  | .addLayer width height format => some ⟨width, height, format⟩
  | _ => none

/-- The transient object an event destroys. -/
def Event.destroyed : Event → Option Transient
  | .destroy t => some t
  | _ => none

/-- The transient object a `build` event asks for. -/
def Event.buildTarget : Event → Option Transient
  | .build r => some r.target
  | _ => none

/-- The viewports of a `setViewport` command. -/
def Cmd.viewports : Cmd → Option (List Viewport)
  | .setViewport v => some v
  | _ => none

/-- The scissor rectangles of a `setScissor` command. -/
def Cmd.scissors : Cmd → Option (List Rect2D)
  | .setScissor r => some r
  | _ => none

/-- The argument of a `beginRenderPass` command. -/
def Cmd.renderPassBegun : Cmd → Option CmdBeginRenderPass
  | .beginRenderPass c => some c
  | _ => none

/-- The argument of a `pushConstants` command. -/
def Cmd.pushed : Cmd → Option CmdPushConstants
  | .pushConstants c => some c
  | _ => none

/-- The matrix a `pushConstants` command points at, when it points at one. -/
def Cmd.matrixPushed : Cmd → Option Mat4x4f
  | .pushConstants ⟨_, _, _, .matrix m⟩ => some m
  | _ => none

/-- The scalar a `pushConstants` command points at, when it points at one. -/
def Cmd.scalarPushed : Cmd → Option ℚ
  | .pushConstants ⟨_, _, _, .scalar r⟩ => some r
  | _ => none

/-- The argument of a `copyImage` command. -/
def Cmd.copied : Cmd → Option CmdCopyImage
  | .copyImage c => some c
  | _ => none

/-- The image barriers of a `pipelineBarrier` command. -/
def Cmd.barriers : Cmd → Option (List ImageMemoryBarrier)
  | .pipelineBarrier b => some b
  | _ => none

/-- An outcome satisfies a property of its trace and returned value. -/
def Outcome.Sat (o : Outcome) (P : List Event → Option DerivedSkyBox → Prop) : Prop :=
  P o.trace o.value

/-- The transient objects on which a destroy has been issued by the time the
call returns: by an explicit `destroy()` of the body, in program order, then
by leaving the scope. -/
def Outcome.destroyIssued (o : Outcome) : List Transient :=
  o.trace.filterMap Event.destroyed ++ o.released

/-- Every fallible step of an entry point succeeds: the lookup of the pipeline
with the given id, the source texture check, the six layer additions, the
texture build, the queue lookup, the nine builders and `addImage`, the
command-buffer begin and end, the submit and the two waits. -/
def World.allSucceed (w : World) (id : PipelineId) : Bool :=
  w.pipeline id && w.environnementTexture.isSome && (List.range 6).all w.addLayer
    && w.textureBuild && w.queue
    && [Transient.commandPool, .cmdBuffer, .descriptorPool, .descriptorSet, .fence,
        .offscreenImage, .imagesMemory, .offscreenImageView, .framebuffer].all w.build
    && w.addImage && w.cmdBegin && w.cmdEnd && w.submit && w.fenceWait && w.waitIdle

/-- The command of a `record` event. -/
def Event.recorded : Event → Option Cmd
  | .record c => some c
  | _ => none

/-- The name of the resource an `add` event hands to the resource manager. -/
def Event.added : Event → Option String
  | .add name => some name
  | _ => none

/-- The name a `newSkyBox` event constructs the derived SkyBox with. -/
def Event.constructed : Event → Option String
  | .newSkyBox name => some name
  | _ => none

/-- Whether an event is the queue submit, one of the two waits or an explicit
`destroy()`. -/
def Event.isSync : Event → Bool
  | .submit _ _ _ _ => true
  | .fenceWait => true
  | .waitIdle => true
  | .destroy _ => true
  | _ => false

/-- Whether an event is `cmdBuffer.begin()`. -/
def Event.isCmdBegin : Event → Bool
  | .cmdBegin => true
  | _ => false

/-- The regions of a `copyImage` command; no region for any other command. -/
def Cmd.copyRegions : Cmd → List ImageCopy
  | .copyImage c => c.regions
  | _ => []

/-- The source subresource of a copy region as (array layer, mip level). -/
def ImageCopy.source (r : ImageCopy) : Nat × Nat :=
  (r.srcSubresource.baseArrayLayer, r.srcSubresource.mipLevel)

/-- The destination subresource of a copy region as (array layer, mip level). -/
def ImageCopy.destination (r : ImageCopy) : Nat × Nat :=
  (r.dstSubresource.baseArrayLayer, r.dstSubresource.mipLevel)

/-- The steps of an entry point that the resource hand-over depends on, read off a
run: each was performed (its call is in the trace `t`) and succeeded (the world
answered true).  They are the lookup of the pipeline with the given id, the
source-texture check, the six layer additions, the texture build and the nine
transient builds, the command-buffer begin and end, the queue submit, the
fence wait and the queue wait-idle. -/
def stepsSucceeded (w : World) (id : PipelineId) (t : List Event) : Prop :=
  (Event.getPipeline id ∈ t ∧ w.pipeline id = true) ∧
    w.environnementTexture.isSome = true ∧
    ((t.filter Event.isAddLayer).length = 6 ∧ ∀ k, k < 6 → w.addLayer k = true) ∧
    ((t.filterMap Event.textureBuilt).length = 1 ∧ w.textureBuild = true) ∧
    (∀ x : Transient, x ∈ t.filterMap Event.buildTarget ∧ w.build x = true) ∧
    (Event.cmdBegin ∈ t ∧ w.cmdBegin = true) ∧
    (Event.cmdEnd ∈ t ∧ w.cmdEnd = true) ∧
    (Event.submit [] [] [] .fence ∈ t ∧ w.submit = true) ∧
    (Event.fenceWait ∈ t ∧ w.fenceWait = true) ∧
    (Event.waitIdle ∈ t ∧ w.waitIdle = true)

/-- The events of a trace that precede `cmdBuffer.begin()`: everything done
before recording began. -/
def beforeBegin (t : List Event) : List Event := t.takeWhile (fun e => !e.isCmdBegin)

/-! ## Image layouts along a command sequence -/

/-- The layout state machine of the offscreen image (section 4.4 of the spec),
one command at a time, from the tracked layout `layout`.  A barrier on the
offscreen image must name the tracked layout as its `oldLayout` and moves the
tracked layout to its `newLayout`; `beginRenderPass` needs the tracked layout
to be color-attachment; a copy out of the offscreen image needs it to be
transfer-source and to equal the copy's declared source layout.  `none` says
that the command broke one of these rules. -/
def offscreenLayoutStep (layout : ImageLayout) : Cmd → Option ImageLayout
  | .pipelineBarrier bs =>
    bs.foldlM
      (fun l b =>
        if b.image = .offscreenImage then
          (if b.oldLayout = l then some b.newLayout else none)
        else some l)
      layout
  | .beginRenderPass _ =>
    if layout = .COLOR_ATTACHMENT_OPTIMAL then some layout else none
  | .copyImage c =>
    if c.srcImage = .offscreenImage then
      (if layout = .TRANSFER_SRC_OPTIMAL ∧ c.srcImageLayout = layout then some layout
        else none)
    else some layout
  | _ => some layout

/-- The layout state machine of the offscreen image over a command sequence:
the tracked layout after the last command, or `none` if a command broke a rule. -/
def offscreenLayoutRun (layout : ImageLayout) (cmds : List Cmd) : Option ImageLayout :=
  cmds.foldlM offscreenLayoutStep layout

/-- What a command does to the destination texture (the image of the derived
map's `_environnementTexture`): a barrier on it, or a copy into it with the
destination layout the copy declares. -/
inductive DestinationUse where
  | barrier (b : ImageMemoryBarrier)
  | copy (dstImageLayout : ImageLayout)
deriving DecidableEq, Repr

/-- The uses of the destination texture by one command, in order. -/
def Cmd.destinationUses : Cmd → List DestinationUse
  | .pipelineBarrier bs =>
    (bs.filter (fun b => b.image = .environnementTexture)).map .barrier
  | .copyImage c =>
    if c.dstImage = .environnementTexture then [.copy c.dsrImageLayout] else []
  | _ => []

/-! ## Push-constant ranges -/

/-- The byte range a `pushConstants` command updates, as the pair of its first
byte `offset` and of the byte after its last, `offset + size`. -/
def CmdPushConstants.byteRange (c : CmdPushConstants) : Nat × Nat :=
  (c.offset, c.offset + c.size)

/-- The `pushConstants` command updates byte `b` of the push-constant block. -/
def CmdPushConstants.covers (c : CmdPushConstants) (b : Nat) : Bool :=
  decide (c.offset ≤ b) && decide (b < c.offset + c.size)

/-! ## The steps that build the offscreen target -/

/-- The five calls that build the offscreen target (lines 178-247 and
629-698), named after the call. -/
inductive TargetStep where
  | imageBuild
  | addImage
  | deviceMemoryBuild
  | imageViewBuild
  | framebufferBuild
deriving DecidableEq, Repr

/-- The five steps in the order the claim gives them. -/
def TargetStep.inOrder : List TargetStep :=
  [.imageBuild, .addImage, .deviceMemoryBuild, .imageViewBuild, .framebufferBuild]

/-- The position of a step in `TargetStep.inOrder`. -/
def TargetStep.rank : TargetStep → Nat
  | .imageBuild => 0
  | .addImage => 1
  | .deviceMemoryBuild => 2
  | .imageViewBuild => 3
  | .framebufferBuild => 4

/-- The offscreen-target step an event is, if it is one. -/
def Event.targetStep : Event → Option TargetStep
  | .build (.image _ _) => some .imageBuild
  | .addImage => some .addImage
  | .build .deviceMemory => some .deviceMemoryBuild
  | .build .imageView => some .imageViewBuild
  | .build (.framebuffer _ _) => some .framebufferBuild
  | _ => none

/-- The answer of the world to an offscreen-target step. -/
def World.targetOk (w : World) : TargetStep → Bool
  | .imageBuild => w.build .offscreenImage
  | .addImage => w.addImage
  | .deviceMemoryBuild => w.build .imagesMemory
  | .imageViewBuild => w.build .offscreenImageView
  | .framebufferBuild => w.build .framebuffer

/-! ## Render-pass brackets -/

/-- The commands that matter for the bracketing of render passes. -/
inductive PassMark where
  | beginRenderPass
  | drawIndexed
  | endRenderPass
  | pipelineBarrier
  | copyImage
deriving DecidableEq, Repr

/-- The mark of a command, if it has one. -/
def Cmd.passMark : Cmd → Option PassMark
  | .beginRenderPass _ => some .beginRenderPass
  | .drawIndexed _ _ => some .drawIndexed
  | .endRenderPass => some .endRenderPass
  | .pipelineBarrier _ => some .pipelineBarrier
  | .copyImage _ => some .copyImage
  | _ => none

/-- One step of the bracket check.  The state is `none` outside a render pass
and `some n` inside one in which `n` indexed draws were recorded so far.  A
begin is accepted only outside a pass, an end only inside a pass with exactly
one draw, a draw only inside a pass, a barrier or a copy only outside a pass;
the result `none` says that the command was not accepted. -/
def renderPassStep : Option Nat → PassMark → Option (Option Nat)
  | none, .beginRenderPass => some (some 0)
  | some _, .beginRenderPass => none
  | some n, .drawIndexed => some (some (n + 1))
  | none, .drawIndexed => none
  | some n, .endRenderPass => if n = 1 then some none else none
  | none, .endRenderPass => none
  | none, .pipelineBarrier => some none
  | some _, .pipelineBarrier => none
  | none, .copyImage => some none
  | some _, .copyImage => none

/-- The bracket check over a sequence of marks, from the state `s`: the state
after the last mark, or `none` if a mark was not accepted. -/
def renderPassRun (s : Option Nat) (marks : List PassMark) : Option (Option Nat) :=
  marks.foldlM renderPassStep s

/-- The render passes of a command sequence are properly bracketed: the bracket
check, started outside a pass, accepts every command and ends outside a pass. -/
def properlyBracketed (cmds : List Cmd) : Bool :=
  renderPassRun none (cmds.filterMap Cmd.passMark) = some none

/-! ## Deletions of the derived SkyBox -/

/-- The event is the deletion of the derived SkyBox. -/
def Event.isDeleteSkyBox : Event → Bool
  | .deleteSkyBox => true
  | _ => false

/-- The offscreen-target steps of a run, in the order they were attempted. -/
def Outcome.targetSteps (o : Outcome) : List TargetStep :=
  o.trace.filterMap Event.targetStep

/-- The offscreen target of the run `o` in the world `w` is built in order:
the attempted steps are a prefix of `TargetStep.inOrder`; a step is attempted
only if the world answered `true` to every earlier one; and if the world
answers `false` to an attempted step, then the run returns a null pointer,
the attempted steps stop with this one, no command is recorded and
`cmdBuffer.begin()` is not called. -/
def offscreenTargetInOrder (w : World) (o : Outcome) : Prop :=
  o.targetSteps <+: TargetStep.inOrder ∧
  (∀ s ∈ o.targetSteps, ∀ s' : TargetStep, s'.rank < s.rank → w.targetOk s' = true) ∧
  (∀ s ∈ o.targetSteps, w.targetOk s = false →
    o.value = none ∧ o.targetSteps = TargetStep.inOrder.take (s.rank + 1) ∧
      o.trace.filterMap Event.recorded = [] ∧ Event.cmdBegin ∉ o.trace)

/-! ## Sample worlds -/

/-- A source SkyBox named `sky` with a bound texture, in a world where every
call succeeds; the cube mesh has 36 indices. -/
def goodWorld : World :=
  { name := "sky"
    environnementTexture := some ⟨.Linear, .Linear, .Linear, .ClampToEdge, .ClampToEdge⟩
    pipeline := fun _ => true
    addLayer := fun _ => true
    textureBuild := true
    queue := true
    build := fun _ => true
    addImage := true
    cmdBegin := true
    cmdEnd := true
    submit := true
    fenceWait := true
    waitIdle := true
    elementsCount := 36 }

/-- As `goodWorld`, but the texture builder rejects every layer. -/
def layerRejectingWorld : World := { goodWorld with addLayer := fun _ => false }

/-- As `goodWorld`, but the source SkyBox has no environment texture. -/
def textureLessWorld : World := { goodWorld with environnementTexture := none }

/-- As `goodWorld`, but the renderer resolves no pipeline. -/
def pipelineLessWorld : World := { goodWorld with pipeline := fun _ => false }

/-- As `goodWorld`, but `cmdBuffer.begin()` fails. -/
def beginFailingWorld : World := { goodWorld with cmdBegin := false }

/-- As `goodWorld`, but `cmdBuffer.end()` fails. -/
def endFailingWorld : World := { goodWorld with cmdEnd := false }

/-- As `goodWorld`, but `graphicsQueue->waitIdle()` fails. -/
def idleFailingWorld : World := { goodWorld with waitIdle := false }

/-- As `goodWorld`, but `getQueue("queue_graphics")` returns a null pointer. -/
def queueLessWorld : World := { goodWorld with queue := false }

/-- As `goodWorld`, but `deviceMemoryBuilder.addImage` fails. -/
def addImageFailingWorld : World := { goodWorld with addImage := false }

/-- As `goodWorld`, but the device memory cannot be built. -/
def memoryFailingWorld : World :=
  { goodWorld with build := fun t => decide (t ≠ .imagesMemory) }

/-! ## Reasoning about outcomes -/

theorem sat_call (e : Event) (k : Outcome) (P : List Event → Option DerivedSkyBox → Prop) :
    (call e k).Sat P ↔ k.Sat (fun t v => P (e :: t) v) := Iff.rfl

theorem sat_after (es : List Event) (k : Outcome)
    (P : List Event → Option DerivedSkyBox → Prop) :
    (Outcome.after es k).Sat P ↔ k.Sat (fun t v => P (es ++ t) v) := Iff.rfl

theorem sat_returnNullptr (es : List Event) (P : List Event → Option DerivedSkyBox → Prop) :
    (returnNullptr es).Sat P ↔ P (es ++ [.deleteSkyBox]) none := Iff.rfl

theorem sat_returnAdded (d : DerivedSkyBox) (P : List Event → Option DerivedSkyBox → Prop) :
    (returnAdded d).Sat P ↔ P [.add d.name] (some d) := Iff.rfl

theorem sat_check (ok : Bool) (es : List Event) (k : Outcome)
    (P : List Event → Option DerivedSkyBox → Prop) :
    (check ok es k).Sat P ↔
      (ok = false → P (es ++ [.deleteSkyBox]) none) ∧ (ok = true → k.Sat P) := by
  cases ok <;> simp [check, Outcome.Sat, returnNullptr]

theorem sat_checkSome {α : Type} (ptr : Option α) (es : List Event) (k : α → Outcome)
    (P : List Event → Option DerivedSkyBox → Prop) :
    (checkSome ptr es k).Sat P ↔
      (ptr = none → P (es ++ [.deleteSkyBox]) none) ∧ (∀ a, ptr = some a → (k a).Sat P) := by
  cases ptr <;> simp [checkSome, Outcome.Sat, returnNullptr]

theorem exit_call (e : Event) (k : Outcome) :
    (call e k).released = scopeExit (call e k).value.isSome ↔
      k.released = scopeExit k.value.isSome := Iff.rfl

theorem exit_after (es : List Event) (k : Outcome) :
    (Outcome.after es k).released = scopeExit (Outcome.after es k).value.isSome ↔
      k.released = scopeExit k.value.isSome := Iff.rfl

theorem exit_returnNullptr (es : List Event) :
    (returnNullptr es).released = scopeExit (returnNullptr es).value.isSome ↔ True :=
  iff_true_intro rfl

theorem exit_returnAdded (d : DerivedSkyBox) :
    (returnAdded d).released = scopeExit (returnAdded d).value.isSome ↔ True :=
  iff_true_intro rfl

theorem exit_check (ok : Bool) (es : List Event) (k : Outcome) :
    (check ok es k).released = scopeExit (check ok es k).value.isSome ↔
      (ok = true → k.released = scopeExit k.value.isSome) := by
  cases ok
  · simp only [check, Bool.false_eq_true, if_false, false_implies, iff_true]
    rfl
  · simp only [check, if_true, true_implies]

theorem exit_checkSome {α : Type} (ptr : Option α) (es : List Event) (k : α → Outcome) :
    (checkSome ptr es k).released = scopeExit (checkSome ptr es k).value.isSome ↔
      (∀ a, ptr = some a → (k a).released = scopeExit (k a).value.isSome) := by
  cases ptr with
  | none =>
    simp only [checkSome, reduceCtorEq, false_implies, implies_true, iff_true]
    rfl
  | some a => simp only [checkSome, Option.some.injEq, forall_eq']

theorem log_prefilteredMapSize : Nat.log 2 prefilteredMapSize = 9 :=
  Nat.log_pow (by decide : 1 < 2) 9

theorem mipMapCount_eq : mipMapCount = 10 := by
  rw [mipMapCount, log_prefilteredMapSize]
  decide

/-! ## The layer chain -/

theorem addLayers_events (ok : Nat → Bool) (width height : Nat) (format : Format)
    (n k : Nat) (b : TextureBuilder) :
    ∃ j, (addLayers ok width height format k n b).1
      = List.replicate j (Event.addLayer width height format) := by
  induction n generalizing k b with
  | zero => exact ⟨0, rfl⟩
  | succ n ih =>
    simp only [addLayers]
    split
    · obtain ⟨j, hj⟩ := ih (k + 1) (b.addLayer width height format)
      exact ⟨j + 1, by simp [hj, List.replicate_succ]⟩
    · exact ⟨1, rfl⟩

theorem addLayers_filter (p : Event → Bool) (ok : Nat → Bool) (width height : Nat)
    (format : Format) (n k : Nat) (b : TextureBuilder)
    (hp : p (Event.addLayer width height format) = false) :
    (addLayers ok width height format k n b).1.filter p = [] := by
  obtain ⟨j, hj⟩ := addLayers_events ok width height format n k b
  rw [hj, List.filter_eq_nil_iff]
  intro a ha
  rw [List.eq_of_mem_replicate ha, hp]
  simp

theorem addLayers_filterMap {β : Type} (g : Event → Option β) (ok : Nat → Bool)
    (width height : Nat) (format : Format) (n k : Nat) (b : TextureBuilder)
    (hg : g (Event.addLayer width height format) = none) :
    (addLayers ok width height format k n b).1.filterMap g = [] := by
  obtain ⟨j, hj⟩ := addLayers_events ok width height format n k b
  rw [hj, List.filterMap_eq_nil_iff]
  intro a ha
  rw [List.eq_of_mem_replicate ha, hg]

theorem addLayers_mem (e : Event) (ok : Nat → Bool) (width height : Nat)
    (format : Format) (n k : Nat) (b : TextureBuilder)
    (he : e ≠ Event.addLayer width height format) :
    e ∈ (addLayers ok width height format k n b).1 ↔ False := by
  obtain ⟨j, hj⟩ := addLayers_events ok width height format n k b
  rw [hj, iff_false]
  intro ha
  exact he (List.eq_of_mem_replicate ha)

theorem addLayers_some (ok : Nat → Bool) (width height : Nat) (format : Format)
    (n k : Nat) (b b' : TextureBuilder)
    (h : (addLayers ok width height format k n b).2 = some b') :
    b' = { b with layers := b.layers ++ List.replicate n ⟨width, height, format⟩ } ∧
      (addLayers ok width height format k n b).1
        = List.replicate n (Event.addLayer width height format) ∧
      ∀ i, i < n → ok (k + i) = true := by
  induction n generalizing k b with
  | zero =>
    simp only [addLayers, Option.some.injEq] at h
    subst h
    simp [addLayers]
  | succ n ih =>
    simp only [addLayers] at h ⊢
    split at h
    · next hk =>
      obtain ⟨h1, h2, h3⟩ := ih (k + 1) (b.addLayer width height format) h
      rw [if_pos hk]
      refine ⟨?_, ?_, ?_⟩
      · rw [h1]
        simp [TextureBuilder.addLayer, List.replicate_succ]
      · simp [h2, List.replicate_succ]
      · intro i hi
        cases i with
        | zero => simpa using hk
        | succ i =>
          have := h3 i (by omega)
          rw [← this]
          congr 1
          omega
    · simp at h

theorem addLayers_of_ok (ok : Nat → Bool) (width height : Nat) (format : Format)
    (n k : Nat) (b : TextureBuilder) (hok : ∀ i, i < n → ok (k + i) = true) :
    addLayers ok width height format k n b
      = (List.replicate n (Event.addLayer width height format),
          some { b with layers := b.layers ++ List.replicate n ⟨width, height, format⟩ }) := by
  induction n generalizing k b with
  | zero => simp [addLayers]
  | succ n ih =>
    have h0 : ok k = true := by simpa using hok 0 (by omega)
    have hrest : ∀ i, i < n → ok (k + 1 + i) = true := by
      intro i hi
      have := hok (i + 1) (by omega)
      rw [← this]
      congr 1
      omega
    simp only [addLayers, h0, if_true, ih (k + 1) (b.addLayer width height format) hrest]
    simp [TextureBuilder.addLayer, List.replicate_succ]

/-! ## Recorded commands inside a trace -/

theorem record_filter (p : Event → Bool) (l : List Cmd) (hp : ∀ c, p (Event.record c) = false) :
    (l.map Event.record).filter p = [] := by
  rw [List.filter_eq_nil_iff]
  intro a ha
  obtain ⟨c, _, rfl⟩ := List.mem_map.mp ha
  simp [hp c]

theorem record_filterMap {β : Type} (g : Event → Option β) (l : List Cmd)
    (hg : ∀ c, g (Event.record c) = none) :
    (l.map Event.record).filterMap g = [] := by
  rw [List.filterMap_eq_nil_iff]
  intro a ha
  obtain ⟨c, _, rfl⟩ := List.mem_map.mp ha
  exact hg c

theorem record_mem (e : Event) (l : List Cmd) (he : ∀ c, e ≠ Event.record c) :
    e ∈ l.map Event.record ↔ False := by
  rw [iff_false]
  intro ha
  obtain ⟨c, _, rfl⟩ := List.mem_map.mp ha
  exact he c rfl

theorem filterMap_flatMap {α β γ : Type} (g : β → Option γ) (f : α → List β) (l : List α) :
    (l.flatMap f).filterMap g = l.flatMap (fun a => (f a).filterMap g) := by
  induction l with
  | nil => rfl
  | cons a l ih => simp [List.flatMap_cons, List.filterMap_append, ih]

theorem replicate_filterMap {α β : Type} (g : α → Option β) (e : α) (n : Nat)
    (hg : g e = none) : (List.replicate n e).filterMap g = [] := by
  rw [List.filterMap_eq_nil_iff]
  intro a ha
  rw [List.eq_of_mem_replicate ha, hg]

theorem replicate_filter {α : Type} (p : α → Bool) (e : α) (n : Nat)
    (hp : p e = false) : (List.replicate n e).filter p = [] := by
  rw [List.filter_eq_nil_iff]
  intro a ha
  rw [List.eq_of_mem_replicate ha, hp]
  simp

/-! ## Destination texture builder -/

theorem irradiance_textureBuilt (w : World) (texture : SourceTexture)
    (hTexture : w.environnementTexture = some texture)
    (hPipeline : w.pipeline .IrradianceMapBaseId = true)
    (hLayers : ∀ k, k < 6 → w.addLayer k = true) :
    (createIrradianceMap w).trace.filterMap Event.textureBuilt =
      [ { type := some .CubeMap
          mipLevels := none
          magFilter := some texture.magFilter
          minFilter := some texture.minFilter
          mipMapFilter := some texture.mipMapFilter
          wrapS := some texture.wrapS
          wrapT := some texture.wrapT
          layers := List.replicate 6 ⟨irradianceMapSize, irradianceMapSize, .R32G32B32A32_SFLOAT⟩ } ] := by
  have hl := addLayers_of_ok w.addLayer irradianceMapSize irradianceMapSize
    .R32G32B32A32_SFLOAT 6 0
    ((((((TextureBuilder.fresh.setType .CubeMap).setMagFilter texture.magFilter).setMinFilter
      texture.minFilter).setMipMapFilter texture.mipMapFilter).setWrapS texture.wrapS).setWrapT
      texture.wrapT) (by simpa using hLayers)
  show (createIrradianceMap w).Sat (fun t _ => t.filterMap Event.textureBuilt = _)
  simp only [createIrradianceMap, sat_call, sat_check, sat_checkSome, sat_after, sat_returnAdded,
    sat_returnNullptr, hTexture, hPipeline, hl, List.filterMap_cons, List.filterMap_append,
    List.filterMap_nil, List.nil_append, List.append_nil, Event.textureBuilt,
    record_filterMap, Option.some.injEq, forall_eq', reduceCtorEq, false_implies, true_and,
    implies_true, and_self, true_implies, Bool.true_eq_false]
  simp [replicate_filterMap, Event.textureBuilt, TextureBuilder.fresh, TextureBuilder.setType,
    TextureBuilder.setMagFilter, TextureBuilder.setMinFilter, TextureBuilder.setMipMapFilter,
    TextureBuilder.setWrapS, TextureBuilder.setWrapT]

/-- C1 (amended): for every source SkyBox with a bound environment texture and a
resolvable irradiance pipeline, provided each of the six `addLayer` calls
returns true, `createIrradianceMap` calls `build` on the destination texture
builder exactly once, and that builder is a CubeMap with exactly six layers,
each 64 wide and 64 high in format R32G32B32A32_SFLOAT, on which `setMipLevels`
was never called (one mip level per layer). -/
theorem createIrradianceMap_builder (w : World) (texture : SourceTexture)
    (hTexture : w.environnementTexture = some texture)
    (hPipeline : w.pipeline .IrradianceMapBaseId = true)
    (hLayers : ∀ k, k < 6 → w.addLayer k = true) :
    ∃ b, (createIrradianceMap w).trace.filterMap Event.textureBuilt = [b] ∧
      b.type = some .CubeMap ∧
      b.layers = List.replicate 6 ⟨64, 64, .R32G32B32A32_SFLOAT⟩ ∧
      b.mipLevels = none ∧ b.mipLevelCount = 1 :=
  ⟨_, irradiance_textureBuilt w texture hTexture hPipeline hLayers, rfl, rfl, rfl, rfl⟩

/-- Witness for C1 (amended), at `goodWorld`. -/
theorem createIrradianceMap_builder_witness :
    ∃ b, (createIrradianceMap goodWorld).trace.filterMap Event.textureBuilt = [b] ∧
      b.type = some .CubeMap ∧
      b.layers = List.replicate 6 ⟨64, 64, .R32G32B32A32_SFLOAT⟩ ∧
      b.mipLevels = none ∧ b.mipLevelCount = 1 :=
  createIrradianceMap_builder goodWorld _ rfl rfl (fun _ _ => rfl)

/-- C1 as stated fails: `layerRejectingWorld` has a bound environment texture and
a resolvable irradiance pipeline, yet `createIrradianceMap` returns null after a
single rejected `addLayer` call and never builds the destination texture, so the
builder is not configured with six layers. -/
theorem createIrradianceMap_builder_counterexample :
    layerRejectingWorld.environnementTexture.isSome = true ∧
      layerRejectingWorld.pipeline .IrradianceMapBaseId = true ∧
      (createIrradianceMap layerRejectingWorld).value = none ∧
      (createIrradianceMap layerRejectingWorld).trace.filterMap Event.layerAdded
        = [⟨64, 64, .R32G32B32A32_SFLOAT⟩] ∧
      (createIrradianceMap layerRejectingWorld).trace.filterMap Event.textureBuilt = [] := by
  refine ⟨rfl, rfl, rfl, rfl, rfl⟩

theorem prefiltered_textureBuilt (w : World) (texture : SourceTexture)
    (hTexture : w.environnementTexture = some texture)
    (hPipeline : w.pipeline .PrefilteredMapBaseId = true)
    (hLayers : ∀ k, k < 6 → w.addLayer k = true) :
    (createPrefilteredMap w).trace.filterMap Event.textureBuilt =
      [ { type := some .CubeMap
          mipLevels := some mipMapCount
          magFilter := some texture.magFilter
          minFilter := some texture.minFilter
          mipMapFilter := some texture.mipMapFilter
          wrapS := some texture.wrapS
          wrapT := some texture.wrapT
          layers := List.replicate 6 ⟨prefilteredMapSize, prefilteredMapSize, .R32G32B32A32_SFLOAT⟩ } ] := by
  have hl := addLayers_of_ok w.addLayer prefilteredMapSize prefilteredMapSize
    .R32G32B32A32_SFLOAT 6 0
    (((((((TextureBuilder.fresh.setType .CubeMap).setMipLevels mipMapCount).setMagFilter
      texture.magFilter).setMinFilter texture.minFilter).setMipMapFilter
      texture.mipMapFilter).setWrapS texture.wrapS).setWrapT texture.wrapT)
    (by simpa using hLayers)
  show (createPrefilteredMap w).Sat (fun t _ => t.filterMap Event.textureBuilt = _)
  simp only [createPrefilteredMap, sat_call, sat_check, sat_checkSome, sat_after, sat_returnAdded,
    sat_returnNullptr, hTexture, hPipeline, hl, List.filterMap_cons, List.filterMap_append,
    List.filterMap_nil, List.nil_append, List.append_nil, Event.textureBuilt,
    record_filterMap, Option.some.injEq, forall_eq', reduceCtorEq, false_implies, true_and,
    implies_true, and_self, true_implies, Bool.true_eq_false]
  simp [replicate_filterMap, Event.textureBuilt, TextureBuilder.fresh, TextureBuilder.setType,
    TextureBuilder.setMagFilter, TextureBuilder.setMinFilter, TextureBuilder.setMipMapFilter,
    TextureBuilder.setWrapS, TextureBuilder.setWrapT, TextureBuilder.setMipLevels]

theorem prefiltered_textureBuilt_mem (w : World) :
    (createPrefilteredMap w).Sat (fun t _ => ∀ b, b ∈ t.filterMap Event.textureBuilt →
      b.type = some .CubeMap ∧ b.mipLevels = some mipMapCount ∧
        b.layers = List.replicate 6 ⟨prefilteredMapSize, prefilteredMapSize, .R32G32B32A32_SFLOAT⟩) := by
  simp only [createPrefilteredMap, sat_call, sat_check, sat_checkSome, sat_after, sat_returnAdded,
    sat_returnNullptr, List.filterMap_cons, List.filterMap_append,
    List.filterMap_nil, List.nil_append, List.append_nil, Event.textureBuilt,
    record_filterMap, addLayers_filterMap, List.not_mem_nil, false_implies, implies_true,
    and_self, List.mem_singleton, forall_eq, true_and]
  intro _ texture _ tb htb
  obtain ⟨h1, -, -⟩ := addLayers_some _ _ _ _ _ _ _ _ htb
  subst h1
  simp [TextureBuilder.fresh, TextureBuilder.setType,
    TextureBuilder.setMagFilter, TextureBuilder.setMinFilter, TextureBuilder.setMipMapFilter,
    TextureBuilder.setWrapS, TextureBuilder.setWrapT, TextureBuilder.setMipLevels]

/-- C2: in `createPrefilteredMap` the mip count `floor(log2(512)) + 1` equals 10;
whenever the destination texture builder is built it is a CubeMap holding
exactly that mip-level count and six 512x512 R32G32B32A32_SFLOAT layers, and it
is built (once) whenever the source texture is bound, the prefiltered pipeline
resolves and the six layer additions succeed. -/
theorem createPrefilteredMap_mipLevels :
    mipMapCount = Nat.log 2 512 + 1 ∧ mipMapCount = 10 ∧
      (∀ (w : World) (b : TextureBuilder),
        b ∈ (createPrefilteredMap w).trace.filterMap Event.textureBuilt →
          b.type = some .CubeMap ∧ b.mipLevels = some 10 ∧ b.mipLevelCount = 10 ∧
            b.layers = List.replicate 6 ⟨512, 512, .R32G32B32A32_SFLOAT⟩) ∧
      (∀ (w : World) (texture : SourceTexture),
        w.environnementTexture = some texture →
          w.pipeline .PrefilteredMapBaseId = true → (∀ k, k < 6 → w.addLayer k = true) →
            ∃ b, (createPrefilteredMap w).trace.filterMap Event.textureBuilt = [b]) := by
  refine ⟨?_, mipMapCount_eq, ?_, ?_⟩
  · rw [mipMapCount_eq, ← prefilteredMapSize, log_prefilteredMapSize]
  · intro w b hb
    obtain ⟨h1, h2, h3⟩ := prefiltered_textureBuilt_mem w b hb
    rw [mipMapCount_eq] at h2
    exact ⟨h1, h2, by simp [TextureBuilder.mipLevelCount, h2], h3⟩
  · intro w texture hTexture hPipeline hLayers
    exact ⟨_, prefiltered_textureBuilt w texture hTexture hPipeline hLayers⟩

/-- Witness for C2, at `goodWorld`: the builder is built, with 10 mip levels. -/
theorem createPrefilteredMap_mipLevels_witness :
    ∃ b, (createPrefilteredMap goodWorld).trace.filterMap Event.textureBuilt = [b] ∧
      b.mipLevels = some 10 := by
  obtain ⟨b, hb⟩ := createPrefilteredMap_mipLevels.2.2.2 goodWorld _ rfl rfl (fun _ _ => rfl)
  refine ⟨b, hb, ?_⟩
  have := createPrefilteredMap_mipLevels.2.2.1 goodWorld b (by rw [hb]; simp)
  exact this.2.1

/-! ## Roughness -/

theorem roughness_eq (m : Nat) : roughness m = (m : ℚ) / 9 := by
  rw [roughness, mipMapCount_eq]
  norm_num

theorem prefilteredIteration_scalarPushed (elementsCount m i : Nat) :
    (prefilteredIteration elementsCount m i).filterMap Cmd.scalarPushed = [roughness m] := by
  simp [prefilteredIteration, Cmd.scalarPushed]

theorem prefilteredCommands_scalarPushed (elementsCount : Nat) :
    (prefilteredCommands elementsCount).filterMap Cmd.scalarPushed
      = (List.range 10).flatMap (fun m => List.replicate 6 ((m : ℚ) / 9)) := by
  simp only [prefilteredCommands, List.filterMap_append, filterMap_flatMap,
    prefilteredIteration_scalarPushed, mipMapCount_eq, roughness_eq]
  simp [Cmd.scalarPushed, List.range_succ, List.replicate]

/-- C3: in `createPrefilteredMap` the roughness used for mip `m` is
`m / (mipMapCount - 1)` with `mipMapCount - 1 = 9`, a non-zero divisor; as exact
rationals it is 0 at `m = 0`, 1 at `m = 9`, lies in `[0, 1]` for every `m` in
0..9 and is strictly increasing in `m`; it is the one scalar pushed in every
iteration of mip `m`, and the mips recorded are 0..9. -/
theorem roughness_per_mip :
    mipMapCount - 1 = 9 ∧ (mipMapCount - 1 ≠ 0) ∧
      (∀ m : Nat, roughness m = (m : ℚ) / 9) ∧
      roughness 0 = 0 ∧ roughness 9 = 1 ∧
      (∀ m : Nat, m ≤ 9 → 0 ≤ roughness m ∧ roughness m ≤ 1) ∧
      (∀ m n : Nat, m < n → n ≤ 9 → roughness m < roughness n) ∧
      (∀ elementsCount m i : Nat,
        (prefilteredIteration elementsCount m i).filterMap Cmd.scalarPushed = [roughness m]) ∧
      (∀ elementsCount : Nat,
        (prefilteredCommands elementsCount).filterMap Cmd.scalarPushed
          = (List.range 10).flatMap (fun m => List.replicate 6 ((m : ℚ) / 9))) := by
  refine ⟨by rw [mipMapCount_eq], by rw [mipMapCount_eq]; decide, roughness_eq, ?_, ?_, ?_, ?_,
    prefilteredIteration_scalarPushed, prefilteredCommands_scalarPushed⟩
  · rw [roughness_eq]; norm_num
  · rw [roughness_eq]; norm_num
  · intro m hm
    rw [roughness_eq]
    have h : (m : ℚ) ≤ 9 := by exact_mod_cast hm
    have h0 : (0 : ℚ) ≤ m := by exact_mod_cast Nat.zero_le m
    constructor <;> linarith
  · intro m n hmn _
    rw [roughness_eq, roughness_eq]
    have h : (m : ℚ) < n := by exact_mod_cast hmn
    linarith

/-- Witness for C3: mips 3 and 4 of the loop. -/
theorem roughness_per_mip_witness :
    roughness 3 < roughness 4 ∧ 0 ≤ roughness 4 ∧ roughness 4 ≤ 1 :=
  ⟨roughness_per_mip.2.2.2.2.2.2.1 3 4 (by decide) (by decide),
    roughness_per_mip.2.2.2.2.2.1 4 (by decide)⟩

/-! ## Cube faces -/

/-- C4: in both `createIrradianceMap` and `createPrefilteredMap` the six face
views, indexed 0..5, look from the origin towards exactly -X, +X, +Y, -Y, +Z,
-Z in that order, and for every face the up vector is not parallel to the view
direction: their cross product is non-zero and their dot product is 0.  The
matrix of face `i` is built from the `i`-th view. -/
theorem cube_face_views :
    irradianceMatrices.map LookAt.direction
        = [⟨-1, 0, 0⟩, ⟨1, 0, 0⟩, ⟨0, 1, 0⟩, ⟨0, -1, 0⟩, ⟨0, 0, 1⟩, ⟨0, 0, -1⟩] ∧
      prefilteredMatrices.map LookAt.direction
        = [⟨-1, 0, 0⟩, ⟨1, 0, 0⟩, ⟨0, 1, 0⟩, ⟨0, -1, 0⟩, ⟨0, 0, 1⟩, ⟨0, 0, -1⟩] ∧
      (∀ v ∈ irradianceMatrices ++ prefilteredMatrices,
        v.eye = ⟨0, 0, 0⟩ ∧ v.direction.cross v.up ≠ ⟨0, 0, 0⟩ ∧ v.direction.dot v.up = 0) ∧
      (List.range 6).map (matrixAt irradianceMatrices) = irradianceMatrices.map Mat4x4f.lookAt ∧
      (List.range 6).map (matrixAt prefilteredMatrices)
        = prefilteredMatrices.map Mat4x4f.lookAt := by
  refine ⟨by decide, by decide, by decide, rfl, rfl⟩

/-! ## Viewport, scissor and target sizes of the prefiltered map -/

theorem mipExtent_eq (m : Nat) : mipExtent m = 512 / 2 ^ m := by
  rw [mipExtent, prefilteredMapSize, one_div, inv_pow, div_eq_mul_inv]
  norm_num

theorem prefilteredIteration_viewports (elementsCount m i : Nat) :
    (prefilteredIteration elementsCount m i).filterMap Cmd.viewports
      = [[⟨0, 0, 512 / 2 ^ m, 512 / 2 ^ m, 0, 1⟩]] := by
  simp [prefilteredIteration, Cmd.viewports, mipExtent_eq]

theorem prefilteredIteration_scissors (elementsCount m i : Nat) :
    (prefilteredIteration elementsCount m i).filterMap Cmd.scissors
      = [[⟨0, 0, ⟨512, 512⟩⟩]] := by
  simp [prefilteredIteration, Cmd.scissors, prefilteredMapSize]

theorem prefilteredIteration_renderArea (elementsCount m i : Nat) :
    ((prefilteredIteration elementsCount m i).filterMap Cmd.renderPassBegun).map
      (fun c => c.renderArea) = [⟨0, 0, ⟨512, 512⟩⟩] := by
  simp [prefilteredIteration, Cmd.renderPassBegun, prefilteredMapSize]

theorem prefilteredCommands_viewports (elementsCount : Nat) :
    (prefilteredCommands elementsCount).filterMap Cmd.viewports
      = (List.range 10).flatMap
          (fun m => List.replicate 6 [⟨0, 0, 512 / 2 ^ m, 512 / 2 ^ m, 0, 1⟩]) := by
  simp only [prefilteredCommands, List.filterMap_append, filterMap_flatMap,
    prefilteredIteration_viewports, mipMapCount_eq]
  simp [Cmd.viewports, List.range_succ, List.replicate]

theorem prefilteredCommands_scissors (elementsCount : Nat) :
    (prefilteredCommands elementsCount).filterMap Cmd.scissors
      = List.replicate 60 [⟨0, 0, ⟨512, 512⟩⟩] := by
  simp only [prefilteredCommands, List.filterMap_append, filterMap_flatMap,
    prefilteredIteration_scissors, mipMapCount_eq]
  simp [Cmd.scissors, List.range_succ, List.replicate]

theorem prefilteredCommands_renderArea (elementsCount : Nat) :
    ((prefilteredCommands elementsCount).filterMap Cmd.renderPassBegun).map
      (fun c => c.renderArea) = List.replicate 60 ⟨0, 0, ⟨512, 512⟩⟩ := by
  simp only [prefilteredCommands, List.filterMap_append, filterMap_flatMap, mipMapCount_eq]
  simp [Cmd.renderPassBegun, List.range_succ, List.replicate, prefilteredIteration,
    prefilteredMapSize]

theorem prefiltered_buildRequests (w : World) :
    (createPrefilteredMap w).Sat (fun t _ => ∀ r ∈ t.filterMap Event.buildRequest,
      (r.target = .offscreenImage →
        r = .image ⟨512, 512, 1⟩ [.COLOR_ATTACHMENT_BIT, .TRANSFER_SRC_BIT]) ∧
      (r.target = .framebuffer → r = .framebuffer 512 512)) := by
  simp only [createPrefilteredMap, sat_call, sat_check, sat_checkSome, sat_after, sat_returnAdded,
    sat_returnNullptr, List.filterMap_cons, List.filterMap_append,
    List.filterMap_nil, List.nil_append, List.append_nil, Event.buildRequest,
    record_filterMap, addLayers_filterMap, List.not_mem_nil, false_implies, implies_true,
    and_self, List.forall_mem_cons, BuildRequest.target, reduceCtorEq, true_and,
    prefilteredMapSize]

theorem prefiltered_buildRequests_good :
    (createPrefilteredMap goodWorld).trace.filterMap Event.buildRequest =
      [.commandPool, .commandBuffer, .descriptorPool 0 42 42, .descriptorSet, .fence,
        .image ⟨512, 512, 1⟩ [.COLOR_ATTACHMENT_BIT, .TRANSFER_SRC_BIT], .deviceMemory,
        .imageView, .framebuffer 512 512] := by
  show (createPrefilteredMap goodWorld).Sat (fun t _ => t.filterMap Event.buildRequest = _)
  simp only [createPrefilteredMap, sat_call, sat_check, sat_checkSome, sat_after, sat_returnAdded,
    sat_returnNullptr, List.filterMap_cons, List.filterMap_append,
    List.filterMap_nil, List.nil_append, List.append_nil, Event.buildRequest,
    record_filterMap, addLayers_filterMap, goodWorld, reduceCtorEq, false_implies,
    true_implies, true_and, Bool.true_eq_false, implies_true, and_true, prefilteredMapSize]
  intro a _ h
  rw [addLayers_of_ok _ _ _ _ _ _ _ (fun _ _ => rfl)] at h
  cases h

/-- C5: in `createPrefilteredMap`, for every mip `m` and face `i` the viewport
width and height of the iteration both equal `512 * 0.5 ^ m = 512 / 2 ^ m`,
while its scissor extent and render area are 512x512; the recorded iterations
are those of mips 0..9 with six faces each; and every build request for the
offscreen image or the framebuffer asks for 512x512, independently of `m`. -/
theorem prefiltered_viewport_and_extents :
    (∀ elementsCount m i : Nat,
      (prefilteredIteration elementsCount m i).filterMap Cmd.viewports
          = [[⟨0, 0, 512 * (1 / 2) ^ m, 512 * (1 / 2) ^ m, 0, 1⟩]] ∧
        ((512 : ℚ) * (1 / 2) ^ m = 512 / 2 ^ m) ∧
        (prefilteredIteration elementsCount m i).filterMap Cmd.scissors
          = [[⟨0, 0, ⟨512, 512⟩⟩]] ∧
        ((prefilteredIteration elementsCount m i).filterMap Cmd.renderPassBegun).map
          (fun c => c.renderArea) = [⟨0, 0, ⟨512, 512⟩⟩]) ∧
      (∀ elementsCount : Nat,
        (prefilteredCommands elementsCount).filterMap Cmd.viewports
          = (List.range 10).flatMap
              (fun m => List.replicate 6 [⟨0, 0, 512 / 2 ^ m, 512 / 2 ^ m, 0, 1⟩]) ∧
        (prefilteredCommands elementsCount).filterMap Cmd.scissors
          = List.replicate 60 [⟨0, 0, ⟨512, 512⟩⟩] ∧
        ((prefilteredCommands elementsCount).filterMap Cmd.renderPassBegun).map
          (fun c => c.renderArea) = List.replicate 60 ⟨0, 0, ⟨512, 512⟩⟩) ∧
      (∀ (w : World) (r : BuildRequest),
        r ∈ (createPrefilteredMap w).trace.filterMap Event.buildRequest →
          (r.target = .offscreenImage →
            r = .image ⟨512, 512, 1⟩ [.COLOR_ATTACHMENT_BIT, .TRANSFER_SRC_BIT]) ∧
          (r.target = .framebuffer → r = .framebuffer 512 512)) ∧
      BuildRequest.image ⟨512, 512, 1⟩ [.COLOR_ATTACHMENT_BIT, .TRANSFER_SRC_BIT]
        ∈ (createPrefilteredMap goodWorld).trace.filterMap Event.buildRequest ∧
      BuildRequest.framebuffer 512 512
        ∈ (createPrefilteredMap goodWorld).trace.filterMap Event.buildRequest := by
  refine ⟨fun elementsCount m i => ⟨?_, ?_, prefilteredIteration_scissors _ _ _,
      prefilteredIteration_renderArea _ _ _⟩,
    fun elementsCount => ⟨prefilteredCommands_viewports _, prefilteredCommands_scissors _,
      prefilteredCommands_renderArea _⟩,
    fun w r hr => prefiltered_buildRequests w r hr, ?_, ?_⟩
  · have h : (512 : ℚ) * (1 / 2) ^ m = 512 / 2 ^ m := by
      rw [one_div, inv_pow, div_eq_mul_inv]
    rw [prefilteredIteration_viewports, h]
  · rw [one_div, inv_pow, div_eq_mul_inv]
  · rw [prefiltered_buildRequests_good]; decide
  · rw [prefiltered_buildRequests_good]; decide

/-! ## Early failures: missing texture, missing pipeline -/

theorem irradiance_without_texture (w : World) (h : w.environnementTexture = none) :
    (createIrradianceMap w).Sat (fun t v =>
      v = none ∧ t.filter Event.isBuild = [] ∧ t.filter Event.isAddLayer = []) := by
  simp only [createIrradianceMap, sat_call, sat_check, sat_checkSome, sat_returnNullptr, h,
    List.filter_cons, List.filter_append, List.filter_nil, List.nil_append, List.append_nil,
    Event.isBuild, Event.isAddLayer, Bool.false_eq_true, if_false, reduceCtorEq,
    false_implies, implies_true, and_self]

theorem prefiltered_without_texture (w : World) (h : w.environnementTexture = none) :
    (createPrefilteredMap w).Sat (fun t v =>
      v = none ∧ t.filter Event.isBuild = [] ∧ t.filter Event.isAddLayer = []) := by
  simp only [createPrefilteredMap, sat_call, sat_check, sat_checkSome, sat_returnNullptr, h,
    List.filter_cons, List.filter_append, List.filter_nil, List.nil_append, List.append_nil,
    Event.isBuild, Event.isAddLayer, Bool.false_eq_true, if_false, reduceCtorEq,
    false_implies, implies_true, and_self]

/-- C6: if the source SkyBox has no bound environment texture, both
`createIrradianceMap` and `createPrefilteredMap` return null, and neither the
destination texture build nor the build of any transient object (command pool,
command buffer, descriptor pool, descriptor set, fence, image, memory, image
view, framebuffer) is invoked; no layer is added either. -/
theorem no_build_without_texture (w : World) (h : w.environnementTexture = none) :
    ((createIrradianceMap w).value = none ∧
        (createIrradianceMap w).trace.filter Event.isBuild = [] ∧
        (createIrradianceMap w).trace.filter Event.isAddLayer = []) ∧
      ((createPrefilteredMap w).value = none ∧
        (createPrefilteredMap w).trace.filter Event.isBuild = [] ∧
        (createPrefilteredMap w).trace.filter Event.isAddLayer = []) :=
  ⟨irradiance_without_texture w h, prefiltered_without_texture w h⟩

/-- Witness for C6, at `textureLessWorld`. -/
theorem no_build_without_texture_witness :
    ((createIrradianceMap textureLessWorld).value = none ∧
        (createIrradianceMap textureLessWorld).trace.filter Event.isBuild = [] ∧
        (createIrradianceMap textureLessWorld).trace.filter Event.isAddLayer = []) ∧
      ((createPrefilteredMap textureLessWorld).value = none ∧
        (createPrefilteredMap textureLessWorld).trace.filter Event.isBuild = [] ∧
        (createPrefilteredMap textureLessWorld).trace.filter Event.isAddLayer = []) :=
  no_build_without_texture textureLessWorld rfl

theorem irradiance_without_pipeline (w : World)
    (h : w.pipeline .IrradianceMapBaseId = false) :
    (createIrradianceMap w).Sat (fun t v =>
      v = none ∧ t.filter Event.isAddLayer = [] ∧ t.filter Event.isBuild = []) := by
  simp only [createIrradianceMap, sat_call, sat_check, sat_returnNullptr, h,
    List.filter_cons, List.filter_append, List.filter_nil, List.nil_append, List.append_nil,
    Event.isBuild, Event.isAddLayer, Bool.false_eq_true, if_false, reduceCtorEq,
    false_implies, implies_true, and_self]

theorem prefiltered_without_pipeline (w : World)
    (h : w.pipeline .PrefilteredMapBaseId = false) :
    (createPrefilteredMap w).Sat (fun t v =>
      v = none ∧ t.filter Event.isAddLayer = [] ∧ t.filter Event.isBuild = []) := by
  simp only [createPrefilteredMap, sat_call, sat_check, sat_returnNullptr, h,
    List.filter_cons, List.filter_append, List.filter_nil, List.nil_append, List.append_nil,
    Event.isBuild, Event.isAddLayer, Bool.false_eq_true, if_false, reduceCtorEq,
    false_implies, implies_true, and_self]

/-- C7: if the renderer cannot resolve the irradiance-map pipeline id,
`createIrradianceMap` returns null with no layer added to the destination
texture builder and no build invoked (the destination texture included); the
same holds for `createPrefilteredMap` and the prefiltered-map pipeline id. -/
theorem no_layer_without_pipeline (w : World) :
    (w.pipeline .IrradianceMapBaseId = false →
        (createIrradianceMap w).value = none ∧
        (createIrradianceMap w).trace.filter Event.isAddLayer = [] ∧
        (createIrradianceMap w).trace.filter Event.isBuild = []) ∧
      (w.pipeline .PrefilteredMapBaseId = false →
        (createPrefilteredMap w).value = none ∧
        (createPrefilteredMap w).trace.filter Event.isAddLayer = [] ∧
        (createPrefilteredMap w).trace.filter Event.isBuild = []) :=
  ⟨irradiance_without_pipeline w, prefiltered_without_pipeline w⟩

/-- Witness for C7, at `pipelineLessWorld`. -/
theorem no_layer_without_pipeline_witness :
    ((createIrradianceMap pipelineLessWorld).value = none ∧
        (createIrradianceMap pipelineLessWorld).trace.filter Event.isAddLayer = [] ∧
        (createIrradianceMap pipelineLessWorld).trace.filter Event.isBuild = []) ∧
      ((createPrefilteredMap pipelineLessWorld).value = none ∧
        (createPrefilteredMap pipelineLessWorld).trace.filter Event.isAddLayer = [] ∧
        (createPrefilteredMap pipelineLessWorld).trace.filter Event.isBuild = []) :=
  ⟨(no_layer_without_pipeline pipelineLessWorld).1 rfl,
    (no_layer_without_pipeline pipelineLessWorld).2 rfl⟩

/-! ## Teardown -/

theorem irradiance_success (w : World) :
    (createIrradianceMap w).Sat (fun t v => v.isSome = true →
      t.filterMap Event.buildTarget =
          [.commandPool, .cmdBuffer, .descriptorPool, .descriptorSet, .fence, .offscreenImage,
            .imagesMemory, .offscreenImageView, .framebuffer] ∧
        t.filterMap Event.destroyed =
          [.cmdBuffer, .commandPool, .offscreenImage, .offscreenImageView, .framebuffer,
            .descriptorPool, .fence]) := by
  simp only [createIrradianceMap, sat_call, sat_check, sat_checkSome, sat_after, sat_returnAdded,
    sat_returnNullptr, List.filterMap_cons, List.filterMap_append, List.filterMap_nil,
    List.nil_append, List.append_nil, Event.buildTarget, Event.destroyed, BuildRequest.target,
    record_filterMap, addLayers_filterMap, Option.isSome_none, Option.isSome_some,
    Bool.false_eq_true, false_implies, implies_true, and_self, true_implies]

theorem prefiltered_success (w : World) :
    (createPrefilteredMap w).Sat (fun t v => v.isSome = true →
      t.filterMap Event.buildTarget =
          [.commandPool, .cmdBuffer, .descriptorPool, .descriptorSet, .fence, .offscreenImage,
            .imagesMemory, .offscreenImageView, .framebuffer] ∧
        t.filterMap Event.destroyed =
          [.cmdBuffer, .commandPool, .offscreenImage, .offscreenImageView, .framebuffer,
            .descriptorPool, .fence]) := by
  simp only [createPrefilteredMap, sat_call, sat_check, sat_checkSome, sat_after, sat_returnAdded,
    sat_returnNullptr, List.filterMap_cons, List.filterMap_append, List.filterMap_nil,
    List.nil_append, List.append_nil, Event.buildTarget, Event.destroyed, BuildRequest.target,
    record_filterMap, addLayers_filterMap, Option.isSome_none, Option.isSome_some,
    Bool.false_eq_true, false_implies, implies_true, and_self, true_implies]

theorem irradiance_released (w : World) :
    (createIrradianceMap w).released = scopeExit (createIrradianceMap w).value.isSome := by
  simp only [createIrradianceMap, exit_call, exit_after, exit_check, exit_checkSome,
    exit_returnAdded, implies_true]

theorem prefiltered_released (w : World) :
    (createPrefilteredMap w).released = scopeExit (createPrefilteredMap w).value.isSome := by
  simp only [createPrefilteredMap, exit_call, exit_after, exit_check, exit_checkSome,
    exit_returnAdded, implies_true]

theorem irradiance_good_isSome : (createIrradianceMap goodWorld).value.isSome = true := rfl

theorem prefiltered_good_isSome : (createPrefilteredMap goodWorld).value.isSome = true := rfl

/-- C8: for every successful call of `createIrradianceMap` or
`createPrefilteredMap`, the call built the nine transient objects (command
pool, command buffer, descriptor pool, descriptor set, fence, offscreen image,
device memory, offscreen image view, framebuffer), and on every one of them a
destroy has been issued by the time the call returns.  The body issues an
explicit `destroy()` on seven of them, once each and in the order command
buffer, command pool, offscreen image, offscreen image view, framebuffer,
descriptor pool, fence; the device memory and the descriptor set have no
explicit `destroy()` and are released, with the other locals, as the function
body is left. -/
theorem destroy_issued_on_success (w : World) :
    ((createIrradianceMap w).value.isSome = true →
        (createIrradianceMap w).trace.filterMap Event.buildTarget =
          [.commandPool, .cmdBuffer, .descriptorPool, .descriptorSet, .fence, .offscreenImage,
            .imagesMemory, .offscreenImageView, .framebuffer] ∧
        (∀ t ∈ (createIrradianceMap w).trace.filterMap Event.buildTarget,
          t ∈ (createIrradianceMap w).destroyIssued) ∧
        (createIrradianceMap w).trace.filterMap Event.destroyed =
          [.cmdBuffer, .commandPool, .offscreenImage, .offscreenImageView, .framebuffer,
            .descriptorPool, .fence] ∧
        (createIrradianceMap w).released =
          [.descriptorSet, .descriptorPool, .fence, .framebuffer, .imagesMemory,
            .offscreenImageView, .offscreenImage, .cmdBuffer, .commandPool]) ∧
      ((createPrefilteredMap w).value.isSome = true →
        (createPrefilteredMap w).trace.filterMap Event.buildTarget =
          [.commandPool, .cmdBuffer, .descriptorPool, .descriptorSet, .fence, .offscreenImage,
            .imagesMemory, .offscreenImageView, .framebuffer] ∧
        (∀ t ∈ (createPrefilteredMap w).trace.filterMap Event.buildTarget,
          t ∈ (createPrefilteredMap w).destroyIssued) ∧
        (createPrefilteredMap w).trace.filterMap Event.destroyed =
          [.cmdBuffer, .commandPool, .offscreenImage, .offscreenImageView, .framebuffer,
            .descriptorPool, .fence] ∧
        (createPrefilteredMap w).released =
          [.descriptorSet, .descriptorPool, .fence, .framebuffer, .imagesMemory,
            .offscreenImageView, .offscreenImage, .cmdBuffer, .commandPool]) := by
  constructor
  · intro h
    obtain ⟨h1, h2⟩ := irradiance_success w h
    have h3 := irradiance_released w
    rw [h] at h3
    refine ⟨h1, fun t _ => ?_, h2, h3⟩
    rw [Outcome.destroyIssued, h2, h3]
    cases t <;> decide
  · intro h
    obtain ⟨h1, h2⟩ := prefiltered_success w h
    have h3 := prefiltered_released w
    rw [h] at h3
    refine ⟨h1, fun t _ => ?_, h2, h3⟩
    rw [Outcome.destroyIssued, h2, h3]
    cases t <;> decide

/-- Witness for C8, at `goodWorld`: both calls succeed; the device memory built
by `createIrradianceMap` and the fence built by `createPrefilteredMap` have a
destroy issued on them by the time the call returns. -/
theorem destroy_issued_on_success_witness :
    (createIrradianceMap goodWorld).value.isSome = true ∧
      (createPrefilteredMap goodWorld).value.isSome = true ∧
      Transient.imagesMemory ∈ (createIrradianceMap goodWorld).destroyIssued ∧
      Transient.fence ∈ (createPrefilteredMap goodWorld).destroyIssued :=
  ⟨irradiance_good_isSome, prefiltered_good_isSome,
    ((destroy_issued_on_success goodWorld).1 irradiance_good_isSome).2.1 .imagesMemory
      (by rw [((destroy_issued_on_success goodWorld).1 irradiance_good_isSome).1]; decide),
    ((destroy_issued_on_success goodWorld).2 prefiltered_good_isSome).2.1 .fence
      (by rw [((destroy_issued_on_success goodWorld).2 prefiltered_good_isSome).1]; decide)⟩

/-! ## Failure paths -/

theorem irradiance_failure_no_destroy (w : World) :
    (createIrradianceMap w).Sat (fun t v => v = none → t.filter Event.isDestroy = []) := by
  simp only [createIrradianceMap, sat_call, sat_check, sat_checkSome, sat_after, sat_returnAdded,
    sat_returnNullptr, List.filter_cons, List.filter_append, List.filter_nil, List.nil_append,
    List.append_nil, Event.isDestroy, addLayers_filter, record_filter, Bool.false_eq_true,
    if_false, implies_true, and_self, reduceCtorEq, false_implies]

theorem prefiltered_failure_no_destroy (w : World) :
    (createPrefilteredMap w).Sat (fun t v => v = none → t.filter Event.isDestroy = []) := by
  simp only [createPrefilteredMap, sat_call, sat_check, sat_checkSome, sat_after, sat_returnAdded,
    sat_returnNullptr, List.filter_cons, List.filter_append, List.filter_nil, List.nil_append,
    List.append_nil, Event.isDestroy, addLayers_filter, record_filter, Bool.false_eq_true,
    if_false, implies_true, and_self, reduceCtorEq, false_implies]

/-- C10, the code at the failing input: when `cmdBuffer.begin()` fails
(`beginFailingWorld`) or `cmdBuffer.end()` fails (`endFailingWorld`),
`createIrradianceMap` reaches that call, returns null and the trace holds no
error log entry at all. -/
theorem silent_begin_end_failure :
    (Event.cmdBegin ∈ (createIrradianceMap beginFailingWorld).trace ∧
        (createIrradianceMap beginFailingWorld).value = none ∧
        (createIrradianceMap beginFailingWorld).trace.filter Event.isError = []) ∧
      (Event.cmdEnd ∈ (createIrradianceMap endFailingWorld).trace ∧
        (createIrradianceMap endFailingWorld).value = none ∧
        (createIrradianceMap endFailingWorld).trace.filter Event.isError = []) := by
  refine ⟨⟨?_, rfl, rfl⟩, ⟨?_, rfl, rfl⟩⟩
  · decide
  · decide

/-! ## Hand-over to the resource manager -/

theorem allSucceed_iff (w : World) (id : PipelineId) :
    w.allSucceed id = true ↔
      w.pipeline id = true ∧ w.environnementTexture.isSome = true ∧
        (∀ k, k < 6 → w.addLayer k = true) ∧ w.textureBuild = true ∧ w.queue = true ∧
        (∀ x : Transient, w.build x = true) ∧ w.addImage = true ∧ w.cmdBegin = true ∧
        w.cmdEnd = true ∧ w.submit = true ∧ w.fenceWait = true ∧ w.waitIdle = true := by
  simp only [World.allSucceed, Bool.and_eq_true, List.all_eq_true, List.mem_range,
    List.mem_cons, List.mem_singleton, forall_eq_or_imp, forall_eq, List.not_mem_nil,
    false_implies, implies_true, and_true]
  constructor
  · rintro ⟨⟨⟨⟨⟨⟨⟨⟨⟨⟨⟨h1, h2⟩, h3⟩, h4⟩, h5⟩, hb⟩, h6⟩, h7⟩, h8⟩, h9⟩, h10⟩, h11⟩
    obtain ⟨b1, b2, b3, b4, b5, b6, b7, b8, b9⟩ := hb
    exact ⟨h1, h2, h3, h4, h5, fun x => by cases x <;> assumption, h6, h7, h8, h9, h10, h11⟩
  · rintro ⟨h1, h2, h3, h4, h5, hb, h6, h7, h8, h9, h10, h11⟩
    exact ⟨⟨⟨⟨⟨⟨⟨⟨⟨⟨⟨h1, h2⟩, h3⟩, h4⟩, h5⟩,
      ⟨hb _, hb _, hb _, hb _, hb _, hb _, hb _, hb _, hb _⟩⟩, h6⟩, h7⟩, h8⟩, h9⟩, h10⟩, h11⟩



theorem irradiance_isSome_imp_allSucceed (w : World) :
    (createIrradianceMap w).Sat (fun _ v =>
      v.isSome = true → w.allSucceed .IrradianceMapBaseId = true) := by
  simp only [createIrradianceMap, sat_call, sat_check, sat_checkSome, sat_after,
    sat_returnAdded, sat_returnNullptr, Option.isSome_none, Option.isSome_some,
    Bool.false_eq_true, false_implies, implies_true, true_and, true_implies]
  intro h1 texture h2 tb h3 h4 h5 h6 h7 h8 h9 h10 h11 h12 h13 h14 h15 h16 h17 h18 h19 h20
  obtain ⟨-, -, hl⟩ := addLayers_some _ _ _ _ _ _ _ _ h3
  simp only [Nat.zero_add] at hl
  simp [World.allSucceed, *]
  exact fun k hk => hl k hk

theorem irradiance_allSucceed_imp_isSome (w : World)
    (h : w.allSucceed .IrradianceMapBaseId = true) :
    (createIrradianceMap w).value.isSome = true := by
  simp only [World.allSucceed, Bool.and_eq_true, List.all_eq_true, List.mem_range,
    List.mem_cons, List.mem_singleton, forall_eq_or_imp, forall_eq, List.not_mem_nil,
    false_implies, implies_true, and_true, Option.isSome_iff_exists] at h
  obtain ⟨⟨⟨⟨⟨⟨⟨⟨⟨⟨⟨h1, ⟨texture, h2⟩⟩, h3⟩, h4⟩, h5⟩, hb⟩, h6⟩, h7⟩, h8⟩, h9⟩, h10⟩, h11⟩ := h
  obtain ⟨b1, b2, b3, b4, b5, b6, b7, b8, b9⟩ := hb
  have hl := addLayers_of_ok w.addLayer irradianceMapSize irradianceMapSize
    .R32G32B32A32_SFLOAT 6 0
    ((((((TextureBuilder.fresh.setType .CubeMap).setMagFilter texture.magFilter).setMinFilter
      texture.minFilter).setMipMapFilter texture.mipMapFilter).setWrapS texture.wrapS).setWrapT
      texture.wrapT) (by simpa using h3)
  show (createIrradianceMap w).Sat (fun _ v => v.isSome = true)
  simp only [createIrradianceMap, sat_call, sat_check, sat_checkSome, sat_after,
    sat_returnAdded, sat_returnNullptr, h1, h2, hl, h4, h5, b1, b2, b3, b4, b5, b6, b7, b8, b9,
    h6, h7, h8, h9, h10, h11, Option.isSome_some, Option.some.injEq, forall_eq',
    reduceCtorEq, false_implies, true_and, implies_true, and_self, true_implies,
    Bool.true_eq_false]


theorem prefiltered_isSome_imp_allSucceed (w : World) :
    (createPrefilteredMap w).Sat (fun _ v =>
      v.isSome = true → w.allSucceed .PrefilteredMapBaseId = true) := by
  simp only [createPrefilteredMap, sat_call, sat_check, sat_checkSome, sat_after,
    sat_returnAdded, sat_returnNullptr, Option.isSome_none, Option.isSome_some,
    Bool.false_eq_true, false_implies, implies_true, true_and, true_implies]
  intro h1 texture h2 tb h3 h4 h5 h6 h7 h8 h9 h10 h11 h12 h13 h14 h15 h16 h17 h18 h19 h20
  obtain ⟨-, -, hl⟩ := addLayers_some _ _ _ _ _ _ _ _ h3
  simp only [Nat.zero_add] at hl
  simp [World.allSucceed, *]
  exact fun k hk => hl k hk

theorem prefiltered_allSucceed_imp_isSome (w : World)
    (h : w.allSucceed .PrefilteredMapBaseId = true) :
    (createPrefilteredMap w).value.isSome = true := by
  simp only [World.allSucceed, Bool.and_eq_true, List.all_eq_true, List.mem_range,
    List.mem_cons, List.mem_singleton, forall_eq_or_imp, forall_eq, List.not_mem_nil,
    false_implies, implies_true, and_true, Option.isSome_iff_exists] at h
  obtain ⟨⟨⟨⟨⟨⟨⟨⟨⟨⟨⟨h1, ⟨texture, h2⟩⟩, h3⟩, h4⟩, h5⟩, hb⟩, h6⟩, h7⟩, h8⟩, h9⟩, h10⟩, h11⟩ := h
  obtain ⟨b1, b2, b3, b4, b5, b6, b7, b8, b9⟩ := hb
  have hl := addLayers_of_ok w.addLayer prefilteredMapSize prefilteredMapSize
    .R32G32B32A32_SFLOAT 6 0
    (((((((TextureBuilder.fresh.setType .CubeMap).setMipLevels mipMapCount).setMagFilter
      texture.magFilter).setMinFilter texture.minFilter).setMipMapFilter
      texture.mipMapFilter).setWrapS texture.wrapS).setWrapT texture.wrapT) (by simpa using h3)
  show (createPrefilteredMap w).Sat (fun _ v => v.isSome = true)
  simp only [createPrefilteredMap, sat_call, sat_check, sat_checkSome, sat_after,
    sat_returnAdded, sat_returnNullptr, h1, h2, hl, h4, h5, b1, b2, b3, b4, b5, b6, b7, b8, b9,
    h6, h7, h8, h9, h10, h11, Option.isSome_some, Option.some.injEq, forall_eq',
    reduceCtorEq, false_implies, true_and, implies_true, and_self, true_implies,
    Bool.true_eq_false]
theorem irradiance_success_trace (w : World) (texture : SourceTexture)
    (hTexture : w.environnementTexture = some texture)
    (h : w.allSucceed .IrradianceMapBaseId = true) :
    (createIrradianceMap w).Sat (fun t v =>
      v = some ⟨w.name ++ "_irradiance_map",
          { type := some .CubeMap
            mipLevels := none
            magFilter := some texture.magFilter
            minFilter := some texture.minFilter
            mipMapFilter := some texture.mipMapFilter
            wrapS := some texture.wrapS
            wrapT := some texture.wrapT
            layers := List.replicate 6 ⟨64, 64, .R32G32B32A32_SFLOAT⟩ }⟩ ∧
      t = [.newSkyBox (w.name ++ "_irradiance_map"), .getPipeline .IrradianceMapBaseId]
        ++ List.replicate 6 (.addLayer 64 64 .R32G32B32A32_SFLOAT)
        ++ [.textureBuild
              { type := some .CubeMap
                mipLevels := none
                magFilter := some texture.magFilter
                minFilter := some texture.minFilter
                mipMapFilter := some texture.mipMapFilter
                wrapS := some texture.wrapS
                wrapT := some texture.wrapT
                layers := List.replicate 6 ⟨64, 64, .R32G32B32A32_SFLOAT⟩ },
            .getQueue "queue_graphics", .build .commandPool, .build .commandBuffer,
            .build (.descriptorPool 0 42 42), .build .descriptorSet,
            .updateImages 0 0 .SHADER_READ_ONLY_OPTIMAL, .build .fence,
            .build (.image ⟨64, 64, 1⟩ [.COLOR_ATTACHMENT_BIT, .TRANSFER_SRC_BIT]),
            .addImage, .build .deviceMemory, .build .imageView, .build (.framebuffer 64 64),
            .cmdBegin]
        ++ (irradianceCommands w.elementsCount).map .record
        ++ [.cmdEnd, .submit [] [] [] .fence, .fenceWait, .waitIdle, .destroy .cmdBuffer,
            .destroy .commandPool, .destroy .offscreenImage, .destroy .offscreenImageView,
            .destroy .framebuffer, .destroy .descriptorPool, .destroy .fence,
            .add (w.name ++ "_irradiance_map")]) := by
  obtain ⟨h1, -, h3, h4, h5, hb, h6, h7, h8, h9, h10, h11⟩ := (allSucceed_iff w _).mp h
  have hl := addLayers_of_ok w.addLayer irradianceMapSize irradianceMapSize
    .R32G32B32A32_SFLOAT 6 0
    ((((((TextureBuilder.fresh.setType .CubeMap).setMagFilter texture.magFilter).setMinFilter
      texture.minFilter).setMipMapFilter texture.mipMapFilter).setWrapS texture.wrapS).setWrapT
      texture.wrapT) (by simpa using h3)
  simp only [createIrradianceMap, sat_call, sat_check, sat_checkSome, sat_after,
    sat_returnAdded, sat_returnNullptr, h1, hTexture, hl, h4, h5, hb, h6, h7, h8, h9, h10, h11,
    Option.some.injEq, forall_eq', reduceCtorEq, false_implies, true_and, implies_true,
    and_self, true_implies, Bool.true_eq_false]
  simp [irradianceMapSize, TextureBuilder.fresh, TextureBuilder.setType,
    TextureBuilder.setMagFilter, TextureBuilder.setMinFilter, TextureBuilder.setMipMapFilter,
    TextureBuilder.setWrapS, TextureBuilder.setWrapT]

theorem prefiltered_success_trace (w : World) (texture : SourceTexture)
    (hTexture : w.environnementTexture = some texture)
    (h : w.allSucceed .PrefilteredMapBaseId = true) :
    (createPrefilteredMap w).Sat (fun t v =>
      v = some ⟨w.name ++ "_prefiltered_map",
          { type := some .CubeMap
            mipLevels := some mipMapCount
            magFilter := some texture.magFilter
            minFilter := some texture.minFilter
            mipMapFilter := some texture.mipMapFilter
            wrapS := some texture.wrapS
            wrapT := some texture.wrapT
            layers := List.replicate 6 ⟨512, 512, .R32G32B32A32_SFLOAT⟩ }⟩ ∧
      t = [.newSkyBox (w.name ++ "_prefiltered_map"), .getPipeline .PrefilteredMapBaseId]
        ++ List.replicate 6 (.addLayer 512 512 .R32G32B32A32_SFLOAT)
        ++ [.textureBuild
              { type := some .CubeMap
                mipLevels := some mipMapCount
                magFilter := some texture.magFilter
                minFilter := some texture.minFilter
                mipMapFilter := some texture.mipMapFilter
                wrapS := some texture.wrapS
                wrapT := some texture.wrapT
                layers := List.replicate 6 ⟨512, 512, .R32G32B32A32_SFLOAT⟩ },
            .getQueue "queue_graphics", .build .commandPool, .build .commandBuffer,
            .build (.descriptorPool 0 42 42), .build .descriptorSet,
            .updateImages 0 0 .SHADER_READ_ONLY_OPTIMAL, .build .fence,
            .build (.image ⟨512, 512, 1⟩ [.COLOR_ATTACHMENT_BIT, .TRANSFER_SRC_BIT]),
            .addImage, .build .deviceMemory, .build .imageView, .build (.framebuffer 512 512),
            .cmdBegin]
        ++ (prefilteredCommands w.elementsCount).map .record
        ++ [.cmdEnd, .submit [] [] [] .fence, .fenceWait, .waitIdle, .destroy .cmdBuffer,
            .destroy .commandPool, .destroy .offscreenImage, .destroy .offscreenImageView,
            .destroy .framebuffer, .destroy .descriptorPool, .destroy .fence,
            .add (w.name ++ "_prefiltered_map")]) := by
  obtain ⟨h1, -, h3, h4, h5, hb, h6, h7, h8, h9, h10, h11⟩ := (allSucceed_iff w _).mp h
  have hl := addLayers_of_ok w.addLayer prefilteredMapSize prefilteredMapSize
    .R32G32B32A32_SFLOAT 6 0
    (((((((TextureBuilder.fresh.setType .CubeMap).setMipLevels mipMapCount).setMagFilter
      texture.magFilter).setMinFilter texture.minFilter).setMipMapFilter
      texture.mipMapFilter).setWrapS texture.wrapS).setWrapT texture.wrapT) (by simpa using h3)
  simp only [createPrefilteredMap, sat_call, sat_check, sat_checkSome, sat_after,
    sat_returnAdded, sat_returnNullptr, h1, hTexture, hl, h4, h5, hb, h6, h7, h8, h9, h10, h11,
    Option.some.injEq, forall_eq', reduceCtorEq, false_implies, true_and, implies_true,
    and_self, true_implies, Bool.true_eq_false]
  simp [prefilteredMapSize, TextureBuilder.fresh, TextureBuilder.setType,
    TextureBuilder.setMagFilter, TextureBuilder.setMinFilter, TextureBuilder.setMipMapFilter,
    TextureBuilder.setWrapS, TextureBuilder.setWrapT, TextureBuilder.setMipLevels]

theorem irradiance_none_no_add (w : World) :
    (createIrradianceMap w).Sat (fun t v => v = none → t.filterMap Event.added = []) := by
  simp only [createIrradianceMap, sat_call, sat_check, sat_checkSome, sat_after,
    sat_returnAdded, sat_returnNullptr, List.filterMap_cons, List.filterMap_append,
    List.filterMap_nil, List.nil_append, List.append_nil, Event.added, addLayers_filterMap,
    record_filterMap, implies_true, and_self, reduceCtorEq, false_implies]

theorem prefiltered_none_no_add (w : World) :
    (createPrefilteredMap w).Sat (fun t v => v = none → t.filterMap Event.added = []) := by
  simp only [createPrefilteredMap, sat_call, sat_check, sat_checkSome, sat_after,
    sat_returnAdded, sat_returnNullptr, List.filterMap_cons, List.filterMap_append,
    List.filterMap_nil, List.nil_append, List.append_nil, Event.added, addLayers_filterMap,
    record_filterMap, implies_true, and_self, reduceCtorEq, false_implies]

theorem irradiance_isSome_of_waitIdle (w : World) :
    (createIrradianceMap w).Sat (fun t v =>
      Event.waitIdle ∈ t → w.waitIdle = true → v.isSome = true) := by
  simp only [createIrradianceMap, sat_call, sat_check, sat_checkSome, sat_after,
    sat_returnAdded, sat_returnNullptr, List.mem_cons, List.mem_append, addLayers_mem,
    record_mem, List.not_mem_nil, reduceCtorEq, false_or, or_false, or_self, true_or,
    false_implies, true_implies, implies_true, and_self, and_true, true_and,
    Option.isSome_some, Option.isSome_none, Bool.false_eq_true, ne_eq, not_false_eq_true]
  intros
  simp_all

theorem prefiltered_isSome_of_waitIdle (w : World) :
    (createPrefilteredMap w).Sat (fun t v =>
      Event.waitIdle ∈ t → w.waitIdle = true → v.isSome = true) := by
  simp only [createPrefilteredMap, sat_call, sat_check, sat_checkSome, sat_after,
    sat_returnAdded, sat_returnNullptr, List.mem_cons, List.mem_append, addLayers_mem,
    record_mem, List.not_mem_nil, reduceCtorEq, false_or, or_false, or_self, true_or,
    false_implies, true_implies, implies_true, and_self, and_true, true_and,
    Option.isSome_some, Option.isSome_none, Bool.false_eq_true, ne_eq, not_false_eq_true]
  intros
  simp_all

theorem all_built (x : Transient) :
    x ∈ ([.commandPool, .cmdBuffer, .descriptorPool, .descriptorSet, .fence, .offscreenImage,
      .imagesMemory, .offscreenImageView, .framebuffer] : List Transient) := by
  cases x <;> decide

theorem irradiance_steps (w : World) (h : w.allSucceed .IrradianceMapBaseId = true) :
    stepsSucceeded w .IrradianceMapBaseId (createIrradianceMap w).trace ∧
      (createIrradianceMap w).trace.filterMap Event.added = [w.name ++ "_irradiance_map"] ∧
      (createIrradianceMap w).trace.getLast? = some (.add (w.name ++ "_irradiance_map")) := by
  obtain ⟨h1, h2, h3, h4, h5, hb, h6, h7, h8, h9, h10, h11⟩ := (allSucceed_iff w _).mp h
  obtain ⟨texture, hTexture⟩ := Option.isSome_iff_exists.mp h2
  obtain ⟨-, ht⟩ := irradiance_success_trace w texture hTexture h
  refine ⟨⟨⟨?_, h1⟩, h2, ⟨?_, h3⟩, ⟨?_, h4⟩, fun x => ⟨?_, hb x⟩, ⟨?_, h7⟩,
    ⟨?_, h8⟩, ⟨?_, h9⟩, ⟨?_, h10⟩, ⟨?_, h11⟩⟩, ?_, ?_⟩
  · rw [ht]; simp
  · rw [ht]; simp [List.filter_cons, Event.isAddLayer, replicate_filter, record_filter]
  · rw [ht]; simp [Event.textureBuilt, replicate_filterMap, record_filterMap]
  · rw [ht]
    simpa [Event.buildTarget, replicate_filterMap, record_filterMap, BuildRequest.target]
      using all_built x
  · rw [ht]; simp
  · rw [ht]; simp
  · rw [ht]; simp
  · rw [ht]; simp
  · rw [ht]; simp
  · rw [ht]; simp [Event.added, replicate_filterMap, record_filterMap]
  · rw [ht, List.getLast?_append]; rfl

theorem prefiltered_steps (w : World) (h : w.allSucceed .PrefilteredMapBaseId = true) :
    stepsSucceeded w .PrefilteredMapBaseId (createPrefilteredMap w).trace ∧
      (createPrefilteredMap w).trace.filterMap Event.added = [w.name ++ "_prefiltered_map"] ∧
      (createPrefilteredMap w).trace.getLast? = some (.add (w.name ++ "_prefiltered_map")) := by
  obtain ⟨h1, h2, h3, h4, h5, hb, h6, h7, h8, h9, h10, h11⟩ := (allSucceed_iff w _).mp h
  obtain ⟨texture, hTexture⟩ := Option.isSome_iff_exists.mp h2
  obtain ⟨-, ht⟩ := prefiltered_success_trace w texture hTexture h
  refine ⟨⟨⟨?_, h1⟩, h2, ⟨?_, h3⟩, ⟨?_, h4⟩, fun x => ⟨?_, hb x⟩, ⟨?_, h7⟩,
    ⟨?_, h8⟩, ⟨?_, h9⟩, ⟨?_, h10⟩, ⟨?_, h11⟩⟩, ?_, ?_⟩
  · rw [ht]; simp
  · rw [ht]; simp [List.filter_cons, Event.isAddLayer, replicate_filter, record_filter]
  · rw [ht]; simp [Event.textureBuilt, replicate_filterMap, record_filterMap]
  · rw [ht]
    simpa [Event.buildTarget, replicate_filterMap, record_filterMap, BuildRequest.target]
      using all_built x
  · rw [ht]; simp
  · rw [ht]; simp
  · rw [ht]; simp
  · rw [ht]; simp
  · rw [ht]; simp
  · rw [ht]; simp [Event.added, replicate_filterMap, record_filterMap]
  · rw [ht, List.getLast?_append]; rfl

/-- C11: `createIrradianceMap` and `createPrefilteredMap` hand the derived
resource to the resource manager (`add`) if and only if the pipeline lookup,
the source-texture check, every layer addition and builder, the command-buffer
begin and end, the queue submit, the fence wait and the queue wait-idle were
all performed and succeeded; `add` is then invoked exactly once, as the last
action, and the call returns the resource.  In every other case the call
returns null and `add` is never invoked.  In terms of the world alone, the
hand-over happens exactly when every fallible call succeeds. -/
theorem add_iff_all_succeeded (w : World) :
    ((Event.add (w.name ++ "_irradiance_map") ∈ (createIrradianceMap w).trace ↔
          stepsSucceeded w .IrradianceMapBaseId (createIrradianceMap w).trace) ∧
        (stepsSucceeded w .IrradianceMapBaseId (createIrradianceMap w).trace ↔
          w.allSucceed .IrradianceMapBaseId = true) ∧
        (stepsSucceeded w .IrradianceMapBaseId (createIrradianceMap w).trace →
          (createIrradianceMap w).value.isSome = true ∧
          (createIrradianceMap w).trace.filterMap Event.added = [w.name ++ "_irradiance_map"] ∧
          (createIrradianceMap w).trace.getLast? = some (.add (w.name ++ "_irradiance_map"))) ∧
        (¬ stepsSucceeded w .IrradianceMapBaseId (createIrradianceMap w).trace →
          (createIrradianceMap w).value = none ∧
          (createIrradianceMap w).trace.filterMap Event.added = [])) ∧
      ((Event.add (w.name ++ "_prefiltered_map") ∈ (createPrefilteredMap w).trace ↔
          stepsSucceeded w .PrefilteredMapBaseId (createPrefilteredMap w).trace) ∧
        (stepsSucceeded w .PrefilteredMapBaseId (createPrefilteredMap w).trace ↔
          w.allSucceed .PrefilteredMapBaseId = true) ∧
        (stepsSucceeded w .PrefilteredMapBaseId (createPrefilteredMap w).trace →
          (createPrefilteredMap w).value.isSome = true ∧
          (createPrefilteredMap w).trace.filterMap Event.added = [w.name ++ "_prefiltered_map"] ∧
          (createPrefilteredMap w).trace.getLast? = some (.add (w.name ++ "_prefiltered_map"))) ∧
        (¬ stepsSucceeded w .PrefilteredMapBaseId (createPrefilteredMap w).trace →
          (createPrefilteredMap w).value = none ∧
          (createPrefilteredMap w).trace.filterMap Event.added = [])) := by
  constructor
  · have hsome : stepsSucceeded w .IrradianceMapBaseId (createIrradianceMap w).trace →
        (createIrradianceMap w).value.isSome = true :=
      fun hs => irradiance_isSome_of_waitIdle w hs.2.2.2.2.2.2.2.2.2.1 hs.2.2.2.2.2.2.2.2.2.2
    have hall : stepsSucceeded w .IrradianceMapBaseId (createIrradianceMap w).trace →
        w.allSucceed .IrradianceMapBaseId = true :=
      fun hs => irradiance_isSome_imp_allSucceed w (hsome hs)
    have hnone : ¬ stepsSucceeded w .IrradianceMapBaseId (createIrradianceMap w).trace →
        (createIrradianceMap w).value = none := by
      intro hs
      cases hv : (createIrradianceMap w).value with
      | none => rfl
      | some d =>
        exact absurd (irradiance_steps w
          (irradiance_isSome_imp_allSucceed w (by rw [hv]; rfl))).1 hs
    refine ⟨⟨fun hmem => ?_, fun hs => ?_⟩, ⟨hall, fun h => (irradiance_steps w h).1⟩,
      fun hs => ⟨hsome hs, (irradiance_steps w (hall hs)).2⟩,
      fun hs => ⟨hnone hs, irradiance_none_no_add w (hnone hs)⟩⟩
    · by_contra hs
      have hadd := irradiance_none_no_add w (hnone hs)
      have : w.name ++ "_irradiance_map" ∈ (createIrradianceMap w).trace.filterMap Event.added :=
        List.mem_filterMap.mpr ⟨_, hmem, rfl⟩
      rw [hadd] at this
      cases this
    · have hl := (irradiance_steps w (hall hs)).2.2
      obtain ⟨ys, hys⟩ := List.getLast?_eq_some_iff.mp hl
      rw [hys]
      simp
  · have hsome : stepsSucceeded w .PrefilteredMapBaseId (createPrefilteredMap w).trace →
        (createPrefilteredMap w).value.isSome = true :=
      fun hs => prefiltered_isSome_of_waitIdle w hs.2.2.2.2.2.2.2.2.2.1 hs.2.2.2.2.2.2.2.2.2.2
    have hall : stepsSucceeded w .PrefilteredMapBaseId (createPrefilteredMap w).trace →
        w.allSucceed .PrefilteredMapBaseId = true :=
      fun hs => prefiltered_isSome_imp_allSucceed w (hsome hs)
    have hnone : ¬ stepsSucceeded w .PrefilteredMapBaseId (createPrefilteredMap w).trace →
        (createPrefilteredMap w).value = none := by
      intro hs
      cases hv : (createPrefilteredMap w).value with
      | none => rfl
      | some d =>
        exact absurd (prefiltered_steps w
          (prefiltered_isSome_imp_allSucceed w (by rw [hv]; rfl))).1 hs
    refine ⟨⟨fun hmem => ?_, fun hs => ?_⟩, ⟨hall, fun h => (prefiltered_steps w h).1⟩,
      fun hs => ⟨hsome hs, (prefiltered_steps w (hall hs)).2⟩,
      fun hs => ⟨hnone hs, prefiltered_none_no_add w (hnone hs)⟩⟩
    · by_contra hs
      have hadd := prefiltered_none_no_add w (hnone hs)
      have : w.name ++ "_prefiltered_map" ∈ (createPrefilteredMap w).trace.filterMap Event.added :=
        List.mem_filterMap.mpr ⟨_, hmem, rfl⟩
      rw [hadd] at this
      cases this
    · have hl := (prefiltered_steps w (hall hs)).2.2
      obtain ⟨ys, hys⟩ := List.getLast?_eq_some_iff.mp hl
      rw [hys]
      simp

theorem goodWorld_allSucceed (id : PipelineId) : goodWorld.allSucceed id = true := by
  cases id <;> rfl

/-- Witness for C11, at `goodWorld` (every step succeeds: `add` is the last
action of both calls) and at `queueLessWorld` (the queue lookup fails, so the
builders are never run: `createIrradianceMap` returns null without `add`). -/
theorem add_iff_all_succeeded_witness :
    (createIrradianceMap goodWorld).trace.getLast? = some (.add "sky_irradiance_map") ∧
      (createPrefilteredMap goodWorld).trace.getLast? = some (.add "sky_prefiltered_map") ∧
      (createIrradianceMap queueLessWorld).value = none ∧
      (createIrradianceMap queueLessWorld).trace.filterMap Event.added = [] := by
  have hg := add_iff_all_succeeded goodWorld
  have hq := add_iff_all_succeeded queueLessWorld
  have h1 := (hg.1.2.2.1 (hg.1.2.1.mpr (goodWorld_allSucceed _))).2.2
  have h2 := (hg.2.2.2.1 (hg.2.2.1.mpr (goodWorld_allSucceed _))).2.2
  have h3 := hq.1.2.2.2 (fun hs => by
    have := hq.1.2.1.mp hs
    revert this
    decide)
  exact ⟨h1, h2, h3.1, h3.2⟩

/-! ## The recorded command sequence of a run -/

theorem recorded_record (l : List Cmd) : (l.map Event.record).filterMap Event.recorded = l := by
  induction l with
  | nil => rfl
  | cons c l ih => simp [Event.recorded, ih]

theorem irradiance_recorded (w : World) :
    (createIrradianceMap w).Sat (fun t _ =>
      t.filterMap Event.recorded = [] ∨
        t.filterMap Event.recorded = irradianceCommands w.elementsCount) := by
  simp only [createIrradianceMap, sat_call, sat_check, sat_checkSome, sat_after,
    sat_returnAdded, sat_returnNullptr, List.filterMap_cons, List.filterMap_append,
    List.filterMap_nil, List.nil_append, List.append_nil, Event.recorded, addLayers_filterMap,
    recorded_record, true_or, or_true, implies_true, and_self]

theorem prefiltered_recorded (w : World) :
    (createPrefilteredMap w).Sat (fun t _ =>
      t.filterMap Event.recorded = [] ∨
        t.filterMap Event.recorded = prefilteredCommands w.elementsCount) := by
  simp only [createPrefilteredMap, sat_call, sat_check, sat_checkSome, sat_after,
    sat_returnAdded, sat_returnNullptr, List.filterMap_cons, List.filterMap_append,
    List.filterMap_nil, List.nil_append, List.append_nil, Event.recorded, addLayers_filterMap,
    recorded_record, true_or, or_true, implies_true, and_self]

theorem irradiance_recorded_of_allSucceed (w : World)
    (h : w.allSucceed .IrradianceMapBaseId = true) :
    (createIrradianceMap w).trace.filterMap Event.recorded
      = irradianceCommands w.elementsCount := by
  obtain ⟨texture, hTexture⟩ := Option.isSome_iff_exists.mp ((allSucceed_iff w _).mp h).2.1
  obtain ⟨-, ht⟩ := irradiance_success_trace w texture hTexture h
  rw [ht]
  simp only [List.filterMap_append, recorded_record, List.filterMap_cons, List.filterMap_nil,
    Event.recorded, replicate_filterMap, List.nil_append, List.append_nil]

theorem prefiltered_recorded_of_allSucceed (w : World)
    (h : w.allSucceed .PrefilteredMapBaseId = true) :
    (createPrefilteredMap w).trace.filterMap Event.recorded
      = prefilteredCommands w.elementsCount := by
  obtain ⟨texture, hTexture⟩ := Option.isSome_iff_exists.mp ((allSucceed_iff w _).mp h).2.1
  obtain ⟨-, ht⟩ := prefiltered_success_trace w texture hTexture h
  rw [ht]
  simp only [List.filterMap_append, recorded_record, List.filterMap_cons, List.filterMap_nil,
    Event.recorded, replicate_filterMap, List.nil_append, List.append_nil]

/-! ## Image copies -/

theorem flatMap_flatMap {α β γ : Type} (g : β → List γ) (f : α → List β) (l : List α) :
    (l.flatMap f).flatMap g = l.flatMap (fun a => (f a).flatMap g) := by
  induction l with
  | nil => rfl
  | cons a l ih => simp [List.flatMap_cons, List.flatMap_append, ih]

theorem irradianceIteration_copyRegions (elementsCount i : Nat) :
    (irradianceIteration elementsCount i).flatMap Cmd.copyRegions =
      [ { srcSubresource := ⟨0, 0, 1⟩
          srcOffset := (0, 0, 0)
          dstSubresource := ⟨i, 0, 1⟩
          dstOffset := (0, 0, 0)
          extent := ⟨64, 64, 1⟩ } ] := by
  simp [irradianceIteration, Cmd.copyRegions, irradianceMapSize]

theorem prefilteredIteration_copyRegions (elementsCount m i : Nat) :
    (prefilteredIteration elementsCount m i).flatMap Cmd.copyRegions =
      [ { srcSubresource := ⟨0, 0, 1⟩
          srcOffset := (0, 0, 0)
          dstSubresource := ⟨i, m, 1⟩
          dstOffset := (0, 0, 0)
          extent := ⟨toUInt32 (mipExtent m), toUInt32 (mipExtent m), 1⟩ } ] := by
  simp [prefilteredIteration, Cmd.copyRegions]

theorem irradianceCommands_copyRegions (elementsCount : Nat) :
    (irradianceCommands elementsCount).flatMap Cmd.copyRegions =
      (List.range 6).map (fun i =>
        { srcSubresource := ⟨0, 0, 1⟩
          srcOffset := (0, 0, 0)
          dstSubresource := ⟨i, 0, 1⟩
          dstOffset := (0, 0, 0)
          extent := ⟨64, 64, 1⟩ }) := by
  simp only [irradianceCommands, List.flatMap_append, flatMap_flatMap,
    irradianceIteration_copyRegions]
  simp [Cmd.copyRegions, List.range_succ]

theorem prefilteredCommands_copyRegions (elementsCount : Nat) :
    (prefilteredCommands elementsCount).flatMap Cmd.copyRegions =
      (List.range 10).flatMap (fun m => (List.range 6).map (fun i =>
        { srcSubresource := ⟨0, 0, 1⟩
          srcOffset := (0, 0, 0)
          dstSubresource := ⟨i, m, 1⟩
          dstOffset := (0, 0, 0)
          extent := ⟨toUInt32 (mipExtent m), toUInt32 (mipExtent m), 1⟩ })) := by
  simp only [prefilteredCommands, List.flatMap_append, flatMap_flatMap,
    prefilteredIteration_copyRegions, mipMapCount_eq]
  simp [Cmd.copyRegions, List.range_succ]

theorem irradianceCommands_destinations (elementsCount : Nat) :
    ((irradianceCommands elementsCount).flatMap Cmd.copyRegions).map ImageCopy.destination =
      (List.range 6).map (fun i => (i, 0)) := by
  rw [irradianceCommands_copyRegions]
  simp [ImageCopy.destination, List.range_succ]

theorem prefilteredCommands_destinations (elementsCount : Nat) :
    ((prefilteredCommands elementsCount).flatMap Cmd.copyRegions).map ImageCopy.destination =
      (List.range 10).flatMap (fun m => (List.range 6).map (fun i => (i, m))) := by
  rw [prefilteredCommands_copyRegions]
  simp [ImageCopy.destination, List.range_succ]

theorem destinations_nodup :
    ((List.range 10).flatMap (fun m => (List.range 6).map (fun i => (i, m)))).Nodup := by
  decide

theorem destinations_mem (i m : Nat) :
    (i, m) ∈ (List.range 10).flatMap (fun m => (List.range 6).map (fun i => (i, m))) ↔
      i < 6 ∧ m < 10 := by
  simp only [List.mem_flatMap, List.mem_map, List.mem_range, Prod.mk.injEq]
  constructor
  · rintro ⟨a, ha, b, hb, rfl, rfl⟩
    exact ⟨hb, ha⟩
  · rintro ⟨hi, hm⟩
    exact ⟨m, hm, i, hi, rfl, rfl⟩

/-- C12: the copies recorded by `createPrefilteredMap` write the destination
subresources (layer `i`, mip `m`) for exactly the pairs `i` in 0..5, `m` in
0..9, each pair exactly once: 60 copy commands of one region each, mip-major
then face order.  The copies recorded by `createIrradianceMap` write exactly
(layer `i`, mip 0) for `i` in 0..5, each once: 6 copy commands, in face order.
A run records either nothing or exactly this command sequence, and records it
whenever every step succeeds. -/
theorem copies_cover_each_subresource_once :
    (∀ elementsCount : Nat,
      ((prefilteredCommands elementsCount).flatMap Cmd.copyRegions).map ImageCopy.destination
          = (List.range 10).flatMap (fun m => (List.range 6).map (fun i => (i, m))) ∧
        (((prefilteredCommands elementsCount).flatMap Cmd.copyRegions).map
          ImageCopy.destination).Nodup ∧
        (∀ i m : Nat,
          (i, m) ∈ ((prefilteredCommands elementsCount).flatMap Cmd.copyRegions).map
            ImageCopy.destination ↔ i < 6 ∧ m < 10) ∧
        ((prefilteredCommands elementsCount).filterMap Cmd.copied).length = 60 ∧
        (∀ c ∈ (prefilteredCommands elementsCount).filterMap Cmd.copied,
          c.regions.length = 1 ∧ c.dstImage = .environnementTexture)) ∧
      (∀ elementsCount : Nat,
        ((irradianceCommands elementsCount).flatMap Cmd.copyRegions).map ImageCopy.destination
          = [(0, 0), (1, 0), (2, 0), (3, 0), (4, 0), (5, 0)] ∧
        ((irradianceCommands elementsCount).filterMap Cmd.copied).length = 6 ∧
        (∀ c ∈ (irradianceCommands elementsCount).filterMap Cmd.copied,
          c.regions.length = 1 ∧ c.dstImage = .environnementTexture)) ∧
      (∀ w : World,
        ((createPrefilteredMap w).trace.filterMap Event.recorded = [] ∨
          (createPrefilteredMap w).trace.filterMap Event.recorded
            = prefilteredCommands w.elementsCount) ∧
        ((createIrradianceMap w).trace.filterMap Event.recorded = [] ∨
          (createIrradianceMap w).trace.filterMap Event.recorded
            = irradianceCommands w.elementsCount) ∧
        (w.allSucceed .PrefilteredMapBaseId = true →
          (createPrefilteredMap w).trace.filterMap Event.recorded
            = prefilteredCommands w.elementsCount) ∧
        (w.allSucceed .IrradianceMapBaseId = true →
          (createIrradianceMap w).trace.filterMap Event.recorded
            = irradianceCommands w.elementsCount)) := by
  refine ⟨fun elementsCount => ⟨prefilteredCommands_destinations _, ?_, ?_, ?_, ?_⟩,
    fun elementsCount => ⟨?_, ?_, ?_⟩,
    fun w => ⟨prefiltered_recorded w, irradiance_recorded w,
      prefiltered_recorded_of_allSucceed w, irradiance_recorded_of_allSucceed w⟩⟩
  · rw [prefilteredCommands_destinations]
    exact destinations_nodup
  · intro i m
    rw [prefilteredCommands_destinations]
    exact destinations_mem i m
  · simp only [prefilteredCommands, List.filterMap_append, filterMap_flatMap, mipMapCount_eq]
    simp [Cmd.copied, prefilteredIteration, List.range_succ]
  · simp only [prefilteredCommands, List.filterMap_append, filterMap_flatMap, mipMapCount_eq]
    simp [Cmd.copied, prefilteredIteration, List.range_succ]
  · rw [irradianceCommands_destinations]
    rfl
  · simp only [irradianceCommands, List.filterMap_append, filterMap_flatMap]
    simp [Cmd.copied, irradianceIteration, List.range_succ]
  · simp only [irradianceCommands, List.filterMap_append, filterMap_flatMap]
    simp [Cmd.copied, irradianceIteration, List.range_succ]

/-! ## Submit, wait, teardown -/

theorem irradiance_sync (w : World) (h : w.allSucceed .IrradianceMapBaseId = true) :
    (createIrradianceMap w).trace.filter Event.isSync =
      [.submit [] [] [] .fence, .fenceWait, .waitIdle, .destroy .cmdBuffer,
        .destroy .commandPool, .destroy .offscreenImage, .destroy .offscreenImageView,
        .destroy .framebuffer, .destroy .descriptorPool, .destroy .fence] := by
  obtain ⟨texture, hTexture⟩ := Option.isSome_iff_exists.mp ((allSucceed_iff w _).mp h).2.1
  obtain ⟨-, ht⟩ := irradiance_success_trace w texture hTexture h
  rw [ht]
  simp [List.filter_cons, Event.isSync, replicate_filter, record_filter]

theorem prefiltered_sync (w : World) (h : w.allSucceed .PrefilteredMapBaseId = true) :
    (createPrefilteredMap w).trace.filter Event.isSync =
      [.submit [] [] [] .fence, .fenceWait, .waitIdle, .destroy .cmdBuffer,
        .destroy .commandPool, .destroy .offscreenImage, .destroy .offscreenImageView,
        .destroy .framebuffer, .destroy .descriptorPool, .destroy .fence] := by
  obtain ⟨texture, hTexture⟩ := Option.isSome_iff_exists.mp ((allSucceed_iff w _).mp h).2.1
  obtain ⟨-, ht⟩ := prefiltered_success_trace w texture hTexture h
  rw [ht]
  simp [List.filter_cons, Event.isSync, replicate_filter, record_filter]

theorem not_isSome_of_eq_false {α : Type} (v : Option α) (h : ¬ v.isSome = true) : v = none := by
  cases v with
  | none => rfl
  | some a => exact absurd rfl h

/-- C13: on the success path of both entry points the command buffer is
submitted exactly once, with empty wait-semaphore, wait-stage and
signal-semaphore lists and the fence; then come the fence wait, the queue
wait-idle, both successful, and only then the seven `destroy` calls.  In any
run, if the fence wait or the queue wait-idle fails, the call returns null and
no `destroy` is issued at all; a `destroy` occurs on the success path only. -/
theorem submit_wait_then_destroy (w : World) :
    ((createIrradianceMap w).value.isSome = true →
        (createIrradianceMap w).trace.filter Event.isSync =
          [.submit [] [] [] .fence, .fenceWait, .waitIdle, .destroy .cmdBuffer,
            .destroy .commandPool, .destroy .offscreenImage, .destroy .offscreenImageView,
            .destroy .framebuffer, .destroy .descriptorPool, .destroy .fence] ∧
        w.submit = true ∧ w.fenceWait = true ∧ w.waitIdle = true) ∧
      ((w.fenceWait = false ∨ w.waitIdle = false) →
        (createIrradianceMap w).value = none ∧
        (createIrradianceMap w).trace.filter Event.isDestroy = []) ∧
      (∀ x : Transient, Event.destroy x ∈ (createIrradianceMap w).trace →
        (createIrradianceMap w).value.isSome = true) ∧
      ((createPrefilteredMap w).value.isSome = true →
        (createPrefilteredMap w).trace.filter Event.isSync =
          [.submit [] [] [] .fence, .fenceWait, .waitIdle, .destroy .cmdBuffer,
            .destroy .commandPool, .destroy .offscreenImage, .destroy .offscreenImageView,
            .destroy .framebuffer, .destroy .descriptorPool, .destroy .fence] ∧
        w.submit = true ∧ w.fenceWait = true ∧ w.waitIdle = true) ∧
      ((w.fenceWait = false ∨ w.waitIdle = false) →
        (createPrefilteredMap w).value = none ∧
        (createPrefilteredMap w).trace.filter Event.isDestroy = []) ∧
      (∀ x : Transient, Event.destroy x ∈ (createPrefilteredMap w).trace →
        (createPrefilteredMap w).value.isSome = true) := by
  refine ⟨fun h => ?_, fun h => ?_, fun x hx => ?_, fun h => ?_, fun h => ?_, fun x hx => ?_⟩
  · have hall := irradiance_isSome_imp_allSucceed w h
    have hw := (allSucceed_iff w _).mp hall
    exact ⟨irradiance_sync w hall, hw.2.2.2.2.2.2.2.2.2.1, hw.2.2.2.2.2.2.2.2.2.2.1,
      hw.2.2.2.2.2.2.2.2.2.2.2⟩
  · have hnone : (createIrradianceMap w).value = none := by
      apply not_isSome_of_eq_false
      intro hs
      have hw := (allSucceed_iff w _).mp (irradiance_isSome_imp_allSucceed w hs)
      rcases h with h | h
      · rw [hw.2.2.2.2.2.2.2.2.2.2.1] at h; cases h
      · rw [hw.2.2.2.2.2.2.2.2.2.2.2] at h; cases h
    exact ⟨hnone, irradiance_failure_no_destroy w hnone⟩
  · by_contra hs
    have hd := irradiance_failure_no_destroy w (not_isSome_of_eq_false _ hs)
    have : Event.destroy x ∈ (createIrradianceMap w).trace.filter Event.isDestroy :=
      List.mem_filter.mpr ⟨hx, rfl⟩
    rw [hd] at this
    cases this
  · have hall := prefiltered_isSome_imp_allSucceed w h
    have hw := (allSucceed_iff w _).mp hall
    exact ⟨prefiltered_sync w hall, hw.2.2.2.2.2.2.2.2.2.1, hw.2.2.2.2.2.2.2.2.2.2.1,
      hw.2.2.2.2.2.2.2.2.2.2.2⟩
  · have hnone : (createPrefilteredMap w).value = none := by
      apply not_isSome_of_eq_false
      intro hs
      have hw := (allSucceed_iff w _).mp (prefiltered_isSome_imp_allSucceed w hs)
      rcases h with h | h
      · rw [hw.2.2.2.2.2.2.2.2.2.2.1] at h; cases h
      · rw [hw.2.2.2.2.2.2.2.2.2.2.2] at h; cases h
    exact ⟨hnone, prefiltered_failure_no_destroy w hnone⟩
  · by_contra hs
    have hd := prefiltered_failure_no_destroy w (not_isSome_of_eq_false _ hs)
    have : Event.destroy x ∈ (createPrefilteredMap w).trace.filter Event.isDestroy :=
      List.mem_filter.mpr ⟨hx, rfl⟩
    rw [hd] at this
    cases this

/-- Witness for C13: at `goodWorld` the prefiltered call submits once, waits
twice and then destroys; at `idleFailingWorld` the irradiance call destroys
nothing. -/
theorem submit_wait_then_destroy_witness :
    (createPrefilteredMap goodWorld).trace.filter Event.isSync =
        [.submit [] [] [] .fence, .fenceWait, .waitIdle, .destroy .cmdBuffer,
          .destroy .commandPool, .destroy .offscreenImage, .destroy .offscreenImageView,
          .destroy .framebuffer, .destroy .descriptorPool, .destroy .fence] ∧
      (createIrradianceMap idleFailingWorld).trace.filter Event.isDestroy = [] :=
  ⟨((submit_wait_then_destroy goodWorld).2.2.2.1 prefiltered_good_isSome).1,
    ((submit_wait_then_destroy idleFailingWorld).2.1 (Or.inr rfl)).2⟩

/-! ## Names -/

theorem irradiance_names (w : World) :
    (createIrradianceMap w).Sat (fun t v =>
      t.filterMap Event.constructed = [w.name ++ "_irradiance_map"] ∧
        (∀ d, v = some d → d.name = w.name ++ "_irradiance_map") ∧
        (∀ n, n ∈ t.filterMap Event.added → n = w.name ++ "_irradiance_map")) := by
  simp only [createIrradianceMap, sat_call, sat_check, sat_checkSome, sat_after,
    sat_returnAdded, sat_returnNullptr, List.filterMap_cons, List.filterMap_append,
    List.filterMap_nil, List.nil_append, List.append_nil, Event.constructed, Event.added,
    addLayers_filterMap, record_filterMap, reduceCtorEq, false_implies, implies_true,
    and_self, Option.some.injEq, forall_eq', List.not_mem_nil, List.mem_singleton, forall_eq,
    true_and, and_true]

theorem prefiltered_names (w : World) :
    (createPrefilteredMap w).Sat (fun t v =>
      t.filterMap Event.constructed = [w.name ++ "_prefiltered_map"] ∧
        (∀ d, v = some d → d.name = w.name ++ "_prefiltered_map") ∧
        (∀ n, n ∈ t.filterMap Event.added → n = w.name ++ "_prefiltered_map")) := by
  simp only [createPrefilteredMap, sat_call, sat_check, sat_checkSome, sat_after,
    sat_returnAdded, sat_returnNullptr, List.filterMap_cons, List.filterMap_append,
    List.filterMap_nil, List.nil_append, List.append_nil, Event.constructed, Event.added,
    addLayers_filterMap, record_filterMap, reduceCtorEq, false_implies, implies_true,
    and_self, Option.some.injEq, forall_eq', List.not_mem_nil, List.mem_singleton, forall_eq,
    true_and, and_true]

/-- C14: for every source SkyBox name `n`, the derived resource constructed by
`createIrradianceMap` is named `n ++ "_irradiance_map"` and the one
constructed by `createPrefilteredMap` is named `n ++ "_prefiltered_map"`; that
is the name of the one SkyBox each call constructs, of the resource it returns
and of whatever it hands to `add`.  The name depends on nothing but `n`: two
worlds with the same source name construct the same names. -/
theorem derived_names (w : World) :
    ((createIrradianceMap w).trace.filterMap Event.constructed
          = [w.name ++ "_irradiance_map"] ∧
        (∀ d, (createIrradianceMap w).value = some d → d.name = w.name ++ "_irradiance_map") ∧
        (∀ n, n ∈ (createIrradianceMap w).trace.filterMap Event.added →
          n = w.name ++ "_irradiance_map")) ∧
      ((createPrefilteredMap w).trace.filterMap Event.constructed
          = [w.name ++ "_prefiltered_map"] ∧
        (∀ d, (createPrefilteredMap w).value = some d → d.name = w.name ++ "_prefiltered_map") ∧
        (∀ n, n ∈ (createPrefilteredMap w).trace.filterMap Event.added →
          n = w.name ++ "_prefiltered_map")) ∧
      (∀ w' : World, w'.name = w.name →
        (createIrradianceMap w').trace.filterMap Event.constructed
            = (createIrradianceMap w).trace.filterMap Event.constructed ∧
          (createPrefilteredMap w').trace.filterMap Event.constructed
            = (createPrefilteredMap w).trace.filterMap Event.constructed) := by
  refine ⟨irradiance_names w, prefiltered_names w, fun w' hw' => ?_⟩
  rw [(irradiance_names w').1, (irradiance_names w).1, (prefiltered_names w').1,
    (prefiltered_names w).1, hw']
  exact ⟨rfl, rfl⟩

/-- Witness for C14: the names built from the source name `sky`, in a run that
succeeds and in one that fails. -/
theorem derived_names_witness :
    (createIrradianceMap goodWorld).trace.filterMap Event.constructed
        = ["sky" ++ "_irradiance_map"] ∧
      (createPrefilteredMap idleFailingWorld).trace.filterMap Event.constructed
        = ["sky" ++ "_prefiltered_map"] :=
  ⟨(derived_names goodWorld).1.1, (derived_names idleFailingWorld).2.1.1⟩

/-! ## Layout of the offscreen image -/

theorem offscreenLayoutRun_append (layout : ImageLayout) (a b : List Cmd) :
    offscreenLayoutRun layout (a ++ b)
      = (offscreenLayoutRun layout a).bind (fun l => offscreenLayoutRun l b) := by
  simp [offscreenLayoutRun, List.foldlM_append]

theorem offscreenLayoutRun_flatMap {α : Type} (layout : ImageLayout) (f : α → List Cmd)
    (l : List α) (hf : ∀ a, offscreenLayoutRun layout (f a) = some layout) :
    offscreenLayoutRun layout (l.flatMap f) = some layout := by
  induction l with
  | nil => rfl
  | cons a l ih => rw [List.flatMap_cons, offscreenLayoutRun_append, hf a]; exact ih

theorem irradianceIteration_layout (elementsCount i : Nat) :
    offscreenLayoutRun .COLOR_ATTACHMENT_OPTIMAL (irradianceIteration elementsCount i)
      = some .COLOR_ATTACHMENT_OPTIMAL := rfl

theorem prefilteredIteration_layout (elementsCount m i : Nat) :
    offscreenLayoutRun .COLOR_ATTACHMENT_OPTIMAL (prefilteredIteration elementsCount m i)
      = some .COLOR_ATTACHMENT_OPTIMAL := rfl

theorem irradianceCommands_layout (elementsCount : Nat) :
    offscreenLayoutRun .UNDEFINED (irradianceCommands elementsCount)
      = some .COLOR_ATTACHMENT_OPTIMAL := by
  rw [irradianceCommands, offscreenLayoutRun_append, offscreenLayoutRun_append]
  have h1 : offscreenLayoutRun .UNDEFINED
      [ Cmd.bindPipeline .IrradianceMapBaseId,
        .bindDescriptorSets 0 [.descriptorSet] [],
        .bindVertexBuffers [0],
        .bindIndexBufferUint16,
        .pipelineBarrier
          [ { srcAccessMask := some []
              dstAccessMask := some [.COLOR_ATTACHMENT_WRITE_BIT]
              oldLayout := .UNDEFINED
              newLayout := .COLOR_ATTACHMENT_OPTIMAL
              image := .offscreenImage
              levelCount := none
              layerCount := none } ],
        .pipelineBarrier
          [ { srcAccessMask := some []
              dstAccessMask := some [.TRANSFER_WRITE_BIT]
              oldLayout := .UNDEFINED
              newLayout := .TRANSFER_DST_OPTIMAL
              image := .environnementTexture
              levelCount := none
              layerCount := some 6 } ] ] = some .COLOR_ATTACHMENT_OPTIMAL := rfl
  rw [h1, Option.some_bind,
    offscreenLayoutRun_flatMap _ _ _ (irradianceIteration_layout elementsCount)]
  rfl

theorem prefilteredCommands_layout (elementsCount : Nat) :
    offscreenLayoutRun .UNDEFINED (prefilteredCommands elementsCount)
      = some .COLOR_ATTACHMENT_OPTIMAL := by
  rw [prefilteredCommands, offscreenLayoutRun_append, offscreenLayoutRun_append]
  have h1 : offscreenLayoutRun .UNDEFINED
      [ Cmd.bindPipeline .PrefilteredMapBaseId,
        .bindDescriptorSets 0 [.descriptorSet] [],
        .bindVertexBuffers [0],
        .bindIndexBufferUint16,
        .pipelineBarrier
          [ { srcAccessMask := some []
              dstAccessMask := some [.COLOR_ATTACHMENT_WRITE_BIT]
              oldLayout := .UNDEFINED
              newLayout := .COLOR_ATTACHMENT_OPTIMAL
              image := .offscreenImage
              levelCount := none
              layerCount := none } ],
        .pipelineBarrier
          [ { srcAccessMask := some []
              dstAccessMask := some [.TRANSFER_WRITE_BIT]
              oldLayout := .UNDEFINED
              newLayout := .TRANSFER_DST_OPTIMAL
              image := .environnementTexture
              levelCount := some mipMapCount
              layerCount := some 6 } ] ] = some .COLOR_ATTACHMENT_OPTIMAL := rfl
  rw [h1, Option.some_bind,
    offscreenLayoutRun_flatMap _ _ _
      (fun m => offscreenLayoutRun_flatMap _ _ _ (prefilteredIteration_layout elementsCount m))]
  rfl

/-- C15: tracking the offscreen image's layout through the command sequence
recorded by either entry point, starting from undefined, no command breaks a
rule of the tracker: every pipeline barrier on the offscreen image has
`oldLayout` equal to the tracked layout at that point, the tracked layout is
color-attachment at every `beginRenderPass` and transfer-source, equal to the
copy's declared source layout, at every `copyImage`.  The six commands before
the loop leave it color-attachment, every iteration takes it from
color-attachment back to color-attachment, so it is color-attachment after
any number of iterations and at the end.  The tracker does reject a sequence
that breaks a rule: an iteration started from undefined. -/
theorem offscreen_layout_tracked :
    (∀ elementsCount : Nat,
      offscreenLayoutRun .UNDEFINED ((irradianceCommands elementsCount).take 6)
          = some .COLOR_ATTACHMENT_OPTIMAL ∧
        (∀ i : Nat,
          offscreenLayoutRun .COLOR_ATTACHMENT_OPTIMAL (irradianceIteration elementsCount i)
            = some .COLOR_ATTACHMENT_OPTIMAL) ∧
        (∀ faces : List Nat,
          offscreenLayoutRun .UNDEFINED
              ((irradianceCommands elementsCount).take 6
                ++ faces.flatMap (irradianceIteration elementsCount))
            = some .COLOR_ATTACHMENT_OPTIMAL) ∧
        offscreenLayoutRun .UNDEFINED (irradianceCommands elementsCount)
          = some .COLOR_ATTACHMENT_OPTIMAL) ∧
      (∀ elementsCount : Nat,
        offscreenLayoutRun .UNDEFINED ((prefilteredCommands elementsCount).take 6)
          = some .COLOR_ATTACHMENT_OPTIMAL ∧
        (∀ m i : Nat,
          offscreenLayoutRun .COLOR_ATTACHMENT_OPTIMAL (prefilteredIteration elementsCount m i)
            = some .COLOR_ATTACHMENT_OPTIMAL) ∧
        (∀ iterations : List (Nat × Nat),
          offscreenLayoutRun .UNDEFINED
              ((prefilteredCommands elementsCount).take 6
                ++ iterations.flatMap (fun p => prefilteredIteration elementsCount p.1 p.2))
            = some .COLOR_ATTACHMENT_OPTIMAL) ∧
        offscreenLayoutRun .UNDEFINED (prefilteredCommands elementsCount)
          = some .COLOR_ATTACHMENT_OPTIMAL) ∧
      offscreenLayoutRun .UNDEFINED (irradianceIteration 36 0) = none ∧
      offscreenLayoutRun .TRANSFER_SRC_OPTIMAL (prefilteredIteration 36 0 0) = none := by
  refine ⟨fun elementsCount => ⟨rfl, irradianceIteration_layout elementsCount, fun faces => ?_,
      irradianceCommands_layout elementsCount⟩,
    fun elementsCount => ⟨rfl, prefilteredIteration_layout elementsCount, fun iterations => ?_,
      prefilteredCommands_layout elementsCount⟩, rfl, rfl⟩
  · rw [offscreenLayoutRun_append]
    have h : offscreenLayoutRun .UNDEFINED ((irradianceCommands elementsCount).take 6)
        = some .COLOR_ATTACHMENT_OPTIMAL := rfl
    rw [h, Option.some_bind]
    exact offscreenLayoutRun_flatMap _ _ _ (irradianceIteration_layout elementsCount)
  · rw [offscreenLayoutRun_append]
    have h : offscreenLayoutRun .UNDEFINED ((prefilteredCommands elementsCount).take 6)
        = some .COLOR_ATTACHMENT_OPTIMAL := rfl
    rw [h, Option.some_bind]
    exact offscreenLayoutRun_flatMap _ _ _
      (fun p => prefilteredIteration_layout elementsCount p.1 p.2)

/-! ## Layout of the destination texture -/

theorem irradianceIteration_destinationUses (elementsCount i : Nat) :
    (irradianceIteration elementsCount i).flatMap Cmd.destinationUses
      = [.copy .TRANSFER_DST_OPTIMAL] := by
  simp [irradianceIteration, Cmd.destinationUses]

theorem prefilteredIteration_destinationUses (elementsCount m i : Nat) :
    (prefilteredIteration elementsCount m i).flatMap Cmd.destinationUses
      = [.copy .TRANSFER_DST_OPTIMAL] := by
  simp [prefilteredIteration, Cmd.destinationUses]

theorem irradianceCommands_destinationUses (elementsCount : Nat) :
    (irradianceCommands elementsCount).flatMap Cmd.destinationUses =
      [.barrier
          { srcAccessMask := some []
            dstAccessMask := some [.TRANSFER_WRITE_BIT]
            oldLayout := .UNDEFINED
            newLayout := .TRANSFER_DST_OPTIMAL
            image := .environnementTexture
            levelCount := none
            layerCount := some 6 }]
        ++ List.replicate 6 (.copy .TRANSFER_DST_OPTIMAL)
        ++ [.barrier
          { srcAccessMask := some [.TRANSFER_WRITE_BIT]
            dstAccessMask := some [.SHADER_READ_BIT]
            oldLayout := .TRANSFER_DST_OPTIMAL
            newLayout := .SHADER_READ_ONLY_OPTIMAL
            image := .environnementTexture
            levelCount := none
            layerCount := some 6 }] := by
  simp only [irradianceCommands, List.flatMap_append, flatMap_flatMap,
    irradianceIteration_destinationUses]
  simp [Cmd.destinationUses, List.range_succ, List.replicate]

theorem prefilteredCommands_destinationUses (elementsCount : Nat) :
    (prefilteredCommands elementsCount).flatMap Cmd.destinationUses =
      [.barrier
          { srcAccessMask := some []
            dstAccessMask := some [.TRANSFER_WRITE_BIT]
            oldLayout := .UNDEFINED
            newLayout := .TRANSFER_DST_OPTIMAL
            image := .environnementTexture
            levelCount := some 10
            layerCount := some 6 }]
        ++ List.replicate 60 (.copy .TRANSFER_DST_OPTIMAL)
        ++ [.barrier
          { srcAccessMask := some [.TRANSFER_WRITE_BIT]
            dstAccessMask := some [.SHADER_READ_BIT]
            oldLayout := .TRANSFER_DST_OPTIMAL
            newLayout := .SHADER_READ_ONLY_OPTIMAL
            image := .environnementTexture
            levelCount := some 10
            layerCount := some 6 }] := by
  simp only [prefilteredCommands, List.flatMap_append, flatMap_flatMap,
    prefilteredIteration_destinationUses, mipMapCount_eq]
  simp [Cmd.destinationUses, List.range_succ, List.replicate]

/-- C16: in the command sequence recorded by either entry point the
destination texture is the subject of exactly two pipeline barriers: one
undefined -> transfer-destination (source access 0, destination access
transfer-write) recorded before the first copy, and one transfer-destination
-> shader-read-only (source access transfer-write, destination access
shader-read) recorded after the last copy; both cover 6 layers and, in
`createPrefilteredMap`, all `mipMapCount` = 10 levels; every copy in between
(6, respectively 60) declares transfer-destination as its destination layout. -/
theorem destination_barriers :
    (∀ elementsCount : Nat,
      (irradianceCommands elementsCount).flatMap Cmd.destinationUses =
        [.barrier
            { srcAccessMask := some []
              dstAccessMask := some [.TRANSFER_WRITE_BIT]
              oldLayout := .UNDEFINED
              newLayout := .TRANSFER_DST_OPTIMAL
              image := .environnementTexture
              levelCount := none
              layerCount := some 6 }]
          ++ List.replicate 6 (.copy .TRANSFER_DST_OPTIMAL)
          ++ [.barrier
            { srcAccessMask := some [.TRANSFER_WRITE_BIT]
              dstAccessMask := some [.SHADER_READ_BIT]
              oldLayout := .TRANSFER_DST_OPTIMAL
              newLayout := .SHADER_READ_ONLY_OPTIMAL
              image := .environnementTexture
              levelCount := none
              layerCount := some 6 }]) ∧
      (∀ elementsCount : Nat,
        (prefilteredCommands elementsCount).flatMap Cmd.destinationUses =
          [.barrier
              { srcAccessMask := some []
                dstAccessMask := some [.TRANSFER_WRITE_BIT]
                oldLayout := .UNDEFINED
                newLayout := .TRANSFER_DST_OPTIMAL
                image := .environnementTexture
                levelCount := some 10
                layerCount := some 6 }]
            ++ List.replicate 60 (.copy .TRANSFER_DST_OPTIMAL)
            ++ [.barrier
              { srcAccessMask := some [.TRANSFER_WRITE_BIT]
                dstAccessMask := some [.SHADER_READ_BIT]
                oldLayout := .TRANSFER_DST_OPTIMAL
                newLayout := .SHADER_READ_ONLY_OPTIMAL
                image := .environnementTexture
                levelCount := some 10
                layerCount := some 6 }]) ∧
      mipMapCount = 10 :=
  ⟨irradianceCommands_destinationUses, prefilteredCommands_destinationUses, mipMapCount_eq⟩

/-! ## Copy extents -/

theorem toUInt32_natCast (n : Nat) (h : n < 2 ^ 32) : toUInt32 (n : ℚ) = n := by
  have hf : Rat.floor (n : ℚ) = (n : ℤ) := by
    show ⌊(n : ℚ)⌋ = (n : ℤ)
    exact Int.floor_natCast n
  rw [toUInt32, hf, Int.toNat_natCast, Nat.mod_eq_of_lt h]

theorem mipExtent_natCast (m : Nat) (hm : m ≤ 9) : mipExtent m = ((512 / 2 ^ m : Nat) : ℚ) := by
  rw [mipExtent_eq]
  interval_cases m <;> norm_num

theorem toUInt32_mipExtent (m : Nat) (hm : m ≤ 9) : toUInt32 (mipExtent m) = 512 / 2 ^ m := by
  rw [mipExtent_natCast m hm]
  apply toUInt32_natCast
  interval_cases m <;> norm_num

theorem toUInt32_mipExtent_ten : toUInt32 (mipExtent 10) = 0 := by
  have h : mipExtent 10 = 1 / 2 := by
    rw [mipExtent_eq]
    norm_num
  have hf : Rat.floor (1 / 2 : ℚ) = 0 := by
    show ⌊(1 / 2 : ℚ)⌋ = 0
    rw [Int.floor_eq_iff]
    norm_num
  rw [toUInt32, h, hf]
  rfl

/-- C18: in `createPrefilteredMap`, for every mip `m` in 0..9 the copy extent
width and height, obtained by truncating `512 * 0.5 ^ m` to an unsigned
integer, equal `512 / 2 ^ m` exactly (the division leaves no remainder and the
truncation loses nothing), so the copy extent equals the viewport size of that
iteration, is at least 1, equals the dimension of mip level `m` of a 512-texel
texture and fits inside the 512x512 offscreen image; it is the extent of the
one region copied in every iteration of mip `m`. -/
theorem copy_extent_exact (m : Nat) (hm : m ≤ 9) :
    toUInt32 (mipExtent m) = 512 / 2 ^ m ∧
      512 % 2 ^ m = 0 ∧
      ((toUInt32 (mipExtent m) : Nat) : ℚ) = mipExtent m ∧
      (∀ elementsCount i : Nat,
        (prefilteredIteration elementsCount m i).filterMap Cmd.viewports
          = [[⟨0, 0, (toUInt32 (mipExtent m) : Nat), (toUInt32 (mipExtent m) : Nat), 0, 1⟩]] ∧
        ((prefilteredIteration elementsCount m i).flatMap Cmd.copyRegions).map
          (fun r => r.extent) = [⟨512 / 2 ^ m, 512 / 2 ^ m, 1⟩]) ∧
      1 ≤ toUInt32 (mipExtent m) ∧
      toUInt32 (mipExtent m) = max 1 (512 >>> m) ∧
      toUInt32 (mipExtent m) ≤ 512 := by
  have h := toUInt32_mipExtent m hm
  have hq : ((toUInt32 (mipExtent m) : Nat) : ℚ) = mipExtent m := by
    rw [h, mipExtent_natCast m hm]
  refine ⟨h, ?_, hq, fun elementsCount i => ⟨?_, ?_⟩, ?_, ?_, ?_⟩
  · interval_cases m <;> rfl
  · rw [hq]
    simp [prefilteredIteration, Cmd.viewports]
  · rw [prefilteredIteration_copyRegions, h]
    rfl
  · rw [h]
    interval_cases m <;> decide
  · rw [h]
    interval_cases m <;> rfl
  · rw [h]
    exact Nat.div_le_self _ _

/-- Witness for C18, at the last mip of the loop: a 1x1 copy. -/
theorem copy_extent_exact_witness :
    toUInt32 (mipExtent 9) = 512 / 2 ^ 9 ∧ 1 ≤ toUInt32 (mipExtent 9) :=
  ⟨(copy_extent_exact 9 (by decide)).1, (copy_extent_exact 9 (by decide)).2.2.2.2.1⟩

/-! ## Copies address allocated subresources -/

theorem irradiance_textureBuilt_mem (w : World) :
    (createIrradianceMap w).Sat (fun t _ => ∀ b, b ∈ t.filterMap Event.textureBuilt →
      b.type = some .CubeMap ∧ b.mipLevels = none ∧
        b.layers = List.replicate 6 ⟨irradianceMapSize, irradianceMapSize, .R32G32B32A32_SFLOAT⟩) := by
  simp only [createIrradianceMap, sat_call, sat_check, sat_checkSome, sat_after,
    sat_returnAdded, sat_returnNullptr, List.filterMap_cons, List.filterMap_append,
    List.filterMap_nil, List.nil_append, List.append_nil, Event.textureBuilt,
    record_filterMap, addLayers_filterMap, List.not_mem_nil, false_implies, implies_true,
    and_self, List.mem_singleton, forall_eq, true_and]
  intro _ texture _ tb htb
  obtain ⟨h1, -, -⟩ := addLayers_some _ _ _ _ _ _ _ _ htb
  subst h1
  simp [TextureBuilder.fresh, TextureBuilder.setType,
    TextureBuilder.setMagFilter, TextureBuilder.setMinFilter, TextureBuilder.setMipMapFilter,
    TextureBuilder.setWrapS, TextureBuilder.setWrapT]

theorem beforeBegin_cons (e : Event) (t : List Event) (he : e.isCmdBegin = false) :
    beforeBegin (e :: t) = e :: beforeBegin t := by
  simp [beforeBegin, List.takeWhile_cons, he]

theorem beforeBegin_cmdBegin (t : List Event) : beforeBegin (.cmdBegin :: t) = [] := by
  simp [beforeBegin, List.takeWhile_cons, Event.isCmdBegin]

theorem beforeBegin_append (l t : List Event) (hl : ∀ e ∈ l, e.isCmdBegin = false) :
    beforeBegin (l ++ t) = l ++ beforeBegin t := by
  induction l with
  | nil => rfl
  | cons e l ih =>
    rw [List.cons_append, beforeBegin_cons _ _ (hl e (List.mem_cons_self _ _)),
      ih (fun a ha => hl a (List.mem_cons_of_mem _ ha)), List.cons_append]

theorem beforeBegin_addLayers (ok : Nat → Bool) (width height : Nat) (format : Format)
    (n k : Nat) (b : TextureBuilder) (t : List Event) :
    beforeBegin ((addLayers ok width height format k n b).1 ++ t)
      = (addLayers ok width height format k n b).1 ++ beforeBegin t := by
  apply beforeBegin_append
  intro e he
  obtain ⟨j, hj⟩ := addLayers_events ok width height format n k b
  rw [hj] at he
  rw [List.eq_of_mem_replicate he]
  rfl

theorem irradiance_beforeBegin (w : World) :
    (createIrradianceMap w).Sat (fun t _ => Event.cmdBegin ∈ t →
      (beforeBegin t).filterMap Event.textureBuilt = t.filterMap Event.textureBuilt ∧
        (t.filterMap Event.textureBuilt).length = 1 ∧
        (beforeBegin t).filter Event.isAddLayer = t.filter Event.isAddLayer ∧
        (beforeBegin t).filterMap Event.recorded = []) := by
  simp only [createIrradianceMap, sat_call, sat_check, sat_checkSome, sat_after,
    sat_returnAdded, sat_returnNullptr, beforeBegin_addLayers, beforeBegin_cmdBegin,
    beforeBegin_cons, Event.isCmdBegin, List.cons_append, List.nil_append,
    List.mem_cons, List.mem_append, addLayers_mem, record_mem, List.not_mem_nil,
    reduceCtorEq, false_or, or_false, or_self, true_or, false_implies, true_implies,
    implies_true, and_self, and_true, true_and, ne_eq, not_false_eq_true,
    List.filterMap_cons, List.filterMap_append, List.filterMap_nil, List.append_nil,
    List.filter_cons, List.filter_append, List.filter_nil,
    Event.textureBuilt, Event.isAddLayer, Event.recorded, record_filterMap, record_filter,
    addLayers_filterMap, List.length_cons, List.length_nil, Bool.false_eq_true, if_false]

theorem prefiltered_beforeBegin (w : World) :
    (createPrefilteredMap w).Sat (fun t _ => Event.cmdBegin ∈ t →
      (beforeBegin t).filterMap Event.textureBuilt = t.filterMap Event.textureBuilt ∧
        (t.filterMap Event.textureBuilt).length = 1 ∧
        (beforeBegin t).filter Event.isAddLayer = t.filter Event.isAddLayer ∧
        (beforeBegin t).filterMap Event.recorded = []) := by
  simp only [createPrefilteredMap, sat_call, sat_check, sat_checkSome, sat_after,
    sat_returnAdded, sat_returnNullptr, beforeBegin_addLayers, beforeBegin_cmdBegin,
    beforeBegin_cons, Event.isCmdBegin, List.cons_append, List.nil_append,
    List.mem_cons, List.mem_append, addLayers_mem, record_mem, List.not_mem_nil,
    reduceCtorEq, false_or, or_false, or_self, true_or, false_implies, true_implies,
    implies_true, and_self, and_true, true_and, ne_eq, not_false_eq_true,
    List.filterMap_cons, List.filterMap_append, List.filterMap_nil, List.append_nil,
    List.filter_cons, List.filter_append, List.filter_nil,
    Event.textureBuilt, Event.isAddLayer, Event.recorded, record_filterMap, record_filter,
    addLayers_filterMap, List.length_cons, List.length_nil, Bool.false_eq_true, if_false]

theorem irradiance_copy_in_bounds (elementsCount : Nat) (r : ImageCopy)
    (hr : r ∈ (irradianceCommands elementsCount).flatMap Cmd.copyRegions) :
    r.dstSubresource.baseArrayLayer < 6 ∧ r.dstSubresource.mipLevel < 1 ∧
      r.dstSubresource.layerCount = 1 := by
  rw [irradianceCommands_copyRegions, List.mem_map] at hr
  obtain ⟨i, hi, rfl⟩ := hr
  exact ⟨List.mem_range.mp hi, Nat.zero_lt_one, rfl⟩

theorem prefiltered_copy_in_bounds (elementsCount : Nat) (r : ImageCopy)
    (hr : r ∈ (prefilteredCommands elementsCount).flatMap Cmd.copyRegions) :
    r.dstSubresource.baseArrayLayer < 6 ∧ r.dstSubresource.mipLevel < 10 ∧
      r.dstSubresource.layerCount = 1 := by
  rw [prefilteredCommands_copyRegions, List.mem_flatMap] at hr
  obtain ⟨m, hm, hr⟩ := hr
  rw [List.mem_map] at hr
  obtain ⟨i, hi, rfl⟩ := hr
  exact ⟨List.mem_range.mp hi, List.mem_range.mp hm, rfl⟩

/-- C17: every copy recorded by either entry point addresses a destination
subresource that the texture builder was asked to allocate before recording
began: its destination layer is below 6, the number of layers added, and its
destination mip level is below the mip-level count given to the builder (10
for the prefiltered map, 1 for the irradiance map), with layer count 1.  In
every run, for the builder state `b` at the texture build and every region
recorded: layer < number of layers of `b`, mip < mip-level count of `b`; and
when recording begins, the layer additions and the texture build are among
the events before `cmdBuffer.begin()` while no command is. -/
theorem copies_address_allocated_subresources :
    (∀ (elementsCount : Nat) (r : ImageCopy),
      (r ∈ (irradianceCommands elementsCount).flatMap Cmd.copyRegions →
        r.dstSubresource.baseArrayLayer < 6 ∧ r.dstSubresource.mipLevel < 1 ∧
          r.dstSubresource.layerCount = 1) ∧
      (r ∈ (prefilteredCommands elementsCount).flatMap Cmd.copyRegions →
        r.dstSubresource.baseArrayLayer < 6 ∧ r.dstSubresource.mipLevel < 10 ∧
          r.dstSubresource.layerCount = 1)) ∧
      (∀ (w : World) (b : TextureBuilder) (r : ImageCopy),
        (b ∈ (createIrradianceMap w).trace.filterMap Event.textureBuilt →
          r ∈ ((createIrradianceMap w).trace.filterMap Event.recorded).flatMap Cmd.copyRegions →
            r.dstSubresource.baseArrayLayer < b.layers.length ∧
              r.dstSubresource.mipLevel < b.mipLevelCount ∧
              r.dstSubresource.layerCount = 1) ∧
        (b ∈ (createPrefilteredMap w).trace.filterMap Event.textureBuilt →
          r ∈ ((createPrefilteredMap w).trace.filterMap Event.recorded).flatMap Cmd.copyRegions →
            r.dstSubresource.baseArrayLayer < b.layers.length ∧
              r.dstSubresource.mipLevel < b.mipLevelCount ∧
              r.dstSubresource.layerCount = 1)) ∧
      (∀ w : World,
        (Event.cmdBegin ∈ (createIrradianceMap w).trace →
          (beforeBegin (createIrradianceMap w).trace).filterMap Event.textureBuilt
              = (createIrradianceMap w).trace.filterMap Event.textureBuilt ∧
            ((createIrradianceMap w).trace.filterMap Event.textureBuilt).length = 1 ∧
            (beforeBegin (createIrradianceMap w).trace).filter Event.isAddLayer
              = (createIrradianceMap w).trace.filter Event.isAddLayer ∧
            (beforeBegin (createIrradianceMap w).trace).filterMap Event.recorded = []) ∧
        (Event.cmdBegin ∈ (createPrefilteredMap w).trace →
          (beforeBegin (createPrefilteredMap w).trace).filterMap Event.textureBuilt
              = (createPrefilteredMap w).trace.filterMap Event.textureBuilt ∧
            ((createPrefilteredMap w).trace.filterMap Event.textureBuilt).length = 1 ∧
            (beforeBegin (createPrefilteredMap w).trace).filter Event.isAddLayer
              = (createPrefilteredMap w).trace.filter Event.isAddLayer ∧
            (beforeBegin (createPrefilteredMap w).trace).filterMap Event.recorded = [])) := by
  refine ⟨fun elementsCount r => ⟨irradiance_copy_in_bounds elementsCount r,
      prefiltered_copy_in_bounds elementsCount r⟩,
    fun w b r => ⟨fun hb hr => ?_, fun hb hr => ?_⟩,
    fun w => ⟨irradiance_beforeBegin w, prefiltered_beforeBegin w⟩⟩
  · obtain ⟨-, h2, h3⟩ := irradiance_textureBuilt_mem w b hb
    rcases irradiance_recorded w with h | h
    · rw [h] at hr
      cases hr
    · rw [h] at hr
      have := irradiance_copy_in_bounds _ r hr
      rw [h3, TextureBuilder.mipLevelCount, h2]
      simpa using this
  · obtain ⟨-, h2, h3⟩ := prefiltered_textureBuilt_mem w b hb
    rcases prefiltered_recorded w with h | h
    · rw [h] at hr
      cases hr
    · rw [h] at hr
      have := prefiltered_copy_in_bounds _ r hr
      rw [h3, TextureBuilder.mipLevelCount, h2, mipMapCount_eq]
      simpa using this

/-- Witness for C17, at `goodWorld`: the last copy of the prefiltered map, into
layer 5 of mip 9, is recorded and lies within the six layers and ten mip
levels. -/
theorem copies_address_allocated_subresources_witness :
    (⟨⟨0, 0, 1⟩, (0, 0, 0), ⟨5, 9, 1⟩, (0, 0, 0), ⟨1, 1, 1⟩⟩ : ImageCopy)
        ∈ ((createPrefilteredMap goodWorld).trace.filterMap Event.recorded).flatMap
          Cmd.copyRegions ∧
      (5 < 6 ∧ 9 < 10 ∧ 1 = 1) := by
  have hmem : (⟨⟨0, 0, 1⟩, (0, 0, 0), ⟨5, 9, 1⟩, (0, 0, 0), ⟨1, 1, 1⟩⟩ : ImageCopy)
      ∈ (prefilteredCommands 36).flatMap Cmd.copyRegions := by
    rw [prefilteredCommands_copyRegions, List.mem_flatMap]
    refine ⟨9, by decide, ?_⟩
    rw [List.mem_map]
    refine ⟨5, by decide, ?_⟩
    rw [toUInt32_mipExtent 9 (by decide)]
    rfl
  have hrec := prefiltered_recorded_of_allSucceed goodWorld (goodWorld_allSucceed _)
  refine ⟨?_, (copies_address_allocated_subresources.1 36 _).2 hmem⟩
  rw [hrec]
  exact hmem

/-! ## The commands of one iteration -/

theorem length_flatMap_range {β : Type} (f : Nat → List β) (len : Nat)
    (hlen : ∀ a, (f a).length = len) (n : Nat) :
    ((List.range n).flatMap f).length = len * n := by
  induction n with
  | zero => rfl
  | succ n ih =>
    rw [List.range_succ, List.flatMap_append, List.length_append, ih]
    simp [hlen, Nat.mul_succ]

theorem flatMap_range_chunk {β : Type} (f : Nat → List β) (len : Nat)
    (hlen : ∀ a, (f a).length = len) (n k : Nat) (hk : k < n) :
    (((List.range n).flatMap f).drop (len * k)).take len = f k := by
  induction n with
  | zero => omega
  | succ n ih =>
    have hA := length_flatMap_range f len hlen n
    have hsingle : [n].flatMap f = f n := by simp
    rw [List.range_succ, List.flatMap_append, hsingle]
    by_cases hkn : k < n
    · have h1 : len * k ≤ ((List.range n).flatMap f).length := by
        rw [hA]
        exact Nat.mul_le_mul_left _ (Nat.le_of_lt hkn)
      rw [List.drop_append_of_le_length h1]
      have h2 : len ≤ (((List.range n).flatMap f).drop (len * k)).length := by
        rw [List.length_drop, hA, ← Nat.mul_sub]
        exact Nat.le_mul_of_pos_right _ (by omega)
      rw [List.take_append_of_le_length h2]
      exact ih hkn
    · have hk' : k = n := by omega
      subst hk'
      rw [List.drop_left' hA]
      exact List.take_of_length_le (by rw [hlen])

theorem drop_six_append {α : Type} (a b c d e f : α) (l : List α) (i : Nat) :
    ([a, b, c, d, e, f] ++ l).drop (6 + i) = l.drop i :=
  @List.drop_append _ [a, b, c, d, e, f] l i

theorem irradianceIteration_length (elementsCount i : Nat) :
    (irradianceIteration elementsCount i).length = 9 := rfl

theorem prefilteredIteration_length (elementsCount m i : Nat) :
    (prefilteredIteration elementsCount m i).length = 10 := rfl

theorem irradianceCommands_chunk (elementsCount k : Nat) (hk : k < 6) :
    ((irradianceCommands elementsCount).drop (6 + 9 * k)).take 9
      = irradianceIteration elementsCount k := by
  rw [irradianceCommands, List.append_assoc, drop_six_append]
  have h1 : 9 * k ≤ ((List.range 6).flatMap (irradianceIteration elementsCount)).length := by
    rw [length_flatMap_range _ 9 (irradianceIteration_length elementsCount)]
    omega
  rw [List.drop_append_of_le_length h1]
  have h2 : 9 ≤ (((List.range 6).flatMap (irradianceIteration elementsCount)).drop
      (9 * k)).length := by
    rw [List.length_drop, length_flatMap_range _ 9 (irradianceIteration_length elementsCount)]
    omega
  rw [List.take_append_of_le_length h2]
  exact flatMap_range_chunk _ 9 (irradianceIteration_length elementsCount) 6 k hk

theorem prefiltered_loops_flat (elementsCount : Nat) :
    (List.range 10).flatMap
        (fun m => (List.range 6).flatMap (prefilteredIteration elementsCount m))
      = (List.range 60).flatMap (fun k => prefilteredIteration elementsCount (k / 6) (k % 6)) := by
  simp only [List.range_succ, List.range_zero, List.nil_append, List.flatMap_append,
    List.flatMap_cons, List.flatMap_nil, List.append_nil, List.append_assoc]

theorem prefilteredCommands_chunk (elementsCount m i : Nat) (hm : m < 10) (hi : i < 6) :
    ((prefilteredCommands elementsCount).drop (6 + 10 * (6 * m + i))).take 10
      = prefilteredIteration elementsCount m i := by
  rw [prefilteredCommands, mipMapCount_eq, prefiltered_loops_flat, List.append_assoc,
    drop_six_append]
  have hlen : ∀ k, (prefilteredIteration elementsCount (k / 6) (k % 6)).length = 10 :=
    fun _ => rfl
  have h1 : 10 * (6 * m + i) ≤ ((List.range 60).flatMap
      (fun k => prefilteredIteration elementsCount (k / 6) (k % 6))).length := by
    rw [length_flatMap_range _ 10 hlen]
    omega
  rw [List.drop_append_of_le_length h1]
  have h2 : 10 ≤ (((List.range 60).flatMap
      (fun k => prefilteredIteration elementsCount (k / 6) (k % 6))).drop
        (10 * (6 * m + i))).length := by
    rw [List.length_drop, length_flatMap_range _ 10 hlen]
    omega
  rw [List.take_append_of_le_length h2, flatMap_range_chunk _ 10 hlen 60 (6 * m + i) (by omega)]
  have hd : (6 * m + i) / 6 = m := by omega
  have hr : (6 * m + i) % 6 = i := by omega
  rw [hd, hr]

theorem irradianceCommands_length (elementsCount : Nat) :
    (irradianceCommands elementsCount).length = 6 + 9 * 6 + 1 := by
  rw [irradianceCommands, List.length_append, List.length_append,
    length_flatMap_range _ 9 (irradianceIteration_length elementsCount)]
  rfl

theorem prefilteredCommands_length (elementsCount : Nat) :
    (prefilteredCommands elementsCount).length = 6 + 10 * 60 + 1 := by
  have hlen : ∀ k, (prefilteredIteration elementsCount (k / 6) (k % 6)).length = 10 :=
    fun _ => rfl
  rw [prefilteredCommands, mipMapCount_eq, prefiltered_loops_flat, List.length_append,
    List.length_append, length_flatMap_range _ 10 hlen]
  rfl

/-- C19: for every iteration (mip `m`, face `i`) of either entry point, the
commands recorded for that iteration are, in this order and with nothing else
in between: begin render pass (clear colour (0,0,0,1), clear depth 1), set
viewport, set scissor, push the vertex-stage view-projection constant
`projection * matrices[i]`, (`createPrefilteredMap` only) push the
fragment-stage roughness constant, one indexed draw of the cube mesh's full
index count with one instance, end render pass, barrier of the offscreen image
to transfer-source, one image copy with a single region, barrier of the
offscreen image back to color-attachment.  The iterations follow the six
commands recorded before the loop back to back, in face order (mip-major for
the prefiltered map), and one barrier follows the last of them. -/
theorem iteration_command_sequence :
    (∀ elementsCount i : Nat,
      irradianceIteration elementsCount i =
        [ .beginRenderPass ⟨⟨0, 0, ⟨64, 64⟩⟩, [0, 0, 0, 1], 1, 0⟩,
          .setViewport [⟨0, 0, 64, 64, 0, 1⟩],
          .setScissor [⟨0, 0, ⟨64, 64⟩⟩],
          .pushConstants ⟨.VERTEX_BIT, 0, 64,
            .matrix (.mul (projection 64) (matrixAt irradianceMatrices i))⟩,
          .drawIndexed elementsCount 1,
          .endRenderPass,
          .pipelineBarrier [⟨none, none, .COLOR_ATTACHMENT_OPTIMAL, .TRANSFER_SRC_OPTIMAL,
            .offscreenImage, none, none⟩],
          .copyImage ⟨.offscreenImage, .TRANSFER_SRC_OPTIMAL, .environnementTexture,
            .TRANSFER_DST_OPTIMAL,
            [⟨⟨0, 0, 1⟩, (0, 0, 0), ⟨i, 0, 1⟩, (0, 0, 0), ⟨64, 64, 1⟩⟩]⟩,
          .pipelineBarrier [⟨none, none, .TRANSFER_SRC_OPTIMAL, .COLOR_ATTACHMENT_OPTIMAL,
            .offscreenImage, none, none⟩] ]) ∧
      (∀ elementsCount m i : Nat,
        prefilteredIteration elementsCount m i =
          [ .beginRenderPass ⟨⟨0, 0, ⟨512, 512⟩⟩, [0, 0, 0, 1], 1, 0⟩,
            .setViewport [⟨0, 0, mipExtent m, mipExtent m, 0, 1⟩],
            .setScissor [⟨0, 0, ⟨512, 512⟩⟩],
            .pushConstants ⟨.VERTEX_BIT, 0, 64,
              .matrix (.mul (projection 512) (matrixAt prefilteredMatrices i))⟩,
            .pushConstants ⟨.FRAGMENT_BIT, 64, 4, .scalar (roughness m)⟩,
            .drawIndexed elementsCount 1,
            .endRenderPass,
            .pipelineBarrier [⟨none, none, .COLOR_ATTACHMENT_OPTIMAL, .TRANSFER_SRC_OPTIMAL,
              .offscreenImage, none, none⟩],
            .copyImage ⟨.offscreenImage, .TRANSFER_SRC_OPTIMAL, .environnementTexture,
              .TRANSFER_DST_OPTIMAL,
              [⟨⟨0, 0, 1⟩, (0, 0, 0), ⟨i, m, 1⟩, (0, 0, 0),
                ⟨toUInt32 (mipExtent m), toUInt32 (mipExtent m), 1⟩⟩]⟩,
            .pipelineBarrier [⟨none, none, .TRANSFER_SRC_OPTIMAL, .COLOR_ATTACHMENT_OPTIMAL,
              .offscreenImage, none, none⟩] ]) ∧
      (∀ elementsCount i : Nat, i < 6 →
        ((irradianceCommands elementsCount).drop (6 + 9 * i)).take 9
          = irradianceIteration elementsCount i) ∧
      (∀ elementsCount m i : Nat, m < 10 → i < 6 →
        ((prefilteredCommands elementsCount).drop (6 + 10 * (6 * m + i))).take 10
          = prefilteredIteration elementsCount m i) ∧
      (∀ elementsCount : Nat,
        (irradianceCommands elementsCount).length = 6 + 9 * 6 + 1 ∧
          (prefilteredCommands elementsCount).length = 6 + 10 * 60 + 1) := by
  refine ⟨fun elementsCount i => ?_, fun elementsCount m i => ?_,
    fun elementsCount i hi => irradianceCommands_chunk elementsCount i hi,
    fun elementsCount m i hm hi => prefilteredCommands_chunk elementsCount m i hm hi,
    fun elementsCount => ⟨irradianceCommands_length _, prefilteredCommands_length _⟩⟩
  · simp [irradianceIteration, irradianceMapSize, sizeofMat4x4f, sizeofFloat]
  · simp [prefilteredIteration, prefilteredMapSize, sizeofMat4x4f, sizeofFloat]

/-- Witness for C19: the commands of the last iteration of the prefiltered map
(mip 9, face 5) sit at positions 596..605 of the recorded sequence. -/
theorem iteration_command_sequence_witness :
    ((prefilteredCommands 36).drop 596).take 10 = prefilteredIteration 36 9 5 :=
  iteration_command_sequence.2.2.2.1 36 9 5 (by decide) (by decide)

/-! ## Source and destination of a copy -/

theorem irradianceIteration_source_destination (elementsCount i : Nat) :
    ((irradianceIteration elementsCount i).flatMap Cmd.copyRegions).map
        (fun r => (r.source, r.destination)) = [((0, 0), (i, 0))] := by
  rw [irradianceIteration_copyRegions]
  rfl

theorem prefilteredIteration_source_destination (elementsCount m i : Nat) :
    ((prefilteredIteration elementsCount m i).flatMap Cmd.copyRegions).map
        (fun r => (r.source, r.destination)) = [((0, 0), (i, m))] := by
  rw [prefilteredIteration_copyRegions]
  rfl

/-- C20 (amended): for every iteration (mip `m`, face `i`) of
`createPrefilteredMap`, and every face `i` of `createIrradianceMap`, the
recorded image copy reads source subresource (array layer 0, mip 0) of the
offscreen image, whatever the face, and writes destination subresource (layer
`i`, mip `m`) of the derived texture (`m = 0` for the irradiance map). -/
theorem copy_source_and_destination (elementsCount m i : Nat) :
    ((prefilteredIteration elementsCount m i).flatMap Cmd.copyRegions).map
          (fun r => (r.source, r.destination)) = [((0, 0), (i, m))] ∧
      ((irradianceIteration elementsCount i).flatMap Cmd.copyRegions).map
          (fun r => (r.source, r.destination)) = [((0, 0), (i, 0))] ∧
      (∀ c ∈ (prefilteredIteration elementsCount m i).filterMap Cmd.copied,
        c.srcImage = .offscreenImage ∧ c.dstImage = .environnementTexture) ∧
      (∀ c ∈ (irradianceIteration elementsCount i).filterMap Cmd.copied,
        c.srcImage = .offscreenImage ∧ c.dstImage = .environnementTexture) := by
  refine ⟨prefilteredIteration_source_destination _ _ _,
    irradianceIteration_source_destination _ _, ?_, ?_⟩
  · simp [prefilteredIteration, Cmd.copied]
  · simp [irradianceIteration, Cmd.copied]

/-- C20 as stated fails: in the iteration of face 1 of `createIrradianceMap` the
one copy recorded reads source subresource (layer 0, mip 0) of the offscreen
image, not (face 1, mip 0); its destination is (layer 1, mip 0). -/
theorem copy_source_and_destination_counterexample :
    ((irradianceIteration 36 1).flatMap Cmd.copyRegions).map ImageCopy.source = [(0, 0)] ∧
      ((irradianceIteration 36 1).flatMap Cmd.copyRegions).map ImageCopy.source ≠ [(1, 0)] ∧
      ((irradianceIteration 36 1).flatMap Cmd.copyRegions).map ImageCopy.destination
        = [(1, 0)] := by
  refine ⟨rfl, by decide, rfl⟩

/-! ## Push-constant ranges -/

theorem flatMap_range_const {α : Type} (n : Nat) (l : List α) :
    (List.range n).flatMap (fun _ => l) = (List.replicate n l).flatten := by
  induction n with
  | zero => rfl
  | succ n ih =>
    rw [List.range_succ, List.flatMap_append, ih, List.replicate_succ', List.flatten_append]
    simp

theorem flatten_replicate_mul {α : Type} (m n : Nat) (l : List α) :
    (List.replicate m (List.replicate n l).flatten).flatten
      = (List.replicate (m * n) l).flatten := by
  induction m with
  | zero => simp
  | succ m ih =>
    rw [List.replicate_succ, List.flatten_cons, ih, Nat.succ_mul, Nat.add_comm,
      List.replicate_add, List.flatten_append]

theorem count_flatten_replicate {α : Type} [DecidableEq α] (n : Nat) (l : List α) (a : α) :
    (List.replicate n l).flatten.count a = n * l.count a := by
  induction n with
  | zero => simp
  | succ n ih =>
    rw [List.replicate_succ, List.flatten_cons, List.count_append, ih, Nat.succ_mul, Nat.add_comm]

theorem filter_flatten_replicate {α : Type} (p : α → Bool) (n : Nat) (l : List α) :
    (List.replicate n l).flatten.filter p = (List.replicate n (l.filter p)).flatten := by
  induction n with
  | zero => rfl
  | succ n ih =>
    rw [List.replicate_succ, List.flatten_cons, List.filter_append, ih, List.replicate_succ,
      List.flatten_cons]

theorem irradianceIteration_pushed (elementsCount i : Nat) :
    (irradianceIteration elementsCount i).filterMap Cmd.pushed
      = [ ⟨.VERTEX_BIT, 0, 64,
            .matrix (.mul (projection irradianceMapSize) (matrixAt irradianceMatrices i))⟩ ] := rfl

theorem prefilteredIteration_pushed (elementsCount m i : Nat) :
    (prefilteredIteration elementsCount m i).filterMap Cmd.pushed
      = [ ⟨.VERTEX_BIT, 0, 64,
            .matrix (.mul (projection prefilteredMapSize) (matrixAt prefilteredMatrices i))⟩,
          ⟨.FRAGMENT_BIT, 64, 4, .scalar (roughness m)⟩ ] := rfl

theorem irradianceCommands_pushed_ranges (elementsCount : Nat) :
    ((irradianceCommands elementsCount).filterMap Cmd.pushed).map
        (fun c => (c.stageFlags, c.byteRange))
      = List.replicate 6 (ShaderStage.VERTEX_BIT, (0, 64)) := by
  rw [irradianceCommands, List.filterMap_append, List.filterMap_append, filterMap_flatMap]
  simp only [irradianceIteration_pushed]
  rfl

theorem prefilteredCommands_pushed_ranges (elementsCount : Nat) :
    ((prefilteredCommands elementsCount).filterMap Cmd.pushed).map
        (fun c => (c.stageFlags, c.byteRange))
      = (List.replicate 60
          [(ShaderStage.VERTEX_BIT, (0, 64)), (ShaderStage.FRAGMENT_BIT, (64, 68))]).flatten := by
  rw [prefilteredCommands, List.filterMap_append, List.filterMap_append, filterMap_flatMap,
    List.map_append, List.map_append, List.map_flatMap]
  simp only [filterMap_flatMap, List.map_flatMap, prefilteredIteration_pushed, List.map_cons,
    List.map_nil, CmdPushConstants.byteRange, Nat.reduceAdd, mipMapCount_eq, flatMap_range_const,
    flatten_replicate_mul, Nat.reduceMul]
  exact List.append_nil _

theorem irradianceCommands_scalarPushed (elementsCount : Nat) :
    (irradianceCommands elementsCount).filterMap Cmd.scalarPushed = [] := by
  rw [irradianceCommands, List.filterMap_append, List.filterMap_append, filterMap_flatMap]
  have h : ∀ i, (irradianceIteration elementsCount i).filterMap Cmd.scalarPushed = [] :=
    fun _ => rfl
  simp only [h]
  rfl

/-- C21: in every iteration of `createPrefilteredMap` two push-constant
commands are recorded: the view-projection matrix for the vertex stage at
bytes `[0, 64)` and the roughness for the fragment stage at bytes `[64, 68)`.
The offset of the roughness is the offset plus the size of the matrix range
(`sizeof(Math::Mat4x4f)`, 64 with four-byte floats), so the second range
starts where the first ends, and no byte is updated by both commands.  The
same holds along the whole recorded sequence (60 pairs).  Every iteration of
`createIrradianceMap` records one push-constant command, the matrix at bytes
`[0, 64)` for the vertex stage, and its sequence has no scalar push at all. -/
theorem push_constant_ranges :
    sizeofMat4x4f = 64 ∧ sizeofFloat = 4 ∧
    (∀ elementsCount m i : Nat,
      (prefilteredIteration elementsCount m i).filterMap Cmd.pushed
          = [ ⟨.VERTEX_BIT, 0, 1 * sizeofMat4x4f,
                .matrix (.mul (projection prefilteredMapSize) (matrixAt prefilteredMatrices i))⟩,
              ⟨.FRAGMENT_BIT, 0 + 1 * sizeofMat4x4f, sizeofFloat, .scalar (roughness m)⟩ ] ∧
        ((prefilteredIteration elementsCount m i).filterMap Cmd.pushed).map
            (fun c => (c.stageFlags, c.byteRange))
          = [(.VERTEX_BIT, (0, 64)), (.FRAGMENT_BIT, (64, 68))] ∧
        (∀ b : Nat,
          (((prefilteredIteration elementsCount m i).filterMap Cmd.pushed).filter
            (fun c => c.covers b)).length ≤ 1) ∧
        (∀ b : Nat, b < 68 →
          (((prefilteredIteration elementsCount m i).filterMap Cmd.pushed).filter
            (fun c => c.covers b)).length = 1)) ∧
    (∀ elementsCount : Nat,
      ((prefilteredCommands elementsCount).filterMap Cmd.pushed).map
          (fun c => (c.stageFlags, c.byteRange))
        = (List.replicate 60
            [(ShaderStage.VERTEX_BIT, (0, 64)), (ShaderStage.FRAGMENT_BIT, (64, 68))]).flatten) ∧
    (∀ elementsCount i : Nat,
      (irradianceIteration elementsCount i).filterMap Cmd.pushed
        = [ ⟨.VERTEX_BIT, 0, 1 * sizeofMat4x4f,
              .matrix (.mul (projection irradianceMapSize) (matrixAt irradianceMatrices i))⟩ ]) ∧
    (∀ elementsCount : Nat,
      ((irradianceCommands elementsCount).filterMap Cmd.pushed).map
          (fun c => (c.stageFlags, c.byteRange))
        = List.replicate 6 (ShaderStage.VERTEX_BIT, (0, 64)) ∧
      (irradianceCommands elementsCount).filterMap Cmd.scalarPushed = []) := by
  refine ⟨rfl, rfl, fun elementsCount m i => ⟨rfl, rfl, fun b => ?_, fun b hb => ?_⟩,
    prefilteredCommands_pushed_ranges, fun _ _ => rfl,
    fun elementsCount => ⟨irradianceCommands_pushed_ranges elementsCount,
      irradianceCommands_scalarPushed elementsCount⟩⟩
  · rw [prefilteredIteration_pushed]
    by_cases h : b < 64
    · simp [List.filter_cons, CmdPushConstants.covers, h]
    · simp [List.filter_cons, CmdPushConstants.covers, h]
      split_ifs <;> simp
  · rw [prefilteredIteration_pushed]
    by_cases h : b < 64
    · simp [List.filter_cons, CmdPushConstants.covers, h]
    · have h1 : 64 ≤ b := Nat.le_of_not_lt h
      simp [List.filter_cons, CmdPushConstants.covers, h, h1, hb]

/-! ## Render-pass brackets -/

theorem renderPassRun_append (s : Option Nat) (a b : List PassMark) :
    renderPassRun s (a ++ b) = (renderPassRun s a).bind (fun s' => renderPassRun s' b) := by
  simp [renderPassRun, List.foldlM_append]

theorem renderPassRun_flatMap {α : Type} (f : α → List PassMark) (l : List α)
    (hf : ∀ a, renderPassRun none (f a) = some none) :
    renderPassRun none (l.flatMap f) = some none := by
  induction l with
  | nil => rfl
  | cons a l ih => rw [List.flatMap_cons, renderPassRun_append, hf a]; exact ih

theorem irradianceIteration_marks (elementsCount i : Nat) :
    (irradianceIteration elementsCount i).filterMap Cmd.passMark
      = [.beginRenderPass, .drawIndexed, .endRenderPass, .pipelineBarrier, .copyImage,
          .pipelineBarrier] := rfl

theorem prefilteredIteration_marks (elementsCount m i : Nat) :
    (prefilteredIteration elementsCount m i).filterMap Cmd.passMark
      = [.beginRenderPass, .drawIndexed, .endRenderPass, .pipelineBarrier, .copyImage,
          .pipelineBarrier] := rfl

theorem irradianceCommands_marks (elementsCount : Nat) :
    (irradianceCommands elementsCount).filterMap Cmd.passMark
      = [.pipelineBarrier, .pipelineBarrier]
        ++ (List.replicate 6
              [PassMark.beginRenderPass, .drawIndexed, .endRenderPass, .pipelineBarrier,
                .copyImage, .pipelineBarrier]).flatten
        ++ [.pipelineBarrier] := by
  rw [irradianceCommands, List.filterMap_append, List.filterMap_append, filterMap_flatMap]
  simp only [irradianceIteration_marks, flatMap_range_const]
  rfl

theorem prefilteredCommands_marks (elementsCount : Nat) :
    (prefilteredCommands elementsCount).filterMap Cmd.passMark
      = [.pipelineBarrier, .pipelineBarrier]
        ++ (List.replicate 60
              [PassMark.beginRenderPass, .drawIndexed, .endRenderPass, .pipelineBarrier,
                .copyImage, .pipelineBarrier]).flatten
        ++ [.pipelineBarrier] := by
  rw [prefilteredCommands, List.filterMap_append, List.filterMap_append, filterMap_flatMap]
  simp only [filterMap_flatMap, prefilteredIteration_marks, mipMapCount_eq, flatMap_range_const,
    flatten_replicate_mul]
  rfl

theorem replicate_bracketed (n : Nat) :
    renderPassRun none
      (List.replicate n
        [PassMark.beginRenderPass, .drawIndexed, .endRenderPass, .pipelineBarrier,
          .copyImage, .pipelineBarrier]).flatten = some none := by
  induction n with
  | zero => rfl
  | succ n ih => rw [List.replicate_succ, List.flatten_cons, renderPassRun_append]; exact ih

theorem irradianceCommands_bracketed (elementsCount : Nat) :
    properlyBracketed (irradianceCommands elementsCount) = true := by
  have h : renderPassRun none [PassMark.pipelineBarrier, .pipelineBarrier] = some none := rfl
  rw [properlyBracketed, irradianceCommands_marks, renderPassRun_append, renderPassRun_append,
    h, Option.some_bind, replicate_bracketed]
  rfl

theorem prefilteredCommands_bracketed (elementsCount : Nat) :
    properlyBracketed (prefilteredCommands elementsCount) = true := by
  have h : renderPassRun none [PassMark.pipelineBarrier, .pipelineBarrier] = some none := rfl
  rw [properlyBracketed, prefilteredCommands_marks, renderPassRun_append, renderPassRun_append,
    h, Option.some_bind, replicate_bracketed]
  rfl

theorem irradianceCommands_mark_counts (elementsCount : Nat) :
    ((irradianceCommands elementsCount).filterMap Cmd.passMark).filter
        (fun k => k = .beginRenderPass ∨ k = .endRenderPass)
      = (List.replicate 6 [PassMark.beginRenderPass, .endRenderPass]).flatten ∧
    ((irradianceCommands elementsCount).filterMap Cmd.passMark).count .beginRenderPass = 6 ∧
    ((irradianceCommands elementsCount).filterMap Cmd.passMark).count .endRenderPass = 6 ∧
    ((irradianceCommands elementsCount).filterMap Cmd.passMark).count .drawIndexed = 6 ∧
    ((irradianceCommands elementsCount).filterMap Cmd.passMark).count .copyImage = 6 := by
  rw [irradianceCommands_marks]
  simp only [List.count_append, count_flatten_replicate, List.filter_append,
    filter_flatten_replicate]
  exact ⟨rfl, by decide, by decide, by decide, by decide⟩

theorem prefilteredCommands_mark_counts (elementsCount : Nat) :
    ((prefilteredCommands elementsCount).filterMap Cmd.passMark).filter
        (fun k => k = .beginRenderPass ∨ k = .endRenderPass)
      = (List.replicate 60 [PassMark.beginRenderPass, .endRenderPass]).flatten ∧
    ((prefilteredCommands elementsCount).filterMap Cmd.passMark).count .beginRenderPass = 60 ∧
    ((prefilteredCommands elementsCount).filterMap Cmd.passMark).count .endRenderPass = 60 ∧
    ((prefilteredCommands elementsCount).filterMap Cmd.passMark).count .drawIndexed = 60 ∧
    ((prefilteredCommands elementsCount).filterMap Cmd.passMark).count .copyImage = 60 := by
  rw [prefilteredCommands_marks]
  simp only [List.count_append, count_flatten_replicate, List.filter_append,
    filter_flatten_replicate]
  exact ⟨List.append_nil _, by decide, by decide, by decide, by decide⟩

/-- C23: in the command sequence recorded by either entry point the render
passes are properly bracketed.  Restricted to begin render pass, indexed draw,
end render pass, pipeline barrier and image copy, every iteration records
begin, draw, end, barrier, copy, barrier, in this order; the bracket check
(a begin only outside a pass, an end only inside a pass holding exactly one
draw, no draw outside a pass, no barrier or copy inside a pass, the sequence
ends outside a pass) accepts the whole sequence; begin and end alternate
starting with begin; there are 6 begins, ends, draws and copies for the
irradiance map and 60 for the prefiltered map.  The same check accepts what
any run of either entry point records.  The check does reject sequences that
break one of its rules. -/
theorem render_passes_bracketed :
    (∀ elementsCount : Nat,
      (∀ i : Nat, (irradianceIteration elementsCount i).filterMap Cmd.passMark
        = [.beginRenderPass, .drawIndexed, .endRenderPass, .pipelineBarrier, .copyImage,
            .pipelineBarrier]) ∧
      properlyBracketed (irradianceCommands elementsCount) = true ∧
      ((irradianceCommands elementsCount).filterMap Cmd.passMark).filter
          (fun k => k = .beginRenderPass ∨ k = .endRenderPass)
        = (List.replicate 6 [PassMark.beginRenderPass, .endRenderPass]).flatten ∧
      ((irradianceCommands elementsCount).filterMap Cmd.passMark).count .beginRenderPass = 6 ∧
      ((irradianceCommands elementsCount).filterMap Cmd.passMark).count .endRenderPass = 6 ∧
      ((irradianceCommands elementsCount).filterMap Cmd.passMark).count .drawIndexed = 6 ∧
      ((irradianceCommands elementsCount).filterMap Cmd.passMark).count .copyImage = 6) ∧
    (∀ elementsCount : Nat,
      (∀ m i : Nat, (prefilteredIteration elementsCount m i).filterMap Cmd.passMark
        = [.beginRenderPass, .drawIndexed, .endRenderPass, .pipelineBarrier, .copyImage,
            .pipelineBarrier]) ∧
      properlyBracketed (prefilteredCommands elementsCount) = true ∧
      ((prefilteredCommands elementsCount).filterMap Cmd.passMark).filter
          (fun k => k = .beginRenderPass ∨ k = .endRenderPass)
        = (List.replicate 60 [PassMark.beginRenderPass, .endRenderPass]).flatten ∧
      ((prefilteredCommands elementsCount).filterMap Cmd.passMark).count .beginRenderPass = 60 ∧
      ((prefilteredCommands elementsCount).filterMap Cmd.passMark).count .endRenderPass = 60 ∧
      ((prefilteredCommands elementsCount).filterMap Cmd.passMark).count .drawIndexed = 60 ∧
      ((prefilteredCommands elementsCount).filterMap Cmd.passMark).count .copyImage = 60) ∧
    (∀ w : World,
      properlyBracketed ((createIrradianceMap w).trace.filterMap Event.recorded) = true ∧
      properlyBracketed ((createPrefilteredMap w).trace.filterMap Event.recorded) = true) ∧
    renderPassRun none [.beginRenderPass, .drawIndexed] = some (some 1) ∧
    renderPassRun none [.beginRenderPass, .beginRenderPass] = none ∧
    renderPassRun none [.endRenderPass] = none ∧
    renderPassRun none [.beginRenderPass, .endRenderPass] = none ∧
    renderPassRun none [.beginRenderPass, .drawIndexed, .drawIndexed, .endRenderPass] = none ∧
    renderPassRun none [.drawIndexed] = none ∧
    renderPassRun none [.beginRenderPass, .drawIndexed, .pipelineBarrier, .endRenderPass]
      = none ∧
    renderPassRun none [.beginRenderPass, .drawIndexed, .copyImage, .endRenderPass] = none := by
  refine ⟨fun elementsCount => ⟨fun _ => rfl, irradianceCommands_bracketed elementsCount,
      irradianceCommands_mark_counts elementsCount⟩,
    fun elementsCount => ⟨fun _ _ => rfl, prefilteredCommands_bracketed elementsCount,
      prefilteredCommands_mark_counts elementsCount⟩,
    fun w => ⟨?_, ?_⟩, rfl, rfl, rfl, rfl, rfl, rfl, rfl, rfl⟩
  · rcases irradiance_recorded w with h | h
    · rw [h]; rfl
    · rw [h]; exact irradianceCommands_bracketed w.elementsCount
  · rcases prefiltered_recorded w with h | h
    · rw [h]; rfl
    · rw [h]; exact prefilteredCommands_bracketed w.elementsCount

/-! ## Order of the offscreen-target steps -/

theorem irradiance_targetSteps_ordered (w : World) :
    (createIrradianceMap w).Sat (fun t _ =>
      t.filterMap Event.targetStep <+: TargetStep.inOrder) := by
  simp only [createIrradianceMap, sat_call, sat_check, sat_checkSome, sat_after,
    sat_returnAdded, sat_returnNullptr, List.filterMap_cons, List.filterMap_append,
    List.filterMap_nil, List.nil_append, List.append_nil, Event.targetStep, addLayers_filterMap,
    record_filterMap, TargetStep.inOrder, List.cons_prefix_cons, List.nil_prefix,
    List.prefix_refl, true_or, or_true, implies_true, and_self, true_and, and_true,
    List.cons_append]

theorem prefiltered_targetSteps_ordered (w : World) :
    (createPrefilteredMap w).Sat (fun t _ =>
      t.filterMap Event.targetStep <+: TargetStep.inOrder) := by
  simp only [createPrefilteredMap, sat_call, sat_check, sat_checkSome, sat_after,
    sat_returnAdded, sat_returnNullptr, List.filterMap_cons, List.filterMap_append,
    List.filterMap_nil, List.nil_append, List.append_nil, Event.targetStep, addLayers_filterMap,
    record_filterMap, TargetStep.inOrder, List.cons_prefix_cons, List.nil_prefix,
    List.prefix_refl, true_or, or_true, implies_true, and_self, true_and, and_true,
    List.cons_append]

theorem irradiance_target_failure (w : World) (s : TargetStep) (h : w.targetOk s = false) :
    (createIrradianceMap w).Sat (fun t v =>
      t.filterMap Event.targetStep <+: TargetStep.inOrder.take (s.rank + 1) ∧ v = none ∧
        t.filterMap Event.recorded = [] ∧ Event.cmdBegin ∉ t) := by
  cases s <;> simp only [World.targetOk] at h <;>
  simp only [createIrradianceMap, sat_call, sat_check, sat_checkSome, sat_after,
    sat_returnAdded, sat_returnNullptr, List.filterMap_cons, List.filterMap_append,
    List.filterMap_nil, List.nil_append, List.append_nil, Event.targetStep, addLayers_filterMap,
    record_filterMap, TargetStep.inOrder, TargetStep.rank, List.take_succ_cons, List.take_zero,
    List.cons_prefix_cons, List.nil_prefix, Nat.zero_add, Nat.reduceAdd,
    List.prefix_refl, true_or, or_true, implies_true, and_self, true_and, and_true,
    List.cons_append, h, Bool.false_eq_true, false_implies, Event.recorded,
    List.mem_cons, List.mem_append, addLayers_mem, record_mem, List.not_mem_nil,
    reduceCtorEq, false_or, or_false, or_self, not_false_eq_true, ne_eq]

theorem prefiltered_target_failure (w : World) (s : TargetStep) (h : w.targetOk s = false) :
    (createPrefilteredMap w).Sat (fun t v =>
      t.filterMap Event.targetStep <+: TargetStep.inOrder.take (s.rank + 1) ∧ v = none ∧
        t.filterMap Event.recorded = [] ∧ Event.cmdBegin ∉ t) := by
  cases s <;> simp only [World.targetOk] at h <;>
  simp only [createPrefilteredMap, sat_call, sat_check, sat_checkSome, sat_after,
    sat_returnAdded, sat_returnNullptr, List.filterMap_cons, List.filterMap_append,
    List.filterMap_nil, List.nil_append, List.append_nil, Event.targetStep, addLayers_filterMap,
    record_filterMap, TargetStep.inOrder, TargetStep.rank, List.take_succ_cons, List.take_zero,
    List.cons_prefix_cons, List.nil_prefix, Nat.zero_add, Nat.reduceAdd,
    List.prefix_refl, true_or, or_true, implies_true, and_self, true_and, and_true,
    List.cons_append, h, Bool.false_eq_true, false_implies, Event.recorded,
    List.mem_cons, List.mem_append, addLayers_mem, record_mem, List.not_mem_nil,
    reduceCtorEq, false_or, or_false, or_self, not_false_eq_true, ne_eq]

theorem mem_take_rank (s s' : TargetStep) (h : s' ∈ TargetStep.inOrder.take (s.rank + 1)) :
    s'.rank ≤ s.rank := by
  cases s <;> cases s' <;> simp [TargetStep.inOrder, TargetStep.rank] at h ⊢

theorem prefix_take_of_mem (s : TargetStep) (l : List TargetStep)
    (h : l <+: TargetStep.inOrder.take (s.rank + 1)) (hs : s ∈ l) :
    l = TargetStep.inOrder.take (s.rank + 1) := by
  have h1 := List.prefix_iff_eq_take.mp h
  have h2 := h.length_le
  cases s <;> simp only [TargetStep.inOrder, TargetStep.rank, List.take_succ_cons, List.take_zero,
    Nat.zero_add, Nat.reduceAdd, List.length_cons, List.length_nil] at h1 h2 ⊢ <;>
  (rw [h1] at hs ⊢; clear h1 h; revert hs h2; generalize l.length = n; intro hs h2
   interval_cases n <;> simp at hs ⊢)

theorem targetInOrder_of (w : World) (o : Outcome)
    (h1 : o.targetSteps <+: TargetStep.inOrder)
    (h2 : ∀ s, w.targetOk s = false →
      o.targetSteps <+: TargetStep.inOrder.take (s.rank + 1) ∧ o.value = none ∧
        o.trace.filterMap Event.recorded = [] ∧ Event.cmdBegin ∉ o.trace) :
    offscreenTargetInOrder w o := by
  refine ⟨h1, fun s hs s' hlt => ?_, fun s hs hf => ?_⟩
  · cases hok : w.targetOk s' with
    | true => rfl
    | false =>
      have h := mem_take_rank s' s ((h2 s' hok).1.subset hs)
      omega
  · obtain ⟨h3, h4, h5, h6⟩ := h2 s hf
    exact ⟨h4, prefix_take_of_mem s _ h3 hs, h5, h6⟩

theorem prefiltered_good_targetSteps :
    (createPrefilteredMap goodWorld).targetSteps = TargetStep.inOrder := by
  obtain ⟨-, ht⟩ := prefiltered_success_trace goodWorld _ rfl (goodWorld_allSucceed _)
  rw [Outcome.targetSteps, ht]
  simp only [List.filterMap_append, record_filterMap, List.append_nil, Event.targetStep,
    implies_true]
  rfl

/-- C22: in both entry points the offscreen target is built in the fixed
order image build, `addImage` on the device-memory builder, device-memory
build, image-view build, framebuffer build.  In every world the steps a run
attempts are a prefix of this order; a step is attempted only if every
earlier step succeeded; and when an attempted step fails the run returns a
null pointer, the attempted steps end with the failed one, nothing is
recorded and `cmdBuffer.begin()` is never called.  The runs in the sample
worlds show all five steps when everything succeeds, three when the device
memory cannot be built, two when `addImage` fails. -/
theorem offscreen_target_order :
    (∀ w : World,
      offscreenTargetInOrder w (createIrradianceMap w) ∧
        offscreenTargetInOrder w (createPrefilteredMap w)) ∧
    (createIrradianceMap goodWorld).targetSteps
      = [.imageBuild, .addImage, .deviceMemoryBuild, .imageViewBuild, .framebufferBuild] ∧
    (createPrefilteredMap goodWorld).targetSteps
      = [.imageBuild, .addImage, .deviceMemoryBuild, .imageViewBuild, .framebufferBuild] ∧
    (createIrradianceMap memoryFailingWorld).targetSteps
      = [.imageBuild, .addImage, .deviceMemoryBuild] ∧
    (createIrradianceMap memoryFailingWorld).value = none ∧
    (createPrefilteredMap addImageFailingWorld).targetSteps = [.imageBuild, .addImage] ∧
    (createPrefilteredMap addImageFailingWorld).value = none := by
  refine ⟨fun w => ⟨targetInOrder_of w _ (irradiance_targetSteps_ordered w)
        (fun s h => irradiance_target_failure w s h),
      targetInOrder_of w _ (prefiltered_targetSteps_ordered w)
        (fun s h => prefiltered_target_failure w s h)⟩,
    by decide, prefiltered_good_targetSteps, by decide, by decide, by decide, by decide⟩

/-! ## The live-instance counter -/

theorem skyBoxCountAfter_delete (skyBoxCount : Nat) (t : List Event) :
    skyBoxCountAfter skyBoxCount (.deleteSkyBox :: t)
      = skyBoxCountAfter (destroy skyBoxCount) t := by
  delta skyBoxCountAfter
  rfl

theorem skyBoxCountAfter_other (skyBoxCount : Nat) (e : Event) (t : List Event)
    (he : e.isDeleteSkyBox = false) :
    skyBoxCountAfter skyBoxCount (e :: t) = skyBoxCountAfter skyBoxCount t := by
  cases e with
  | deleteSkyBox => exact absurd he (by decide)
  | _ => rfl

theorem skyBoxCountAfter_eq (skyBoxCount : Nat) (t : List Event) :
    skyBoxCountAfter skyBoxCount t
      = destroy^[(t.filter Event.isDeleteSkyBox).length] skyBoxCount := by
  induction t generalizing skyBoxCount with
  | nil => rfl
  | cons e t ih =>
    cases he : e.isDeleteSkyBox with
    | false => rw [skyBoxCountAfter_other _ _ _ he, List.filter_cons_of_neg (by simp [he]), ih]
    | true =>
      have h : e = .deleteSkyBox := by
        cases e with
        | deleteSkyBox => rfl
        | _ => simp [Event.isDeleteSkyBox] at he
      subst h
      rw [skyBoxCountAfter_delete, List.filter_cons_of_pos he, List.length_cons,
        Function.iterate_succ_apply, ih]

theorem destroy_zero : destroy 0 = 4294967295 := by
  unfold destroy
  norm_num

theorem iterate_destroy_one (skyBoxCount : Nat) :
    destroy^[1] skyBoxCount = (skyBoxCount + (2 ^ 32 - 1)) % 2 ^ 32 := by
  rw [Function.iterate_one, destroy]

theorem irradiance_deletions (w : World) :
    (createIrradianceMap w).Sat (fun t v =>
      (v = none → (t.filter Event.isDeleteSkyBox).length = 1) ∧
        (v ≠ none → (t.filter Event.isDeleteSkyBox).length = 0)) := by
  simp only [createIrradianceMap, sat_call, sat_check, sat_checkSome, sat_after, sat_returnAdded,
    sat_returnNullptr, List.filter_cons, List.filter_append, List.filter_nil, List.nil_append,
    List.append_nil, Event.isDeleteSkyBox, addLayers_filter, record_filter, Bool.false_eq_true,
    if_false, if_true, implies_true, and_self, reduceCtorEq, false_implies, true_implies,
    List.length_cons, List.length_nil, List.length_singleton, ne_eq, not_true_eq_false,
    not_false_eq_true, Nat.zero_add, and_true, true_and]

theorem prefiltered_deletions (w : World) :
    (createPrefilteredMap w).Sat (fun t v =>
      (v = none → (t.filter Event.isDeleteSkyBox).length = 1) ∧
        (v ≠ none → (t.filter Event.isDeleteSkyBox).length = 0)) := by
  simp only [createPrefilteredMap, sat_call, sat_check, sat_checkSome, sat_after, sat_returnAdded,
    sat_returnNullptr, List.filter_cons, List.filter_append, List.filter_nil, List.nil_append,
    List.append_nil, Event.isDeleteSkyBox, addLayers_filter, record_filter, Bool.false_eq_true,
    if_false, if_true, implies_true, and_self, reduceCtorEq, false_implies, true_implies,
    List.length_cons, List.length_nil, List.length_singleton, ne_eq, not_true_eq_false,
    not_false_eq_true, Nat.zero_add, and_true, true_and]

theorem irradiance_added (w : World) :
    (createIrradianceMap w).Sat (fun t v =>
      v ≠ none → Event.add (w.name ++ "_irradiance_map") ∈ t) := by
  simp only [createIrradianceMap, sat_call, sat_check, sat_checkSome, sat_after, sat_returnAdded,
    sat_returnNullptr, ne_eq, not_true_eq_false, false_implies, implies_true, and_self,
    List.mem_cons, List.mem_append, List.mem_singleton, true_or, or_true, and_true, true_and]

theorem prefiltered_added (w : World) :
    (createPrefilteredMap w).Sat (fun t v =>
      v ≠ none → Event.add (w.name ++ "_prefiltered_map") ∈ t) := by
  simp only [createPrefilteredMap, sat_call, sat_check, sat_checkSome, sat_after, sat_returnAdded,
    sat_returnNullptr, ne_eq, not_true_eq_false, false_implies, implies_true, and_self,
    List.mem_cons, List.mem_append, List.mem_singleton, true_or, or_true, and_true, true_and]

theorem irradiance_add_no_deletion (w : World) :
    (createIrradianceMap w).Sat (fun t _ =>
      ∀ n, Event.add n ∈ t → (t.filter Event.isDeleteSkyBox).length = 0) := by
  simp only [createIrradianceMap, sat_call, sat_check, sat_checkSome, sat_after, sat_returnAdded,
    sat_returnNullptr, List.filter_cons, List.filter_append, List.filter_nil, List.nil_append,
    List.append_nil, Event.isDeleteSkyBox, addLayers_filter, record_filter, Bool.false_eq_true,
    if_false, if_true, implies_true, and_self, reduceCtorEq, false_implies, List.mem_cons,
    List.mem_append, addLayers_mem, record_mem, List.not_mem_nil, false_or, or_false,
    true_or, true_implies, List.length_cons, List.length_nil, ne_eq, not_false_eq_true,
    or_self, List.length_singleton, List.cons_append, true_and, and_true]

theorem prefiltered_add_no_deletion (w : World) :
    (createPrefilteredMap w).Sat (fun t _ =>
      ∀ n, Event.add n ∈ t → (t.filter Event.isDeleteSkyBox).length = 0) := by
  simp only [createPrefilteredMap, sat_call, sat_check, sat_checkSome, sat_after,
    sat_returnAdded,
    sat_returnNullptr, List.filter_cons, List.filter_append, List.filter_nil, List.nil_append,
    List.append_nil, Event.isDeleteSkyBox, addLayers_filter, record_filter, Bool.false_eq_true,
    if_false, if_true, implies_true, and_self, reduceCtorEq, false_implies, List.mem_cons,
    List.mem_append, addLayers_mem, record_mem, List.not_mem_nil, false_or, or_false,
    true_or, true_implies, List.length_cons, List.length_nil, ne_eq, not_false_eq_true,
    or_self, List.length_singleton, List.cons_append, true_and, and_true]

theorem destroy_of_pos (skyBoxCount : Nat) (h0 : 0 < skyBoxCount) (h : skyBoxCount < 2 ^ 32) :
    destroy skyBoxCount = skyBoxCount - 1 := by
  unfold destroy
  omega

/-- C24: a call of `createIrradianceMap` or `createPrefilteredMap` that returns
a null pointer leaves `_skyBoxCount` at `(skyBoxCount + 2^32 - 1) mod 2^32`,
one less modulo 2^32 than before the call: the derived SkyBox it constructed
is deleted once, `~SkyBox` calls `destroy`, which decrements the counter, and
the constructor does not touch it.  A call that reaches the resource-manager
`add` leaves the counter as it was, and every call that does not return a
null pointer reaches `add`.  `destroy` takes 0 to 4294967295 and a counter
between 1 and 2^32 - 1 to one less.  In the sample worlds: a failing call from
0 leaves 4294967295, a failing call from 7 leaves 6, a successful call from 0
leaves 0. -/
theorem failing_call_lowers_counter :
    (∀ (w : World) (skyBoxCount : Nat),
      ((createIrradianceMap w).value = none →
        skyBoxCountAfter skyBoxCount (createIrradianceMap w).trace
          = (skyBoxCount + (2 ^ 32 - 1)) % 2 ^ 32) ∧
      (∀ name, Event.add name ∈ (createIrradianceMap w).trace →
        skyBoxCountAfter skyBoxCount (createIrradianceMap w).trace = skyBoxCount) ∧
      ((createIrradianceMap w).value ≠ none →
        Event.add (w.name ++ "_irradiance_map") ∈ (createIrradianceMap w).trace) ∧
      ((createPrefilteredMap w).value = none →
        skyBoxCountAfter skyBoxCount (createPrefilteredMap w).trace
          = (skyBoxCount + (2 ^ 32 - 1)) % 2 ^ 32) ∧
      (∀ name, Event.add name ∈ (createPrefilteredMap w).trace →
        skyBoxCountAfter skyBoxCount (createPrefilteredMap w).trace = skyBoxCount) ∧
      ((createPrefilteredMap w).value ≠ none →
        Event.add (w.name ++ "_prefiltered_map") ∈ (createPrefilteredMap w).trace)) ∧
    (∀ skyBoxCount : Nat, 0 < skyBoxCount → skyBoxCount < 2 ^ 32 →
      destroy skyBoxCount = skyBoxCount - 1) ∧
    destroy 0 = 4294967295 ∧
    (∀ (name : String) (skyBoxCount : Nat),
      skyBoxCountAfter skyBoxCount [.newSkyBox name] = skyBoxCount) ∧
    (createIrradianceMap beginFailingWorld).value = none ∧
    skyBoxCountAfter 0 (createIrradianceMap beginFailingWorld).trace = 4294967295 ∧
    (createPrefilteredMap queueLessWorld).value = none ∧
    skyBoxCountAfter 0 (createPrefilteredMap queueLessWorld).trace = 4294967295 ∧
    skyBoxCountAfter 7 (createPrefilteredMap queueLessWorld).trace = 6 ∧
    (createIrradianceMap goodWorld).value ≠ none ∧
    skyBoxCountAfter 0 (createIrradianceMap goodWorld).trace = 0 := by
  have hb : ((createIrradianceMap beginFailingWorld).trace.filter
      Event.isDeleteSkyBox).length = 1 := by decide
  have hq : ((createPrefilteredMap queueLessWorld).trace.filter
      Event.isDeleteSkyBox).length = 1 := by decide
  have hg : ((createIrradianceMap goodWorld).trace.filter
      Event.isDeleteSkyBox).length = 0 := by decide
  refine ⟨fun w skyBoxCount => ⟨fun h => ?_, fun n h => ?_, irradiance_added w, fun h => ?_,
      fun n h => ?_, prefiltered_added w⟩,
    destroy_of_pos, destroy_zero, fun _ _ => skyBoxCountAfter_other _ _ _ rfl, rfl, ?_, rfl,
    ?_, ?_, by decide, ?_⟩
  · rw [skyBoxCountAfter_eq, (irradiance_deletions w).1 h, iterate_destroy_one]
  · rw [skyBoxCountAfter_eq, irradiance_add_no_deletion w n h, Function.iterate_zero_apply]
  · rw [skyBoxCountAfter_eq, (prefiltered_deletions w).1 h, iterate_destroy_one]
  · rw [skyBoxCountAfter_eq, prefiltered_add_no_deletion w n h, Function.iterate_zero_apply]
  · rw [skyBoxCountAfter_eq, hb, Function.iterate_one, destroy_zero]
  · rw [skyBoxCountAfter_eq, hq, Function.iterate_one, destroy_zero]
  · rw [skyBoxCountAfter_eq, hq, Function.iterate_one,
      destroy_of_pos 7 (by decide) (by norm_num)]
  · rw [skyBoxCountAfter_eq, hg, Function.iterate_zero_apply]

end SkyBox
